import Mathlib

/-!
Shallow embedding of the neural-network engine (`languageModel.ts`) of the
Interactive Neural Network Playground.  Matrices are rectangular containers of
real numbers (the idealisation of IEEE doubles); every operation below is the
direct translation of the corresponding source function.  Out-of-range reads,
which in the source would yield `undefined`, are modelled as the default `0`;
all theorems are stated on well-formed inputs where no such read occurs.
Randomness (dropout masks, sampling draws) is modelled by explicit oracle
parameters, as the spec itself recommends for testing.
-/

namespace LM

noncomputable section

/-- A dense 2-D real container, mirroring the source's `Matrix` shape
(`rows`, `cols`, row-major `data`). -/
structure Matrix where
  rows : Nat
  cols : Nat
  data : List (List ℝ)

instance : Inhabited Matrix := ⟨⟨0, 0, []⟩⟩

/-- Read entry `(i, j)`; out-of-range reads give `0` (the source would read
`undefined`; theorems only ever read in range). -/
def Matrix.get (m : Matrix) (i j : Nat) : ℝ :=
  (m.data.getD i []).getD j 0

/-- Build an `r × c` matrix from an entry function; this is the common shape of
every `for i / for j` result-filling loop of the source. -/
def ofFn (r c : Nat) (f : Nat → Nat → ℝ) : Matrix :=
  ⟨r, c, (List.range r).map fun i => (List.range c).map fun j => f i j⟩

/-- `createMatrix(rows, cols, fill)` with a constant fill value. -/
def createMatrix (rows cols : Nat) (fill : ℝ) : Matrix :=
  ofFn rows cols fun _ _ => fill

/-- `dot(a, b)`: matrix product.  The source throws on
`a.cols ≠ b.rows`; in the engine every call site is shape-correct, and the
translation computes the same triple loop (out-of-range reads default to 0). -/
def dot (a b : Matrix) : Matrix :=
  ofFn a.rows b.cols fun i j =>
    (List.range a.cols).foldl (fun s k => s + a.get i k * b.get k j) 0

/-- `add(a, b)`: element-wise sum on equal shapes; on a shape mismatch with
`a.rows > 1` and `b.rows = 1` the single row of `b` is broadcast over `a`
(note: the source checks no column agreement in that branch); any other
mismatch returns `a` unchanged (the source logs and returns `a`). -/
def add (a b : Matrix) : Matrix :=
  if a.rows = b.rows ∧ a.cols = b.cols then
    ofFn a.rows a.cols fun i j => a.get i j + b.get i j
  else if 1 < a.rows ∧ b.rows = 1 then
    ofFn a.rows a.cols fun i j => a.get i j + b.get 0 j
  else a

/-- `subtract(a, b)`; the source throws on shape mismatch, every engine call
site is shape-correct. -/
def subtract (a b : Matrix) : Matrix :=
  ofFn a.rows a.cols fun i j => a.get i j - b.get i j

/-- `multiply(a, b)`: Hadamard product; the source throws on shape mismatch,
every engine call site is shape-correct. -/
def multiply (a b : Matrix) : Matrix :=
  ofFn a.rows a.cols fun i j => a.get i j * b.get i j

/-- `scale(m, s)`. -/
def scale (m : Matrix) (s : ℝ) : Matrix :=
  ofFn m.rows m.cols fun i j => m.get i j * s

/-- `transpose(m)`. -/
def transpose (m : Matrix) : Matrix :=
  ofFn m.cols m.rows fun i j => m.get j i

/-- `map(m, fn)`. -/
def map (m : Matrix) (fn : ℝ → ℝ) : Matrix :=
  ofFn m.rows m.cols fun i j => fn (m.get i j)

/-- `ones(rows, cols)`. -/
def ones (rows cols : Nat) : Matrix := createMatrix rows cols 1

/-- `tanh` activation. -/
def tanh (x : ℝ) : ℝ := Real.tanh x

/-- Derivative of tanh in terms of the forward output `y`. -/
def dtanh (y : ℝ) : ℝ := 1 - y * y

/-- `sigmoid` activation. -/
def sigmoid (x : ℝ) : ℝ := 1 / (1 + Real.exp (-x))

/-- Derivative of sigmoid in terms of the forward output `y`. -/
def dsigmoid (y : ℝ) : ℝ := y * (1 - y)

/-- `Math.max(...row)` for the (nonempty) logits row. -/
def rowMax (row : List ℝ) : ℝ := row.foldl max (row.headD 0)

/-- The stabilised exponentials `row.map(x => Math.exp(x - maxVal))`. -/
def rowExps (row : List ℝ) : List ℝ :=
  row.map fun x => Real.exp (x - rowMax row)

/-- `exps.reduce((a, b) => a + b, 0)`. -/
def sumExps (row : List ℝ) : ℝ := (rowExps row).foldl (· + ·) 0

/-- `softmax(m)`: row softmax of a `1 × n` logits matrix, with the source's
max-subtraction stabilisation and its `|| 1` zero-denominator fallback. -/
def softmax (m : Matrix) : Matrix :=
  if m.data.length = 0 ∨ (m.data.headD []).length = 0 then createMatrix 1 m.cols 0
  else
    let row := m.data.headD []
    let s := sumExps row
    ⟨1, m.cols, [(rowExps row).map fun e => e / (if s = 0 then 1 else s)]⟩

/-- The gradient-clipping lambda `clip` shared by all four training steps. -/
def clip (m : Matrix) : Matrix :=
  map m fun v => max (-5) (min 5 v)

/-- One-hot input row: `createMatrix(1, n)` followed by `data[0][idx] = 1`. -/
def oneHot (n idx : Nat) : Matrix :=
  ofFn 1 n fun _ j => if j = idx then 1 else 0

/-- Deep-copy `m` and subtract `1` at entry `(i, j)` — the softmax +
cross-entropy output gradient (`dOutput.data[0][target] -= 1` on a copy). -/
def decAt (m : Matrix) (i j : Nat) : Matrix :=
  ofFn m.rows m.cols fun r k => if r = i ∧ k = j then m.get r k - 1 else m.get r k

/-- `row.indexOf(Math.max(...row))`: index of the first maximal entry. -/
def argmaxRow (row : List ℝ) : Nat := List.indexOf (rowMax row) row

/-- The cross-entropy epsilon `1e-9`. -/
def lossEps : ℝ := 1 / 10 ^ 9

/-- A weight matrix plus its bias row, as in the source's `Layer`. -/
structure Layer where
  weights : Matrix
  biases : Matrix

instance : Inhabited Layer := ⟨⟨default, default⟩⟩

/-- One entry of `predictionResults`. -/
structure PredictionEntry where
  inputToken : String
  targetToken : String
  predictedToken : String

/-- FFNN model state (the `type` discriminator tag is omitted: each
architecture gets its own Lean structure).  `tokenToIndex` is modelled as the
lookup function the source's object provides. -/
structure FFNNModel where
  vocab : List String
  tokenToIndex : String → Option Nat
  hiddenLayer : Layer
  outputLayer : Layer

/-- RNN model state. -/
structure RNNModel where
  vocab : List String
  tokenToIndex : String → Option Nat
  Wxh : Layer
  Whh : Layer
  Why : Layer
  h : Matrix

/-- GRU model state. -/
structure GRULanguageModel where
  vocab : List String
  tokenToIndex : String → Option Nat
  Wz : Layer
  Uz : Layer
  Wr : Layer
  Ur : Layer
  Wh : Layer
  Uh : Layer
  Why : Layer
  h : Matrix

/-- LSTM model state. -/
structure LSTMLanguageModel where
  vocab : List String
  tokenToIndex : String → Option Nat
  Wf : Layer
  Uf : Layer
  Wi : Layer
  Ui : Layer
  Wo : Layer
  Uo : Layer
  Wc : Layer
  Uc : Layer
  Why : Layer
  h : Matrix
  c : Matrix

/-! ### Well-formedness (shape) checks

Boolean shape predicates; they look only at dimensions and list lengths, so a
concrete instance can be checked by `decide` even over real entries. -/

/-- `m` is an exactly `r × c` container. -/
def Matrix.wfB (m : Matrix) (r c : Nat) : Bool :=
  m.rows == r && m.cols == c && m.data.length == r && m.data.all fun row => row.length == c

/-- `l` maps `i` inputs to `o` outputs. -/
def Layer.wfB (l : Layer) (i o : Nat) : Bool :=
  l.weights.wfB i o && l.biases.wfB 1 o

/-- FFNN shape invariant with hidden size `H`. -/
def FFNNModel.wfB (m : FFNNModel) (H : Nat) : Bool :=
  m.hiddenLayer.wfB m.vocab.length H && m.outputLayer.wfB H m.vocab.length

/-- RNN shape invariant with hidden size `H`. -/
def RNNModel.wfB (m : RNNModel) (H : Nat) : Bool :=
  m.Wxh.wfB m.vocab.length H && m.Whh.wfB H H && m.Why.wfB H m.vocab.length &&
    m.h.wfB 1 H

/-- GRU shape invariant with hidden size `H`. -/
def GRULanguageModel.wfB (m : GRULanguageModel) (H : Nat) : Bool :=
  m.Wz.wfB m.vocab.length H && m.Uz.wfB H H && m.Wr.wfB m.vocab.length H &&
    m.Ur.wfB H H && m.Wh.wfB m.vocab.length H && m.Uh.wfB H H &&
    m.Why.wfB H m.vocab.length && m.h.wfB 1 H

/-- LSTM shape invariant with hidden size `H`. -/
def LSTMLanguageModel.wfB (m : LSTMLanguageModel) (H : Nat) : Bool :=
  m.Wf.wfB m.vocab.length H && m.Uf.wfB H H && m.Wi.wfB m.vocab.length H &&
    m.Ui.wfB H H && m.Wo.wfB m.vocab.length H && m.Uo.wfB H H &&
    m.Wc.wfB m.vocab.length H && m.Uc.wfB H H && m.Why.wfB H m.vocab.length &&
    m.h.wfB 1 H && m.c.wfB 1 H

/-! ### FFNN training step -/

/-- Per-batch accumulator of `trainStepFFNN`'s loop. -/
structure FFNNAcc where
  hiddenGrad : Layer
  outputGrad : Layer
  totalLoss : ℝ
  preds : List PredictionEntry

/-- Result of `trainStepFFNN` (visualisation-only fields — `inputToken`,
`targetToken`, `predictedToken` and the `activations` snapshot of the last
example — are omitted from the embedding; no claim concerns them). -/
structure FFNNTrainResult where
  updatedModel : FFNNModel
  loss : ℝ
  hiddenGrad : Layer
  outputGrad : Layer
  predictionResults : List PredictionEntry

/-- The body of `trainStepFFNN`'s batch loop at corpus position `i`: forward
pass, cross-entropy loss, backward pass, gradient accumulation. -/
def ffnnLoopStep (model : FFNNModel) (encodedText : List Nat) (acc : FFNNAcc)
    (i : Nat) : FFNNAcc :=
  let vocabSize := model.vocab.length
  let inputIndex := encodedText.getD i 0
  let targetIndex := encodedText.getD (i + 1) 0
  let inputVector := oneHot vocabSize inputIndex
  let hiddenRaw := add (dot inputVector model.hiddenLayer.weights) model.hiddenLayer.biases
  let hiddenActivated := map hiddenRaw tanh
  let outputRaw := add (dot hiddenActivated model.outputLayer.weights) model.outputLayer.biases
  let outputProbs := softmax outputRaw
  let loss := -Real.log (outputProbs.get 0 targetIndex + lossEps)
  let predictedIndex := argmaxRow (outputProbs.data.headD [])
  let dOutput := decAt outputProbs 0 targetIndex
  let dOutputWeights := dot (transpose hiddenActivated) dOutput
  let dOutputBiases := dOutput
  let dHiddenActivated := dot dOutput (transpose model.outputLayer.weights)
  let dHiddenRaw := multiply dHiddenActivated (map hiddenActivated dtanh)
  let dHiddenWeights := dot (transpose inputVector) dHiddenRaw
  let dHiddenBiases := dHiddenRaw
  { hiddenGrad := ⟨add acc.hiddenGrad.weights dHiddenWeights,
                   add acc.hiddenGrad.biases dHiddenBiases⟩
    outputGrad := ⟨add acc.outputGrad.weights dOutputWeights,
                   add acc.outputGrad.biases dOutputBiases⟩
    totalLoss := acc.totalLoss + loss
    preds := acc.preds ++
      [⟨model.vocab.getD inputIndex (""), model.vocab.getD targetIndex (""),
        model.vocab.getD predictedIndex ("")⟩] }

/-- `trainStepFFNN(model, encodedText, step, batchSize, learningRate)`. -/
def trainStepFFNN (model : FFNNModel) (encodedText : List Nat) (step batchSize : Nat)
    (learningRate : ℝ) : FFNNTrainResult :=
  let vocabSize := model.vocab.length
  let hiddenSize := model.hiddenLayer.weights.cols
  let batchEnd := min (step + batchSize) (encodedText.length - 1)
  let acc0 : FFNNAcc :=
    ⟨⟨createMatrix vocabSize hiddenSize 0, createMatrix 1 hiddenSize 0⟩,
     ⟨createMatrix hiddenSize vocabSize 0, createMatrix 1 vocabSize 0⟩, 0, []⟩
  let acc := (List.range' step (batchEnd - step)).foldl (ffnnLoopStep model encodedText) acc0
  let batchActualSize := batchEnd - step
  if batchActualSize = 0 then
    ⟨model, 0, acc.hiddenGrad, acc.outputGrad, []⟩
  else
    let lr := -learningRate / batchActualSize
    ⟨{ model with
        hiddenLayer := ⟨add model.hiddenLayer.weights (scale (clip acc.hiddenGrad.weights) lr),
                        add model.hiddenLayer.biases (scale (clip acc.hiddenGrad.biases) lr)⟩
        outputLayer := ⟨add model.outputLayer.weights (scale (clip acc.outputGrad.weights) lr),
                        add model.outputLayer.biases (scale (clip acc.outputGrad.biases) lr)⟩ },
     acc.totalLoss / batchActualSize, acc.hiddenGrad, acc.outputGrad, acc.preds⟩

/-! ### RNN training step (BPTT)

Dropout randomness is supplied by a `masks` oracle: when `dropoutRate > 0` the
source draws one fresh `1 × hiddenSize` mask per time step (entries `0` or
`1/(1-dropoutRate)`); the oracle hands the step-`t` mask to the embedding. -/

/-- Entries cached by the RNN forward pass for the backward pass. -/
structure RNNCache where
  inputVector : Matrix
  h_prev : Matrix
  h_next : Matrix
  mask : Option Matrix
  prob : Matrix
  h_next_dropped : Matrix

instance : Inhabited RNNCache := ⟨⟨default, default, default, none, default, default⟩⟩

/-- Forward-pass accumulator of the RNN sequence loop. -/
structure RNNFwd where
  cache : List RNNCache
  hiddenStates : List Matrix
  totalLoss : ℝ
  preds : List PredictionEntry

/-- One forward step of `trainStepRNN` at corpus position `t`. -/
def rnnFwdStep (model : RNNModel) (encodedText : List Nat) (dropoutRate : ℝ)
    (masks : Nat → Matrix) (st : RNNFwd) (t : Nat) : RNNFwd :=
  let vocabSize := model.vocab.length
  let inputVector := oneHot vocabSize (encodedText.getD t 0)
  let h_prev := st.hiddenStates.getLastD model.h
  let h_next_raw := add (add (dot inputVector model.Wxh.weights) model.Wxh.biases)
    (dot h_prev model.Whh.weights)
  let h_next := map h_next_raw tanh
  let mask : Option Matrix := if 0 < dropoutRate then some (masks t) else none
  let h_next_dropped := match mask with
    | some m => multiply h_next m
    | none => h_next
  let outputRaw := add (dot h_next_dropped model.Why.weights) model.Why.biases
  let prob := softmax outputRaw
  let targetIndex := encodedText.getD (t + 1) 0
  let loss := -Real.log (prob.get 0 targetIndex + lossEps)
  let predictedIndex := argmaxRow (prob.data.headD [])
  { cache := st.cache ++ [⟨inputVector, h_prev, h_next, mask, prob, h_next_dropped⟩]
    hiddenStates := st.hiddenStates ++ [h_next_dropped]
    totalLoss := st.totalLoss + loss
    preds := st.preds ++
      [⟨model.vocab.getD (encodedText.getD t 0) "", model.vocab.getD targetIndex (""),
        model.vocab.getD predictedIndex ("")⟩] }

/-- Running gradients of the RNN backward pass (there is no `Whh` bias
gradient in the source: the recurrent layer's bias is never used). -/
structure RNNBack where
  dWxh : Matrix
  dWhh : Matrix
  dWhy : Matrix
  dbxh : Matrix
  dbhy : Matrix
  dh_next_grad : Matrix

/-- One backward (BPTT) step of `trainStepRNN`, consuming the cache entry `e`
of a time step whose target token id is `targetIndex`. -/
def rnnBackStep (model : RNNModel) (targetIndex : Nat) (e : RNNCache)
    (st : RNNBack) : RNNBack :=
  let dy := decAt e.prob 0 targetIndex
  let dWhy := add st.dWhy (dot (transpose e.h_next_dropped) dy)
  let dbhy := add st.dbhy dy
  let dh0 := add (dot dy (transpose model.Why.weights)) st.dh_next_grad
  let dh := match e.mask with
    | some m => multiply dh0 m
    | none => dh0
  let dh_raw := multiply dh (map e.h_next dtanh)
  { dWxh := add st.dWxh (dot (transpose e.inputVector) dh_raw)
    dWhh := add st.dWhh (dot (transpose e.h_prev) dh_raw)
    dWhy := dWhy
    dbxh := add st.dbxh dh_raw
    dbhy := dbhy
    dh_next_grad := dot dh_raw (transpose model.Whh.weights) }

/-- Result of a recurrent training step (`trainStepRNN`): visualisation-only
fields other than the last hidden state are kept as plain tokens; the last
output-probability snapshot and gate snapshots are omitted (no claim concerns
them). -/
structure RNNTrainResult where
  updatedModel : RNNModel
  loss : ℝ
  inputToken : String
  targetToken : String
  predictedToken : String
  predictionResults : List PredictionEntry
  lastHidden : Matrix

/-- `trainStepRNN(model, encodedText, step, sequenceLength, learningRate,
dropoutRate)` with the dropout-mask oracle `masks`. -/
def trainStepRNN (model : RNNModel) (encodedText : List Nat) (step sequenceLength : Nat)
    (learningRate dropoutRate : ℝ) (masks : Nat → Matrix) : RNNTrainResult :=
  let vocabSize := model.vocab.length
  let hiddenSize := model.Wxh.weights.cols
  let seqEnd := min (step + sequenceLength) (encodedText.length - 1)
  let fwd := (List.range' step (seqEnd - step)).foldl
    (rnnFwdStep model encodedText dropoutRate masks) ⟨[], [model.h], 0, []⟩
  let back0 : RNNBack :=
    ⟨createMatrix vocabSize hiddenSize 0, createMatrix hiddenSize hiddenSize 0,
     createMatrix hiddenSize vocabSize 0, createMatrix 1 hiddenSize 0,
     createMatrix 1 vocabSize 0, createMatrix 1 hiddenSize 0⟩
  let back := (List.range fwd.cache.length).reverse.foldl
    (fun st t => rnnBackStep model (encodedText.getD (step + t + 1) 0)
      (fwd.cache.getD t default) st) back0
  let lr := -learningRate
  let updatedModel : RNNModel :=
    { model with
        Wxh := ⟨add model.Wxh.weights (scale (clip back.dWxh) lr),
                add model.Wxh.biases (scale (clip back.dbxh) lr)⟩
        Whh := ⟨add model.Whh.weights (scale (clip back.dWhh) lr), model.Whh.biases⟩
        Why := ⟨add model.Why.weights (scale (clip back.dWhy) lr),
                add model.Why.biases (scale (clip back.dbhy) lr)⟩
        h := fwd.hiddenStates.getLastD model.h }
  let lastProb := (fwd.cache.getLastD default).prob
  let predictedIndex := if fwd.cache.isEmpty then 0 else argmaxRow (lastProb.data.headD [])
  ⟨updatedModel,
   fwd.totalLoss / (if seqEnd - step = 0 then 1 else (seqEnd - step : ℝ)),
   model.vocab.getD (encodedText.getD (seqEnd - 1) 0) "",
   model.vocab.getD (encodedText.getD seqEnd 0) "",
   model.vocab.getD predictedIndex (""),
   fwd.preds,
   fwd.hiddenStates.getLastD model.h⟩

/-! ### GRU training step -/

/-- Entries cached by the GRU forward pass. -/
structure GRUCache where
  inputVector : Matrix
  h_prev : Matrix
  z_t : Matrix
  r_t : Matrix
  h_hat_t : Matrix
  h_t : Matrix
  mask : Option Matrix
  prob : Matrix
  h_t_dropped : Matrix

instance : Inhabited GRUCache :=
  ⟨⟨default, default, default, default, default, default, none, default, default⟩⟩

/-- Forward-pass accumulator of the GRU sequence loop. -/
structure GRUFwd where
  cache : List GRUCache
  hiddenStates : List Matrix
  totalLoss : ℝ
  preds : List PredictionEntry

/-- One forward step of `trainStepGRU` at corpus position `t`. -/
def gruFwdStep (model : GRULanguageModel) (encodedText : List Nat) (dropoutRate : ℝ)
    (masks : Nat → Matrix) (st : GRUFwd) (t : Nat) : GRUFwd :=
  let vocabSize := model.vocab.length
  let hiddenSize := model.Why.weights.rows
  let inputVector := oneHot vocabSize (encodedText.getD t 0)
  let h_prev := st.hiddenStates.getLastD model.h
  let z_t := map (add (add (dot inputVector model.Wz.weights) model.Wz.biases)
    (dot h_prev model.Uz.weights)) sigmoid
  let r_t := map (add (add (dot inputVector model.Wr.weights) model.Wr.biases)
    (dot h_prev model.Ur.weights)) sigmoid
  let h_hat_t := map (add (add (dot inputVector model.Wh.weights) model.Wh.biases)
    (dot (multiply r_t h_prev) model.Uh.weights)) tanh
  let h_t := add (multiply (subtract (ones 1 hiddenSize) z_t) h_prev) (multiply z_t h_hat_t)
  let mask : Option Matrix := if 0 < dropoutRate then some (masks t) else none
  let h_t_dropped := match mask with
    | some m => multiply h_t m
    | none => h_t
  let outputRaw := add (dot h_t_dropped model.Why.weights) model.Why.biases
  let prob := softmax outputRaw
  let targetIndex := encodedText.getD (t + 1) 0
  let loss := -Real.log (prob.get 0 targetIndex + lossEps)
  let predictedIndex := argmaxRow (prob.data.headD [])
  { cache := st.cache ++ [⟨inputVector, h_prev, z_t, r_t, h_hat_t, h_t, mask, prob, h_t_dropped⟩]
    hiddenStates := st.hiddenStates ++ [h_t_dropped]
    totalLoss := st.totalLoss + loss
    preds := st.preds ++
      [⟨model.vocab.getD (encodedText.getD t 0) "", model.vocab.getD targetIndex (""),
        model.vocab.getD predictedIndex ("")⟩] }

/-- Running gradients of the GRU backward pass. -/
structure GRUBack where
  gWz : Matrix
  gUz : Matrix
  gbz : Matrix
  gWr : Matrix
  gUr : Matrix
  gbr : Matrix
  gWh : Matrix
  gUh : Matrix
  gbh : Matrix
  gWhy : Matrix
  gby : Matrix
  dh_next_grad : Matrix

/-- One backward step of `trainStepGRU`; `hs_t1` is `hiddenStates[t + 1]`. -/
def gruBackStep (model : GRULanguageModel) (targetIndex : Nat) (hs_t1 : Matrix)
    (e : GRUCache) (st : GRUBack) : GRUBack :=
  let hiddenSize := model.Why.weights.rows
  let dy := decAt e.prob 0 targetIndex
  let gWhy := add st.gWhy (dot (transpose hs_t1) dy)
  let gby := add st.gby dy
  let dh0 := add (dot dy (transpose model.Why.weights)) st.dh_next_grad
  let dh := match e.mask with
    | some m => multiply dh0 m
    | none => dh0
  let dh_prev_from_h := multiply dh (subtract (ones 1 hiddenSize) e.z_t)
  let dz := multiply dh (subtract e.h_hat_t e.h_prev)
  let dh_hat := multiply dh e.z_t
  let dh_hat_raw := multiply dh_hat (map e.h_hat_t dtanh)
  let gWh := add st.gWh (dot (transpose e.inputVector) dh_hat_raw)
  let gbh := add st.gbh dh_hat_raw
  let gUh := add st.gUh (dot (transpose (multiply e.r_t e.h_prev)) dh_hat_raw)
  let dr_h_prev := dot dh_hat_raw (transpose model.Uh.weights)
  let dr := multiply dr_h_prev e.h_prev
  let dr_raw := multiply dr (map e.r_t dsigmoid)
  let gWr := add st.gWr (dot (transpose e.inputVector) dr_raw)
  let gbr := add st.gbr dr_raw
  let gUr := add st.gUr (dot (transpose e.h_prev) dr_raw)
  let dz_raw := multiply dz (map e.z_t dsigmoid)
  let gWz := add st.gWz (dot (transpose e.inputVector) dz_raw)
  let gbz := add st.gbz dz_raw
  let gUz := add st.gUz (dot (transpose e.h_prev) dz_raw)
  let dh_prev_from_r := multiply dr_h_prev e.r_t
  let dh_prev_from_z := dot dz_raw (transpose model.Uz.weights)
  let dh_prev_from_r_gate := dot dr_raw (transpose model.Ur.weights)
  ⟨gWz, gUz, gbz, gWr, gUr, gbr, gWh, gUh, gbh, gWhy, gby,
   add (add (add dh_prev_from_h dh_prev_from_r) dh_prev_from_z) dh_prev_from_r_gate⟩

/-- Result of `trainStepGRU` (same conventions as `RNNTrainResult`). -/
structure GRUTrainResult where
  updatedModel : GRULanguageModel
  loss : ℝ
  inputToken : String
  targetToken : String
  predictedToken : String
  predictionResults : List PredictionEntry
  lastHidden : Matrix

/-- `trainStepGRU(model, encodedText, step, sequenceLength, learningRate,
dropoutRate)` with the dropout-mask oracle `masks`. -/
def trainStepGRU (model : GRULanguageModel) (encodedText : List Nat)
    (step sequenceLength : Nat) (learningRate dropoutRate : ℝ)
    (masks : Nat → Matrix) : GRUTrainResult :=
  let vocabSize := model.vocab.length
  let hiddenSize := model.Why.weights.rows
  let seqEnd := min (step + sequenceLength) (encodedText.length - 1)
  let fwd := (List.range' step (seqEnd - step)).foldl
    (gruFwdStep model encodedText dropoutRate masks) ⟨[], [model.h], 0, []⟩
  let back0 : GRUBack :=
    ⟨createMatrix vocabSize hiddenSize 0, createMatrix hiddenSize hiddenSize 0,
     createMatrix 1 hiddenSize 0,
     createMatrix vocabSize hiddenSize 0, createMatrix hiddenSize hiddenSize 0,
     createMatrix 1 hiddenSize 0,
     createMatrix vocabSize hiddenSize 0, createMatrix hiddenSize hiddenSize 0,
     createMatrix 1 hiddenSize 0,
     createMatrix hiddenSize vocabSize 0, createMatrix 1 vocabSize 0,
     createMatrix 1 hiddenSize 0⟩
  let back := (List.range fwd.cache.length).reverse.foldl
    (fun st t => gruBackStep model (encodedText.getD (step + t + 1) 0)
      (fwd.hiddenStates.getD (t + 1) default) (fwd.cache.getD t default) st) back0
  let lr := -learningRate
  let updatedModel : GRULanguageModel :=
    { model with
        Wz := ⟨add model.Wz.weights (scale (clip back.gWz) lr),
               add model.Wz.biases (scale (clip back.gbz) lr)⟩
        Uz := ⟨add model.Uz.weights (scale (clip back.gUz) lr), model.Uz.biases⟩
        Wr := ⟨add model.Wr.weights (scale (clip back.gWr) lr),
               add model.Wr.biases (scale (clip back.gbr) lr)⟩
        Ur := ⟨add model.Ur.weights (scale (clip back.gUr) lr), model.Ur.biases⟩
        Wh := ⟨add model.Wh.weights (scale (clip back.gWh) lr),
               add model.Wh.biases (scale (clip back.gbh) lr)⟩
        Uh := ⟨add model.Uh.weights (scale (clip back.gUh) lr), model.Uh.biases⟩
        Why := ⟨add model.Why.weights (scale (clip back.gWhy) lr),
                add model.Why.biases (scale (clip back.gby) lr)⟩
        h := fwd.hiddenStates.getLastD model.h }
  let lastProb := (fwd.cache.getLastD default).prob
  let predictedIndex := if fwd.cache.isEmpty then 0 else argmaxRow (lastProb.data.headD [])
  ⟨updatedModel,
   fwd.totalLoss / (if seqEnd - step = 0 then 1 else (seqEnd - step : ℝ)),
   model.vocab.getD (encodedText.getD (seqEnd - 1) 0) "",
   model.vocab.getD (encodedText.getD seqEnd 0) "",
   model.vocab.getD predictedIndex (""),
   fwd.preds,
   fwd.hiddenStates.getLastD model.h⟩

/-! ### LSTM training step -/

/-- Entries cached by the LSTM forward pass. -/
structure LSTMCache where
  inputVector : Matrix
  h_prev : Matrix
  c_prev : Matrix
  f_t : Matrix
  i_t : Matrix
  o_t : Matrix
  c_hat_t : Matrix
  c_t : Matrix
  h_t : Matrix
  mask : Option Matrix
  prob : Matrix

instance : Inhabited LSTMCache :=
  ⟨⟨default, default, default, default, default, default, default, default, default,
    none, default⟩⟩

/-- Forward-pass accumulator of the LSTM sequence loop. -/
structure LSTMFwd where
  cache : List LSTMCache
  hiddenStates : List Matrix
  cellStates : List Matrix
  totalLoss : ℝ
  preds : List PredictionEntry

/-- One forward step of `trainStepLSTM` at corpus position `t`. -/
def lstmFwdStep (model : LSTMLanguageModel) (encodedText : List Nat) (dropoutRate : ℝ)
    (masks : Nat → Matrix) (st : LSTMFwd) (t : Nat) : LSTMFwd :=
  let vocabSize := model.vocab.length
  let inputVector := oneHot vocabSize (encodedText.getD t 0)
  let h_prev := st.hiddenStates.getLastD model.h
  let c_prev := st.cellStates.getLastD model.c
  let f_t := map (add (add (dot inputVector model.Wf.weights) model.Wf.biases)
    (dot h_prev model.Uf.weights)) sigmoid
  let i_t := map (add (add (dot inputVector model.Wi.weights) model.Wi.biases)
    (dot h_prev model.Ui.weights)) sigmoid
  let o_t := map (add (add (dot inputVector model.Wo.weights) model.Wo.biases)
    (dot h_prev model.Uo.weights)) sigmoid
  let c_hat_t := map (add (add (dot inputVector model.Wc.weights) model.Wc.biases)
    (dot h_prev model.Uc.weights)) tanh
  let c_t := add (multiply f_t c_prev) (multiply i_t c_hat_t)
  let h_t := multiply o_t (map c_t tanh)
  let mask : Option Matrix := if 0 < dropoutRate then some (masks t) else none
  let h_t_dropped := match mask with
    | some m => multiply h_t m
    | none => h_t
  let outputRaw := add (dot h_t_dropped model.Why.weights) model.Why.biases
  let prob := softmax outputRaw
  let targetIndex := encodedText.getD (t + 1) 0
  let loss := -Real.log (prob.get 0 targetIndex + lossEps)
  let predictedIndex := argmaxRow (prob.data.headD [])
  { cache := st.cache ++
      [⟨inputVector, h_prev, c_prev, f_t, i_t, o_t, c_hat_t, c_t, h_t, mask, prob⟩]
    hiddenStates := st.hiddenStates ++ [h_t_dropped]
    cellStates := st.cellStates ++ [c_t]
    totalLoss := st.totalLoss + loss
    preds := st.preds ++
      [⟨model.vocab.getD (encodedText.getD t 0) "", model.vocab.getD targetIndex (""),
        model.vocab.getD predictedIndex ("")⟩] }

/-- Running gradients of the LSTM backward pass. -/
structure LSTMBack where
  gWf : Matrix
  gUf : Matrix
  gbf : Matrix
  gWi : Matrix
  gUi : Matrix
  gbi : Matrix
  gWo : Matrix
  gUo : Matrix
  gbo : Matrix
  gWc : Matrix
  gUc : Matrix
  gbc : Matrix
  gWhy : Matrix
  gby : Matrix
  dh_next_grad : Matrix
  dc_next_grad : Matrix

/-- One backward step of `trainStepLSTM`; `hs_t1` is `hiddenStates[t + 1]`.
Note (faithful to the source): the recurrent contribution of the output gate
to `dh_next_grad` uses `do_raw = dh ⊙ tanh(c_t)` — *not* `do_t`, the gradient
after the sigmoid derivative that the weight gradients use. -/
def lstmBackStep (model : LSTMLanguageModel) (targetIndex : Nat) (hs_t1 : Matrix)
    (e : LSTMCache) (st : LSTMBack) : LSTMBack :=
  let dy := decAt e.prob 0 targetIndex
  let gWhy := add st.gWhy (dot (transpose hs_t1) dy)
  let gby := add st.gby dy
  let dh0 := add (dot dy (transpose model.Why.weights)) st.dh_next_grad
  let dh := match e.mask with
    | some m => multiply dh0 m
    | none => dh0
  let do_raw := multiply dh (map e.c_t tanh)
  let do_t := multiply do_raw (map e.o_t dsigmoid)
  let gWo := add st.gWo (dot (transpose e.inputVector) do_t)
  let gUo := add st.gUo (dot (transpose e.h_prev) do_t)
  let gbo := add st.gbo do_t
  let dc_t := add st.dc_next_grad (multiply dh (multiply e.o_t (map (map e.c_t tanh) dtanh)))
  let dc_hat_t := multiply dc_t e.i_t
  let dc_hat_raw := multiply dc_hat_t (map e.c_hat_t dtanh)
  let gWc := add st.gWc (dot (transpose e.inputVector) dc_hat_raw)
  let gUc := add st.gUc (dot (transpose e.h_prev) dc_hat_raw)
  let gbc := add st.gbc dc_hat_raw
  let di_t := multiply dc_t e.c_hat_t
  let di_raw := multiply di_t (map e.i_t dsigmoid)
  let gWi := add st.gWi (dot (transpose e.inputVector) di_raw)
  let gUi := add st.gUi (dot (transpose e.h_prev) di_raw)
  let gbi := add st.gbi di_raw
  let df_t := multiply dc_t e.c_prev
  let df_raw := multiply df_t (map e.f_t dsigmoid)
  let gWf := add st.gWf (dot (transpose e.inputVector) df_raw)
  let gUf := add st.gUf (dot (transpose e.h_prev) df_raw)
  let gbf := add st.gbf df_raw
  ⟨gWf, gUf, gbf, gWi, gUi, gbi, gWo, gUo, gbo, gWc, gUc, gbc, gWhy, gby,
   add (add (add (dot df_raw (transpose model.Uf.weights))
     (dot di_raw (transpose model.Ui.weights)))
     (dot do_raw (transpose model.Uo.weights)))
     (dot dc_hat_raw (transpose model.Uc.weights)),
   multiply dc_t e.f_t⟩

/-- Result of `trainStepLSTM` (same conventions as `RNNTrainResult`). -/
structure LSTMTrainResult where
  updatedModel : LSTMLanguageModel
  loss : ℝ
  inputToken : String
  targetToken : String
  predictedToken : String
  predictionResults : List PredictionEntry
  lastHidden : Matrix

/-- `trainStepLSTM(model, encodedText, step, sequenceLength, learningRate,
dropoutRate)` with the dropout-mask oracle `masks`. -/
def trainStepLSTM (model : LSTMLanguageModel) (encodedText : List Nat)
    (step sequenceLength : Nat) (learningRate dropoutRate : ℝ)
    (masks : Nat → Matrix) : LSTMTrainResult :=
  let vocabSize := model.vocab.length
  let hiddenSize := model.Why.weights.rows
  let seqEnd := min (step + sequenceLength) (encodedText.length - 1)
  let fwd := (List.range' step (seqEnd - step)).foldl
    (lstmFwdStep model encodedText dropoutRate masks) ⟨[], [model.h], [model.c], 0, []⟩
  let back0 : LSTMBack :=
    ⟨createMatrix vocabSize hiddenSize 0, createMatrix hiddenSize hiddenSize 0,
     createMatrix 1 hiddenSize 0,
     createMatrix vocabSize hiddenSize 0, createMatrix hiddenSize hiddenSize 0,
     createMatrix 1 hiddenSize 0,
     createMatrix vocabSize hiddenSize 0, createMatrix hiddenSize hiddenSize 0,
     createMatrix 1 hiddenSize 0,
     createMatrix vocabSize hiddenSize 0, createMatrix hiddenSize hiddenSize 0,
     createMatrix 1 hiddenSize 0,
     createMatrix hiddenSize vocabSize 0, createMatrix 1 vocabSize 0,
     createMatrix 1 hiddenSize 0, createMatrix 1 hiddenSize 0⟩
  let back := (List.range fwd.cache.length).reverse.foldl
    (fun st t => lstmBackStep model (encodedText.getD (step + t + 1) 0)
      (fwd.hiddenStates.getD (t + 1) default) (fwd.cache.getD t default) st) back0
  let lr := -learningRate
  let updatedModel : LSTMLanguageModel :=
    { model with
        Wf := ⟨add model.Wf.weights (scale (clip back.gWf) lr),
               add model.Wf.biases (scale (clip back.gbf) lr)⟩
        Uf := ⟨add model.Uf.weights (scale (clip back.gUf) lr), model.Uf.biases⟩
        Wi := ⟨add model.Wi.weights (scale (clip back.gWi) lr),
               add model.Wi.biases (scale (clip back.gbi) lr)⟩
        Ui := ⟨add model.Ui.weights (scale (clip back.gUi) lr), model.Ui.biases⟩
        Wo := ⟨add model.Wo.weights (scale (clip back.gWo) lr),
               add model.Wo.biases (scale (clip back.gbo) lr)⟩
        Uo := ⟨add model.Uo.weights (scale (clip back.gUo) lr), model.Uo.biases⟩
        Wc := ⟨add model.Wc.weights (scale (clip back.gWc) lr),
               add model.Wc.biases (scale (clip back.gbc) lr)⟩
        Uc := ⟨add model.Uc.weights (scale (clip back.gUc) lr), model.Uc.biases⟩
        Why := ⟨add model.Why.weights (scale (clip back.gWhy) lr),
                add model.Why.biases (scale (clip back.gby) lr)⟩
        h := fwd.hiddenStates.getLastD model.h
        c := fwd.cellStates.getLastD model.c }
  let lastProb := (fwd.cache.getLastD default).prob
  let predictedIndex := if fwd.cache.isEmpty then 0 else argmaxRow (lastProb.data.headD [])
  ⟨updatedModel,
   fwd.totalLoss / (if seqEnd - step = 0 then 1 else (seqEnd - step : ℝ)),
   model.vocab.getD (encodedText.getD (seqEnd - 1) 0) "",
   model.vocab.getD (encodedText.getD seqEnd 0) "",
   model.vocab.getD predictedIndex (""),
   fwd.preds,
   fwd.hiddenStates.getLastD model.h⟩

/-! ### Generators

Sampling randomness is supplied by a `rand` oracle giving the uniform draw of
loop iteration `i` (the source calls `Math.random()` once per iteration). -/

/-- `MIN_WORD_LENGTH`. -/
def MIN_WORD_LENGTH : Nat := 2

/-- The inverse-CDF sampling loop: walk the cumulative distribution of `probs`
until the draw `r` is exceeded; `fallback` (`vocab.length - 1`) when never. -/
def samplePick (probs : List ℝ) (r : ℝ) (j : Nat) (cum : ℝ) (fallback : Nat) : Nat :=
  match probs with
  | [] => fallback
  | p :: rest => if r < cum + p then j else samplePick rest r (j + 1) (cum + p) fallback

/-- The early-space suppression: when the separator token exists, is in range
and has probability strictly between 0 and 1, zero it and renormalise the
rest by `1 - spaceProb`. -/
def spaceAdjust (tokenToIndex : String → Option Nat) (row : List ℝ) : List ℝ :=
  match tokenToIndex (" ") with
  | none => row
  | some si =>
    if si < row.length then
      let sp := row.getD si 0
      if 0 < sp ∧ sp < 1 then
        row.mapIdx fun k v => if k = si then 0 else v / (1 - sp)
      else row
    else row

/-- The loop of `generateFFNN`: `i` is the iteration counter, `fuel` the
remaining length budget, `currentInput` the growing context string, `result`
the generated suffix so far (returned on every exit; the caller prepends the
seed). -/
def genFFNNLoop (model : FFNNModel) (temperature : ℝ) (rand : Nat → ℝ)
    (currentInput result : String) (i fuel : Nat) : String :=
  match fuel with
  | 0 => result
  | fuel' + 1 =>
    match (currentInput.data.getLast?.map String.singleton).bind model.tokenToIndex with
    | none => result
    | some inputIndex =>
      let inputVector := oneHot model.vocab.length inputIndex
      let hiddenActivated :=
        map (add (dot inputVector model.hiddenLayer.weights) model.hiddenLayer.biases) tanh
      let outputRaw := add (dot hiddenActivated model.outputLayer.weights) model.outputLayer.biases
      let scaledOutput := map outputRaw fun v => v / temperature
      let probs0 := (softmax scaledOutput).data.headD []
      let probs := if i < MIN_WORD_LENGTH then spaceAdjust model.tokenToIndex probs0 else probs0
      let nextIndex := samplePick probs (rand i) 0 0 (model.vocab.length - 1)
      let nextChar := model.vocab.getD nextIndex ("")
      if nextChar = " " then result
      else genFFNNLoop model temperature rand (currentInput ++ nextChar) (result ++ nextChar)
        (i + 1) fuel'

/-- `generateFFNN(model, seed, length, temperature)` with sampling oracle
`rand`; returns the seed concatenated with everything generated. -/
def generateFFNN (model : FFNNModel) (seed : String) (length : Nat) (temperature : ℝ)
    (rand : Nat → ℝ) : String :=
  seed ++ genFFNNLoop model temperature rand seed ("") 0 length

/-- The loop of `generateRNN`, carrying the hidden state. -/
def genRNNLoop (model : RNNModel) (temperature : ℝ) (rand : Nat → ℝ)
    (current_h : Matrix) (inputChar result : String) (i fuel : Nat) : String :=
  match fuel with
  | 0 => result
  | fuel' + 1 =>
    match model.tokenToIndex inputChar with
    | none => result
    | some inputIndex =>
      let inputVector := oneHot model.vocab.length inputIndex
      let h2 := map (add (add (dot inputVector model.Wxh.weights) model.Wxh.biases)
        (dot current_h model.Whh.weights)) tanh
      let outputRaw := add (dot h2 model.Why.weights) model.Why.biases
      let scaledOutput := map outputRaw fun v => v / temperature
      let probs0 := (softmax scaledOutput).data.headD []
      let probs := if i < MIN_WORD_LENGTH then spaceAdjust model.tokenToIndex probs0 else probs0
      let nextIndex := samplePick probs (rand i) 0 0 (model.vocab.length - 1)
      let nextChar := model.vocab.getD nextIndex ("")
      if nextChar = " " then result
      else genRNNLoop model temperature rand h2 nextChar (result ++ nextChar) (i + 1) fuel'

/-- `generateRNN(model, seed, length, temperature)` with sampling oracle
`rand`. -/
def generateRNN (model : RNNModel) (seed : String) (length : Nat) (temperature : ℝ)
    (rand : Nat → ℝ) : String :=
  seed ++ genRNNLoop model temperature rand model.h seed ("") 0 length

/-- The loop of `generateGRU`, carrying the hidden state. -/
def genGRULoop (model : GRULanguageModel) (temperature : ℝ) (rand : Nat → ℝ)
    (h_prev : Matrix) (inputChar result : String) (i fuel : Nat) : String :=
  match fuel with
  | 0 => result
  | fuel' + 1 =>
    match model.tokenToIndex inputChar with
    | none => result
    | some inputIndex =>
      let inputVector := oneHot model.vocab.length inputIndex
      let z_t := map (add (add (dot inputVector model.Wz.weights) model.Wz.biases)
        (dot h_prev model.Uz.weights)) sigmoid
      let r_t := map (add (add (dot inputVector model.Wr.weights) model.Wr.biases)
        (dot h_prev model.Ur.weights)) sigmoid
      let h_hat_t := map (add (add (dot inputVector model.Wh.weights) model.Wh.biases)
        (dot (multiply r_t h_prev) model.Uh.weights)) tanh
      let h_t := add (multiply (subtract (ones 1 h_prev.cols) z_t) h_prev)
        (multiply z_t h_hat_t)
      let outputRaw := add (dot h_t model.Why.weights) model.Why.biases
      let scaledOutput := map outputRaw fun v => v / temperature
      let probs0 := (softmax scaledOutput).data.headD []
      let probs := if i < MIN_WORD_LENGTH then spaceAdjust model.tokenToIndex probs0 else probs0
      let nextIndex := samplePick probs (rand i) 0 0 (model.vocab.length - 1)
      let nextChar := model.vocab.getD nextIndex ("")
      if nextChar = " " then result
      else genGRULoop model temperature rand h_t nextChar (result ++ nextChar) (i + 1) fuel'

/-- `generateGRU(model, seed, length, temperature)` with sampling oracle
`rand`. -/
def generateGRU (model : GRULanguageModel) (seed : String) (length : Nat) (temperature : ℝ)
    (rand : Nat → ℝ) : String :=
  seed ++ genGRULoop model temperature rand model.h seed ("") 0 length

/-- The loop of `generateLSTM`, carrying hidden and cell states. -/
def genLSTMLoop (model : LSTMLanguageModel) (temperature : ℝ) (rand : Nat → ℝ)
    (h_prev c_prev : Matrix) (inputChar result : String) (i fuel : Nat) : String :=
  match fuel with
  | 0 => result
  | fuel' + 1 =>
    match model.tokenToIndex inputChar with
    | none => result
    | some inputIndex =>
      let inputVector := oneHot model.vocab.length inputIndex
      let f_t := map (add (add (dot inputVector model.Wf.weights) model.Wf.biases)
        (dot h_prev model.Uf.weights)) sigmoid
      let i_t := map (add (add (dot inputVector model.Wi.weights) model.Wi.biases)
        (dot h_prev model.Ui.weights)) sigmoid
      let o_t := map (add (add (dot inputVector model.Wo.weights) model.Wo.biases)
        (dot h_prev model.Uo.weights)) sigmoid
      let c_hat_t := map (add (add (dot inputVector model.Wc.weights) model.Wc.biases)
        (dot h_prev model.Uc.weights)) tanh
      let c_t := add (multiply f_t c_prev) (multiply i_t c_hat_t)
      let h_t := multiply o_t (map c_t tanh)
      let outputRaw := add (dot h_t model.Why.weights) model.Why.biases
      let scaledOutput := map outputRaw fun v => v / temperature
      let probs0 := (softmax scaledOutput).data.headD []
      let probs := if i < MIN_WORD_LENGTH then spaceAdjust model.tokenToIndex probs0 else probs0
      let nextIndex := samplePick probs (rand i) 0 0 (model.vocab.length - 1)
      let nextChar := model.vocab.getD nextIndex ("")
      if nextChar = " " then result
      else genLSTMLoop model temperature rand h_t c_t nextChar (result ++ nextChar) (i + 1) fuel'

/-- `generateLSTM(model, seed, length, temperature)` with sampling oracle
`rand`. -/
def generateLSTM (model : LSTMLanguageModel) (seed : String) (length : Nat) (temperature : ℝ)
    (rand : Nat → ℝ) : String :=
  seed ++ genLSTMLoop model temperature rand model.h model.c seed ("") 0 length

/-! ### Reference forward recurrences

Independent restatements of each architecture's hidden-state (and, for the
LSTM, cell-state) recurrence, used to express state threading and
window-splitting facts about the training steps. -/

/-- One RNN hidden-state update on token id `tok`. -/
def rnnStepH (model : RNNModel) (h_prev : Matrix) (tok : Nat) : Matrix :=
  map (add (add (dot (oneHot model.vocab.length tok) model.Wxh.weights) model.Wxh.biases)
    (dot h_prev model.Whh.weights)) tanh

/-- Hidden state after consuming `toks` from `h0`. -/
def rnnForwardH (model : RNNModel) (toks : List Nat) (h0 : Matrix) : Matrix :=
  toks.foldl (rnnStepH model) h0

/-- One GRU hidden-state update on token id `tok`. -/
def gruStepH (model : GRULanguageModel) (h_prev : Matrix) (tok : Nat) : Matrix :=
  let inputVector := oneHot model.vocab.length tok
  let z_t := map (add (add (dot inputVector model.Wz.weights) model.Wz.biases)
    (dot h_prev model.Uz.weights)) sigmoid
  let r_t := map (add (add (dot inputVector model.Wr.weights) model.Wr.biases)
    (dot h_prev model.Ur.weights)) sigmoid
  let h_hat_t := map (add (add (dot inputVector model.Wh.weights) model.Wh.biases)
    (dot (multiply r_t h_prev) model.Uh.weights)) tanh
  add (multiply (subtract (ones 1 model.Why.weights.rows) z_t) h_prev) (multiply z_t h_hat_t)

/-- GRU hidden state after consuming `toks` from `h0`. -/
def gruForwardH (model : GRULanguageModel) (toks : List Nat) (h0 : Matrix) : Matrix :=
  toks.foldl (gruStepH model) h0

/-- One LSTM state update on token id `tok` (hidden and cell state). -/
def lstmStepHC (model : LSTMLanguageModel) (hc : Matrix × Matrix) (tok : Nat) :
    Matrix × Matrix :=
  let inputVector := oneHot model.vocab.length tok
  let f_t := map (add (add (dot inputVector model.Wf.weights) model.Wf.biases)
    (dot hc.1 model.Uf.weights)) sigmoid
  let i_t := map (add (add (dot inputVector model.Wi.weights) model.Wi.biases)
    (dot hc.1 model.Ui.weights)) sigmoid
  let o_t := map (add (add (dot inputVector model.Wo.weights) model.Wo.biases)
    (dot hc.1 model.Uo.weights)) sigmoid
  let c_hat_t := map (add (add (dot inputVector model.Wc.weights) model.Wc.biases)
    (dot hc.1 model.Uc.weights)) tanh
  let c_t := add (multiply f_t hc.2) (multiply i_t c_hat_t)
  (multiply o_t (map c_t tanh), c_t)

/-- LSTM states after consuming `toks` from `(h0, c0)`. -/
def lstmForwardHC (model : LSTMLanguageModel) (toks : List Nat) (hc0 : Matrix × Matrix) :
    Matrix × Matrix :=
  toks.foldl (lstmStepHC model) hc0

/-! ### Concrete example values for witnesses and counterexamples -/

/-- An all-zero layer of the given dimensions. -/
def zeroLayer (i o : Nat) : Layer := ⟨createMatrix i o 0, createMatrix 1 o 0⟩

/-- The vocabulary `['a','b','c']`. -/
def exVocab3 : List String := ["a", "b", "c"]

/-- `tokenToIndex` of `exVocab3`. -/
def exT2I3 : String → Option Nat := fun s =>
  if s = "a" then some 0 else if s = "b" then some 1 else if s = "c" then some 2 else none

/-- A zero-weight RNN over `['a','b','c']` with hidden size 2. -/
def exRNN : RNNModel :=
  ⟨exVocab3, exT2I3, zeroLayer 3 2, zeroLayer 2 2, zeroLayer 2 3, createMatrix 1 2 0⟩

/-- A zero-weight GRU over `['a','b','c']` with hidden size 2. -/
def exGRU : GRULanguageModel :=
  ⟨exVocab3, exT2I3, zeroLayer 3 2, zeroLayer 2 2, zeroLayer 3 2, zeroLayer 2 2,
   zeroLayer 3 2, zeroLayer 2 2, zeroLayer 2 3, createMatrix 1 2 0⟩

/-- A zero-weight LSTM over `['a','b','c']` with hidden size 2. -/
def exLSTM : LSTMLanguageModel :=
  ⟨exVocab3, exT2I3, zeroLayer 3 2, zeroLayer 2 2, zeroLayer 3 2, zeroLayer 2 2,
   zeroLayer 3 2, zeroLayer 2 2, zeroLayer 3 2, zeroLayer 2 2, zeroLayer 2 3,
   createMatrix 1 2 0, createMatrix 1 2 0⟩

/-- `tokenToIndex` of the vocabulary `['a','b']`. -/
def exT2I2 : String → Option Nat := fun s =>
  if s = "a" then some 0 else if s = "b" then some 1 else none

/-- An FFNN over `['a','b']` with hidden size 1, zero weights except a large
output weight `100` from the hidden unit to the first logit: its per-example
hidden-bias gradient is `-50`, so a two-example window accumulates `-100`,
far outside the clip range. -/
def exFFNN : FFNNModel :=
  ⟨["a", "b"], exT2I2, ⟨createMatrix 2 1 0, createMatrix 1 1 0⟩,
   ⟨⟨1, 2, [[100, 0]]⟩, createMatrix 1 2 0⟩⟩

/-- A zero-weight FFNN over `['a','b','c']` with hidden size 2. -/
def exFFNN3 : FFNNModel :=
  ⟨exVocab3, exT2I3, zeroLayer 3 2, zeroLayer 2 3⟩

/-! ### Named sub-expressions of the backward steps

Each definition below names one `const ... = ...` of the source's backward
loops (GRU and LSTM) or per-example backward pass (FFNN), exactly as the loop
computes it; `gruBackStep` / `lstmBackStep` / `ffnnLoopStep` compute the same
values through their `let` chains, definitionally. -/

/-- GRU backward: `dy` (softmax + cross-entropy output gradient). -/
def gruBack_dy (e : GRUCache) (targetIndex : Nat) : Matrix :=
  decAt e.prob 0 targetIndex

/-- GRU backward: `dh` before the dropout mask. -/
def gruBack_dh0 (model : GRULanguageModel) (e : GRUCache) (targetIndex : Nat)
    (st : GRUBack) : Matrix :=
  add (dot (gruBack_dy e targetIndex) (transpose model.Why.weights)) st.dh_next_grad

/-- GRU backward: `dh` (after the dropout mask, when one was drawn). -/
def gruBack_dh (model : GRULanguageModel) (e : GRUCache) (targetIndex : Nat)
    (st : GRUBack) : Matrix :=
  match e.mask with
  | some m => multiply (gruBack_dh0 model e targetIndex st) m
  | none => gruBack_dh0 model e targetIndex st

/-- GRU backward: `dh_hat_raw` (candidate pre-activation gradient). -/
def gruBack_dh_hat_raw (model : GRULanguageModel) (e : GRUCache) (targetIndex : Nat)
    (st : GRUBack) : Matrix :=
  multiply (multiply (gruBack_dh model e targetIndex st) e.z_t) (map e.h_hat_t dtanh)

/-- GRU backward: `dz_raw` (update-gate pre-activation gradient). -/
def gruBack_dz_raw (model : GRULanguageModel) (e : GRUCache) (targetIndex : Nat)
    (st : GRUBack) : Matrix :=
  multiply (multiply (gruBack_dh model e targetIndex st) (subtract e.h_hat_t e.h_prev))
    (map e.z_t dsigmoid)

/-- GRU backward: `dr_raw` (reset-gate pre-activation gradient). -/
def gruBack_dr_raw (model : GRULanguageModel) (e : GRUCache) (targetIndex : Nat)
    (st : GRUBack) : Matrix :=
  multiply
    (multiply (dot (gruBack_dh_hat_raw model e targetIndex st) (transpose model.Uh.weights))
      e.h_prev)
    (map e.r_t dsigmoid)

/-- LSTM backward: `dy`. -/
def lstmBack_dy (e : LSTMCache) (targetIndex : Nat) : Matrix :=
  decAt e.prob 0 targetIndex

/-- LSTM backward: `dh` before the dropout mask. -/
def lstmBack_dh0 (model : LSTMLanguageModel) (e : LSTMCache) (targetIndex : Nat)
    (st : LSTMBack) : Matrix :=
  add (dot (lstmBack_dy e targetIndex) (transpose model.Why.weights)) st.dh_next_grad

/-- LSTM backward: `dh` (after the dropout mask, when one was drawn). -/
def lstmBack_dh (model : LSTMLanguageModel) (e : LSTMCache) (targetIndex : Nat)
    (st : LSTMBack) : Matrix :=
  match e.mask with
  | some m => multiply (lstmBack_dh0 model e targetIndex st) m
  | none => lstmBack_dh0 model e targetIndex st

/-- LSTM backward: `do_raw = dh ⊙ tanh(c_t)` — the output-gate gradient
*before* the sigmoid derivative. -/
def lstmBack_do_raw (model : LSTMLanguageModel) (e : LSTMCache) (targetIndex : Nat)
    (st : LSTMBack) : Matrix :=
  multiply (lstmBack_dh model e targetIndex st) (map e.c_t tanh)

/-- LSTM backward: `do_t = do_raw ⊙ dsigmoid(o_t)` — the output-gate
pre-activation gradient, used for the `Wo`/`Uo`/`bo` gradients. -/
def lstmBack_do_t (model : LSTMLanguageModel) (e : LSTMCache) (targetIndex : Nat)
    (st : LSTMBack) : Matrix :=
  multiply (lstmBack_do_raw model e targetIndex st) (map e.o_t dsigmoid)

/-- LSTM backward: total cell-state gradient `dc_t`. -/
def lstmBack_dc (model : LSTMLanguageModel) (e : LSTMCache) (targetIndex : Nat)
    (st : LSTMBack) : Matrix :=
  add st.dc_next_grad
    (multiply (lstmBack_dh model e targetIndex st)
      (multiply e.o_t (map (map e.c_t tanh) dtanh)))

/-- LSTM backward: `dc_hat_raw` (candidate pre-activation gradient). -/
def lstmBack_dc_hat_raw (model : LSTMLanguageModel) (e : LSTMCache) (targetIndex : Nat)
    (st : LSTMBack) : Matrix :=
  multiply (multiply (lstmBack_dc model e targetIndex st) e.i_t) (map e.c_hat_t dtanh)

/-- LSTM backward: `di_raw` (input-gate pre-activation gradient). -/
def lstmBack_di_raw (model : LSTMLanguageModel) (e : LSTMCache) (targetIndex : Nat)
    (st : LSTMBack) : Matrix :=
  multiply (multiply (lstmBack_dc model e targetIndex st) e.c_hat_t) (map e.i_t dsigmoid)

/-- LSTM backward: `df_raw` (forget-gate pre-activation gradient). -/
def lstmBack_df_raw (model : LSTMLanguageModel) (e : LSTMCache) (targetIndex : Nat)
    (st : LSTMBack) : Matrix :=
  multiply (multiply (lstmBack_dc model e targetIndex st) e.c_prev) (map e.f_t dsigmoid)

/-! ### Per-example FFNN forward/backward quantities (claim C3) -/

/-- FFNN forward: the activated hidden row for the one-hot input. -/
def ffnnHiddenAct (model : FFNNModel) (inputIndex : Nat) : Matrix :=
  map (add (dot (oneHot model.vocab.length inputIndex) model.hiddenLayer.weights)
    model.hiddenLayer.biases) tanh

/-- FFNN forward: output probabilities for the one-hot input. -/
def ffnnProbs (model : FFNNModel) (inputIndex : Nat) : Matrix :=
  softmax (add (dot (ffnnHiddenAct model inputIndex) model.outputLayer.weights)
    model.outputLayer.biases)

/-- FFNN backward: `dOutput`. -/
def ffnnDOutput (model : FFNNModel) (inputIndex targetIndex : Nat) : Matrix :=
  decAt (ffnnProbs model inputIndex) 0 targetIndex

/-- FFNN backward: `dHiddenRaw`. -/
def ffnnDHiddenRaw (model : FFNNModel) (inputIndex targetIndex : Nat) : Matrix :=
  multiply (dot (ffnnDOutput model inputIndex targetIndex)
      (transpose model.outputLayer.weights))
    (map (ffnnHiddenAct model inputIndex) dtanh)

/-- FFNN per-example gradient of the hidden layer's weights. -/
def ffnnGradHW (model : FFNNModel) (inputIndex targetIndex : Nat) : Matrix :=
  dot (transpose (oneHot model.vocab.length inputIndex))
    (ffnnDHiddenRaw model inputIndex targetIndex)

/-- FFNN per-example gradient of the hidden layer's biases. -/
def ffnnGradHB (model : FFNNModel) (inputIndex targetIndex : Nat) : Matrix :=
  ffnnDHiddenRaw model inputIndex targetIndex

/-- FFNN per-example gradient of the output layer's weights. -/
def ffnnGradOW (model : FFNNModel) (inputIndex targetIndex : Nat) : Matrix :=
  dot (transpose (ffnnHiddenAct model inputIndex))
    (ffnnDOutput model inputIndex targetIndex)

/-- FFNN per-example gradient of the output layer's biases. -/
def ffnnGradOB (model : FFNNModel) (inputIndex targetIndex : Nat) : Matrix :=
  ffnnDOutput model inputIndex targetIndex

/-- The all-zero gradient accumulator `trainStepFFNN` starts its batch with. -/
def ffnnAcc0 (model : FFNNModel) : FFNNAcc :=
  ⟨⟨createMatrix model.vocab.length model.hiddenLayer.weights.cols 0,
    createMatrix 1 model.hiddenLayer.weights.cols 0⟩,
   ⟨createMatrix model.hiddenLayer.weights.cols model.vocab.length 0,
    createMatrix 1 model.vocab.length 0⟩, 0, []⟩

/-! ### Concrete backward-step inputs for witnesses -/

/-- A well-formed GRU forward-cache entry with zero activations (`V = 3`,
`H = 2`, no dropout mask). -/
def exGRUCache : GRUCache :=
  ⟨oneHot 3 0, createMatrix 1 2 0, createMatrix 1 2 0, createMatrix 1 2 0,
   createMatrix 1 2 0, createMatrix 1 2 0, none, createMatrix 1 3 0, createMatrix 1 2 0⟩

/-- A zero GRU backward state (`V = 3`, `H = 2`). -/
def exGRUBack : GRUBack :=
  ⟨createMatrix 3 2 0, createMatrix 2 2 0, createMatrix 1 2 0,
   createMatrix 3 2 0, createMatrix 2 2 0, createMatrix 1 2 0,
   createMatrix 3 2 0, createMatrix 2 2 0, createMatrix 1 2 0,
   createMatrix 2 3 0, createMatrix 1 3 0, createMatrix 1 2 0⟩

/-- The claim-C2 scalar pipeline instantiated at the concrete witness input. -/
def exC2dy : Nat → ℝ := fun k => exGRUCache.prob.get 0 k - (if k = 0 then 1 else 0)

/-- Witness pipeline, `dh` before the mask. -/
def exC2dh0 : Nat → ℝ := fun j =>
  (∑ k ∈ Finset.range 3, exC2dy k * exGRU.Why.weights.get j k)
    + exGRUBack.dh_next_grad.get 0 j

/-- Witness pipeline, `dh` after the (absent) mask. -/
def exC2dhv : Nat → ℝ := fun j =>
  match exGRUCache.mask with
  | some mm => exC2dh0 j * mm.get 0 j
  | none => exC2dh0 j

/-- Witness pipeline, candidate pre-activation gradient. -/
def exC2dhat : Nat → ℝ := fun k =>
  (exC2dhv k * exGRUCache.z_t.get 0 k) * dtanh (exGRUCache.h_hat_t.get 0 k)

/-- Witness pipeline, update-gate pre-activation gradient. -/
def exC2dzr : Nat → ℝ := fun k =>
  (exC2dhv k * (exGRUCache.h_hat_t.get 0 k - exGRUCache.h_prev.get 0 k))
    * dsigmoid (exGRUCache.z_t.get 0 k)

/-- Witness pipeline, reset-gate pre-activation gradient. -/
def exC2drr : Nat → ℝ := fun k =>
  ((∑ l ∈ Finset.range 2, exC2dhat l * exGRU.Uh.weights.get k l)
    * exGRUCache.h_prev.get 0 k) * dsigmoid (exGRUCache.r_t.get 0 k)

/-- A concrete LSTM cache entry (`V = 3`, `H = 2`, no dropout mask). -/
def exLSTMCache : LSTMCache :=
  ⟨oneHot 3 0, createMatrix 1 2 0, createMatrix 1 2 0, createMatrix 1 2 0,
   createMatrix 1 2 0, createMatrix 1 2 0, createMatrix 1 2 0, createMatrix 1 2 0,
   createMatrix 1 2 0, none, createMatrix 1 3 0⟩

/-- A zero LSTM backward state (`V = 3`, `H = 2`). -/
def exLSTMBack : LSTMBack :=
  ⟨createMatrix 3 2 0, createMatrix 2 2 0, createMatrix 1 2 0,
   createMatrix 3 2 0, createMatrix 2 2 0, createMatrix 1 2 0,
   createMatrix 3 2 0, createMatrix 2 2 0, createMatrix 1 2 0,
   createMatrix 3 2 0, createMatrix 2 2 0, createMatrix 1 2 0,
   createMatrix 2 3 0, createMatrix 1 3 0, createMatrix 1 2 0, createMatrix 1 2 0⟩

/-- The claim-C1 scalar pipeline instantiated at the concrete witness input. -/
def exC1dy : Nat → ℝ := fun k => exLSTMCache.prob.get 0 k - (if k = 0 then 1 else 0)

/-- LSTM witness pipeline, `dh` before the mask. -/
def exC1dh0 : Nat → ℝ := fun j =>
  (∑ k ∈ Finset.range 3, exC1dy k * exLSTM.Why.weights.get j k)
    + exLSTMBack.dh_next_grad.get 0 j

/-- LSTM witness pipeline, `dh` after the (absent) mask. -/
def exC1dhv : Nat → ℝ := fun j =>
  match exLSTMCache.mask with
  | some mm => exC1dh0 j * mm.get 0 j
  | none => exC1dh0 j

/-- LSTM witness pipeline, `do_raw = dh ⊙ tanh(c_t)`. -/
def exC1doRaw : Nat → ℝ := fun k => exC1dhv k * tanh (exLSTMCache.c_t.get 0 k)

/-- LSTM witness pipeline, total cell-state gradient. -/
def exC1dc : Nat → ℝ := fun k =>
  exLSTMBack.dc_next_grad.get 0 k
    + exC1dhv k * (exLSTMCache.o_t.get 0 k * dtanh (tanh (exLSTMCache.c_t.get 0 k)))

/-- LSTM witness pipeline, candidate pre-activation gradient. -/
def exC1dchat : Nat → ℝ := fun k =>
  (exC1dc k * exLSTMCache.i_t.get 0 k) * dtanh (exLSTMCache.c_hat_t.get 0 k)

/-- LSTM witness pipeline, input-gate pre-activation gradient. -/
def exC1diR : Nat → ℝ := fun k =>
  (exC1dc k * exLSTMCache.c_hat_t.get 0 k) * dsigmoid (exLSTMCache.i_t.get 0 k)

/-- LSTM witness pipeline, forget-gate pre-activation gradient. -/
def exC1dfR : Nat → ℝ := fun k =>
  (exC1dc k * exLSTMCache.c_prev.get 0 k) * dsigmoid (exLSTMCache.f_t.get 0 k)

/-! ## Lemma kit: list access, shapes, entries -/

lemma getD_map_range {α : Type} (c : Nat) (g : Nat → α) (j : Nat) (d : α) (hj : j < c) :
    ((List.range c).map g).getD j d = g j := by
  rw [List.getD_eq_getElem?_getD, List.getElem?_map, List.getElem?_range hj]
  rfl

lemma foldl_add_shift (l : List ℝ) (a : ℝ) : l.foldl (· + ·) a = a + l.sum := by
  induction l generalizing a with
  | nil => simp
  | cons x xs ih => simp [ih, List.sum_cons]; ring

lemma foldl_range_sum (n : Nat) (g : Nat → ℝ) :
    (List.range n).foldl (fun s k => s + g k) 0 = ∑ k ∈ Finset.range n, g k := by
  induction n with
  | zero => simp
  | succ n ih =>
    rw [List.range_succ, List.foldl_append, ih, Finset.sum_range_succ]
    rfl

lemma list_ext_getD {α : Type} (d : α) : ∀ (xs ys : List α), xs.length = ys.length →
    (∀ i, i < xs.length → xs.getD i d = ys.getD i d) → xs = ys := by
  intro xs
  induction xs with
  | nil => intro ys h _; exact (List.length_eq_zero.mp h.symm).symm
  | cons x xs ih =>
    intro ys h hget
    cases ys with
    | nil => simp at h
    | cons y ys =>
      have h0 := hget 0 (by simp)
      simp at h0
      have htl := ih ys (by simpa using h) (fun i hi => by
        have := hget (i + 1) (by simpa using Nat.succ_lt_succ hi)
        simpa using this)
      rw [h0, htl]

lemma getLastD_concat {α : Type} (d x : α) (l : List α) : (l ++ [x]).getLastD d = x := by
  induction l generalizing d with
  | nil => rfl
  | cons y ys ih => rw [List.cons_append, List.getLastD_cons, ih]

lemma getD_mem_lt {α : Type} (l : List α) (d : α) (i : Nat) (hi : i < l.length) :
    l.getD i d ∈ l := by
  rw [List.getD_eq_getElem?_getD, List.getElem?_eq_getElem hi]
  exact List.getElem_mem hi

@[simp] lemma ofFn_rows (r c f) : (ofFn r c f).rows = r := rfl

@[simp] lemma ofFn_cols (r c f) : (ofFn r c f).cols = c := rfl

@[simp] lemma createMatrix_rows (r c v) : (createMatrix r c v).rows = r := rfl

@[simp] lemma createMatrix_cols (r c v) : (createMatrix r c v).cols = c := rfl

@[simp] lemma dot_rows (a b) : (dot a b).rows = a.rows := rfl

@[simp] lemma dot_cols (a b) : (dot a b).cols = b.cols := rfl

@[simp] lemma transpose_rows (m) : (transpose m).rows = m.cols := rfl

@[simp] lemma transpose_cols (m) : (transpose m).cols = m.rows := rfl

@[simp] lemma subtract_rows (a b) : (subtract a b).rows = a.rows := rfl

@[simp] lemma subtract_cols (a b) : (subtract a b).cols = a.cols := rfl

@[simp] lemma multiply_rows (a b) : (multiply a b).rows = a.rows := rfl

@[simp] lemma multiply_cols (a b) : (multiply a b).cols = a.cols := rfl

@[simp] lemma scale_rows (m s) : (scale m s).rows = m.rows := rfl

@[simp] lemma scale_cols (m s) : (scale m s).cols = m.cols := rfl

@[simp] lemma map_rows (m f) : (map m f).rows = m.rows := rfl

@[simp] lemma map_cols (m f) : (map m f).cols = m.cols := rfl

@[simp] lemma decAt_rows (m i j) : (decAt m i j).rows = m.rows := rfl

@[simp] lemma decAt_cols (m i j) : (decAt m i j).cols = m.cols := rfl

@[simp] lemma clip_rows (m) : (clip m).rows = m.rows := rfl

@[simp] lemma clip_cols (m) : (clip m).cols = m.cols := rfl

@[simp] lemma ones_rows (r c) : (ones r c).rows = r := rfl

@[simp] lemma ones_cols (r c) : (ones r c).cols = c := rfl

@[simp] lemma oneHot_rows (n idx) : (oneHot n idx).rows = 1 := rfl

@[simp] lemma oneHot_cols (n idx) : (oneHot n idx).cols = n := rfl

@[simp] lemma add_rows (a b) : (add a b).rows = a.rows := by
  unfold add
  split
  · rfl
  split
  · rfl
  · rfl

@[simp] lemma add_cols (a b) : (add a b).cols = a.cols := by
  unfold add
  split
  · rfl
  split
  · rfl
  · rfl

@[simp] lemma softmax_rows (m) : (softmax m).rows = 1 := by
  unfold softmax
  split
  · rfl
  · rfl

@[simp] lemma softmax_cols (m) : (softmax m).cols = m.cols := by
  unfold softmax
  split
  · rfl
  · rfl

lemma get_ofFn (r c : Nat) (f : Nat → Nat → ℝ) (i j : Nat) (hi : i < r) (hj : j < c) :
    (ofFn r c f).get i j = f i j := by
  unfold ofFn Matrix.get
  rw [show (Matrix.mk r c ((List.range r).map fun i => (List.range c).map fun j => f i j)).data
      = (List.range r).map fun i => (List.range c).map fun j => f i j from rfl,
    getD_map_range r _ i [] hi, getD_map_range c _ j 0 hj]

lemma get_createMatrix (r c : Nat) (v : ℝ) (i j : Nat) (hi : i < r) (hj : j < c) :
    (createMatrix r c v).get i j = v :=
  get_ofFn r c _ i j hi hj

lemma get_dot (a b : Matrix) (i j : Nat) (hi : i < a.rows) (hj : j < b.cols) :
    (dot a b).get i j = ∑ k ∈ Finset.range a.cols, a.get i k * b.get k j := by
  unfold dot
  rw [get_ofFn _ _ _ i j hi hj, foldl_range_sum]

lemma get_add_same (a b : Matrix) (i j : Nat) (hr : a.rows = b.rows) (hc : a.cols = b.cols)
    (hi : i < a.rows) (hj : j < a.cols) :
    (add a b).get i j = a.get i j + b.get i j := by
  unfold add
  rw [if_pos ⟨hr, hc⟩, get_ofFn _ _ _ i j hi hj]

lemma get_subtract (a b : Matrix) (i j : Nat) (hi : i < a.rows) (hj : j < a.cols) :
    (subtract a b).get i j = a.get i j - b.get i j :=
  get_ofFn _ _ _ i j hi hj

lemma get_multiply (a b : Matrix) (i j : Nat) (hi : i < a.rows) (hj : j < a.cols) :
    (multiply a b).get i j = a.get i j * b.get i j :=
  get_ofFn _ _ _ i j hi hj

lemma get_scale (m : Matrix) (s : ℝ) (i j : Nat) (hi : i < m.rows) (hj : j < m.cols) :
    (scale m s).get i j = m.get i j * s :=
  get_ofFn _ _ _ i j hi hj

lemma get_map (m : Matrix) (f : ℝ → ℝ) (i j : Nat) (hi : i < m.rows) (hj : j < m.cols) :
    (map m f).get i j = f (m.get i j) :=
  get_ofFn _ _ _ i j hi hj

lemma get_transpose (m : Matrix) (i j : Nat) (hi : i < m.cols) (hj : j < m.rows) :
    (transpose m).get i j = m.get j i :=
  get_ofFn _ _ _ i j hi hj

lemma get_decAt (m : Matrix) (r0 c0 i j : Nat) (hi : i < m.rows) (hj : j < m.cols) :
    (decAt m r0 c0).get i j =
      if i = r0 ∧ j = c0 then m.get i j - 1 else m.get i j :=
  get_ofFn _ _ _ i j hi hj

lemma get_clip (m : Matrix) (i j : Nat) (hi : i < m.rows) (hj : j < m.cols) :
    (clip m).get i j = max (-5) (min 5 (m.get i j)) :=
  get_ofFn _ _ _ i j hi hj

lemma get_oneHot (n idx j : Nat) (hj : j < n) :
    (oneHot n idx).get 0 j = if j = idx then 1 else 0 :=
  get_ofFn _ _ _ 0 j (by norm_num) hj

lemma get_ones (r c i j : Nat) (hi : i < r) (hj : j < c) : (ones r c).get i j = 1 :=
  get_createMatrix r c 1 i j hi hj

/-! ## Exact shape, extensionality, well-formedness -/

/-- Propositional form of `Matrix.wfB`: the container really is `r × c`. -/
lemma wfB_iff (m : Matrix) (r c : Nat) :
    m.wfB r c = true ↔
      m.rows = r ∧ m.cols = c ∧ m.data.length = r ∧ ∀ row ∈ m.data, row.length = c := by
  simp [Matrix.wfB, List.all_eq_true, and_assoc]

lemma ofFn_wfB (r c : Nat) (f : Nat → Nat → ℝ) : (ofFn r c f).wfB r c = true := by
  rw [wfB_iff]
  refine ⟨rfl, rfl, by simp [ofFn], ?_⟩
  intro row hrow
  simp only [ofFn, List.mem_map] at hrow
  obtain ⟨i, _, rfl⟩ := hrow
  simp

lemma createMatrix_wfB (r c : Nat) (v : ℝ) : (createMatrix r c v).wfB r c = true :=
  ofFn_wfB r c _

lemma range'_glue (s m n : Nat) :
    List.range' s m ++ List.range' (s + m) n = List.range' s (m + n) := by
  have h := List.range'_append s m n 1
  rw [one_mul] at h
  rw [h, Nat.add_comm n m]

lemma getD_of_le {α : Type} (l : List α) (d : α) (i : Nat) (h : l.length ≤ i) :
    l.getD i d = d := by
  rw [List.getD_eq_getElem?_getD, List.getElem?_eq_none h]
  rfl

lemma get_ofFn_out (r c : Nat) (f : Nat → Nat → ℝ) (i j : Nat) (h : ¬(i < r ∧ j < c)) :
    (ofFn r c f).get i j = 0 := by
  rcases Nat.lt_or_ge i r with hi | hi
  · rcases Nat.lt_or_ge j c with hj | hj
    · exact absurd ⟨hi, hj⟩ h
    · show ((((List.range r).map fun i => (List.range c).map fun j => f i j)).getD i []).getD j 0 = 0
      rw [getD_map_range r _ i [] hi]
      exact getD_of_le _ 0 j (by simpa using hj)
  · show ((((List.range r).map fun i => (List.range c).map fun j => f i j)).getD i []).getD j 0 = 0
    rw [getD_of_le _ [] i (by simpa using hi)]
    rfl

/-! ## Zero-update lemmas: adding an all-zero matrix is the identity -/

/-- Scaling any matrix by `0` gives an (unconditionally) all-zero matrix. -/
lemma get_scale_zero (m : Matrix) (i j : Nat) : (scale m 0).get i j = 0 := by
  by_cases h : i < m.rows ∧ j < m.cols
  · rw [get_scale m 0 i j h.1 h.2, mul_zero]
  · exact get_ofFn_out _ _ _ i j h

/-- Scaling the clipped all-zero gradient accumulator by anything gives an
all-zero matrix: `clip 0 = 0`. -/
lemma get_scale_clip_zeroMatrix (r c : Nat) (lr : ℝ) (i j : Nat) :
    (scale (clip (createMatrix r c 0)) lr).get i j = 0 := by
  by_cases h : i < r ∧ j < c
  · rw [get_scale _ lr i j (by simpa using h.1) (by simpa using h.2),
      get_clip _ i j (by simpa using h.1) (by simpa using h.2),
      get_createMatrix r c 0 i j h.1 h.2,
      min_eq_right (by norm_num : (0:ℝ) ≤ 5), max_eq_right (by norm_num : (-5:ℝ) ≤ 0),
      zero_mul]
  · exact get_ofFn_out _ _ _ i j (by simpa using h)

/-- Extensionality: same shape, exactly-shaped data, equal entries ⇒ equal. -/
lemma mat_ext (a b : Matrix) (hr : a.rows = b.rows) (hc : a.cols = b.cols)
    (ha : a.wfB a.rows a.cols = true) (hb : b.wfB b.rows b.cols = true)
    (h : ∀ i j, i < a.rows → j < a.cols → a.get i j = b.get i j) : a = b := by
  obtain ⟨-, -, hal, har⟩ := (wfB_iff a a.rows a.cols).mp ha
  obtain ⟨-, -, hbl, hbr⟩ := (wfB_iff b b.rows b.cols).mp hb
  obtain ⟨ar, ac, ad⟩ := a
  obtain ⟨br, bc, bd⟩ := b
  simp only at hr hc hal har hbl hbr h ⊢
  subst hr hc
  have hdata : ad = bd := by
    apply list_ext_getD []
    · rw [hal, hbl]
    · intro i hi
      apply list_ext_getD 0
      · rw [har _ (getD_mem_lt _ [] _ hi), hbr _ (getD_mem_lt _ [] _ (by
          rw [hbl, ← hal]; exact hi))]
      · intro j hj
        have hi' : i < ar := by rw [← hal]; exact hi
        have hj' : j < ac := by
          have := har _ (getD_mem_lt _ [] _ hi)
          rw [this] at hj
          exact hj
        exact h i j hi' hj'
  rw [hdata]

lemma add_same_eq (a b : Matrix) (hr : a.rows = b.rows) (hc : a.cols = b.cols) :
    add a b = ofFn a.rows a.cols fun i j => a.get i j + b.get i j := by
  unfold add
  rw [if_pos ⟨hr, hc⟩]

/-- Adding a matrix all of whose entries read `0` leaves a well-formed matrix
unchanged — whichever branch of `add` fires. -/
lemma add_all_zero (W Z : Matrix) (r c : Nat) (hW : W.wfB r c = true)
    (hz : ∀ i j, Z.get i j = 0) : add W Z = W := by
  obtain ⟨hr, hc, hl, hrows⟩ := (wfB_iff W r c).mp hW
  have hWw : W.wfB W.rows W.cols = true := by
    rw [wfB_iff]
    exact ⟨rfl, rfl, by rw [hl, hr], by rw [hc]; exact hrows⟩
  unfold add
  split
  · apply mat_ext (ofFn W.rows W.cols fun i j => W.get i j + Z.get i j) W rfl rfl
      (ofFn_wfB _ _ _) hWw
    intro i j hi hj
    rw [get_ofFn W.rows W.cols _ i j (by simpa using hi) (by simpa using hj), hz i j, add_zero]
  split
  · apply mat_ext (ofFn W.rows W.cols fun i j => W.get i j + Z.get 0 j) W rfl rfl
      (ofFn_wfB _ _ _) hWw
    intro i j hi hj
    rw [get_ofFn W.rows W.cols _ i j (by simpa using hi) (by simpa using hj), hz 0 j, add_zero]
  · rfl

/-- A layer update that adds all-zero matrices to both components is the
identity on a well-formed layer. -/
lemma layer_add_zero (l : Layer) (Z Z' : Matrix) (i o : Nat) (hl : l.wfB i o = true)
    (hz : ∀ a b, Z.get a b = 0) (hz' : ∀ a b, Z'.get a b = 0) :
    (⟨add l.weights Z, add l.biases Z'⟩ : Layer) = l := by
  have hsplit := hl
  unfold Layer.wfB at hsplit
  rw [Bool.and_eq_true] at hsplit
  rw [add_all_zero l.weights Z i o hsplit.1 hz, add_all_zero l.biases Z' 1 o hsplit.2 hz']

/-! ## Claim C6: behaviour of `add` -/

/-- C6 (counterexample).  The claim says any shape combination other than
same-shape or (rows > 1, 1-row, equal columns) returns `a` unchanged; but with
`a : 2 × 1` and `b : 1 × 2` the source still takes the broadcast branch (it
never compares columns there), so the result is not `a`. -/
theorem claim_C6_counterexample :
    add ⟨2, 1, [[1], [2]]⟩ ⟨1, 2, [[10, 20]]⟩ ≠ (⟨2, 1, [[1], [2]]⟩ : Matrix) := by
  intro hEq
  have h11 : (add ⟨2, 1, [[1], [2]]⟩ ⟨1, 2, [[10, 20]]⟩).get 0 0 = 11 := by
    unfold add
    rw [if_neg (by decide), if_pos (by decide)]
    rw [get_ofFn 2 1 _ 0 0 (by norm_num) (by norm_num)]
    show (1 : ℝ) + 10 = 11
    norm_num
  rw [hEq] at h11
  have h1 : (⟨2, 1, [[1], [2]]⟩ : Matrix).get 0 0 = 1 := rfl
  rw [h1] at h11
  norm_num at h11

/-- C6 (amended).  `add` returns the element-wise sum on identical shapes;
whenever `a` has more than one row and `b` exactly one row it returns the
row-broadcast sum — the source never compares column counts in that branch
(entries of `b` beyond its width read as `0` in this embedding; in JS they
would be `undefined`); only in all remaining shape combinations is `a`
returned unchanged. -/
theorem claim_C6_amended :
    (∀ a b : Matrix, a.rows = b.rows → a.cols = b.cols →
      (add a b).rows = a.rows ∧ (add a b).cols = a.cols ∧
        ∀ i j, i < a.rows → j < a.cols → (add a b).get i j = a.get i j + b.get i j) ∧
    (∀ a b : Matrix, 1 < a.rows → b.rows = 1 →
      (add a b).rows = a.rows ∧ (add a b).cols = a.cols ∧
        ∀ i j, i < a.rows → j < a.cols → (add a b).get i j = a.get i j + b.get 0 j) ∧
    (∀ a b : Matrix, ¬(a.rows = b.rows ∧ a.cols = b.cols) → ¬(1 < a.rows ∧ b.rows = 1) →
      add a b = a) := by
  refine ⟨?_, ?_, ?_⟩
  · intro a b hr hc
    exact ⟨add_rows a b, add_cols a b, fun i j hi hj => get_add_same a b i j hr hc hi hj⟩
  · intro a b ha hb
    have hmm : ¬(a.rows = b.rows ∧ a.cols = b.cols) := by
      rintro ⟨h1, -⟩
      rw [h1, hb] at ha
      exact lt_irrefl 1 ha
    refine ⟨add_rows a b, add_cols a b, fun i j hi hj => ?_⟩
    unfold add
    rw [if_neg hmm, if_pos ⟨ha, hb⟩, get_ofFn _ _ _ i j hi hj]
  · intro a b h1 h2
    unfold add
    rw [if_neg h1, if_neg h2]

/-- C6 (witness): the amended characterisation applied to concrete matrices
in each of the three branches. -/
theorem claim_C6_witness :
    (add ⟨1, 1, [[2]]⟩ ⟨1, 1, [[3]]⟩).get 0 0 = 5 ∧
    (add ⟨2, 1, [[1], [2]]⟩ ⟨1, 1, [[7]]⟩).get 0 0 = 8 ∧
    add ⟨1, 1, [[2]]⟩ ⟨2, 1, [[3], [4]]⟩ = (⟨1, 1, [[2]]⟩ : Matrix) := by
  refine ⟨?_, ?_, ?_⟩
  · have h := (claim_C6_amended.1 ⟨1, 1, [[2]]⟩ ⟨1, 1, [[3]]⟩ rfl rfl).2.2 0 0
      (by norm_num) (by norm_num)
    rw [h]
    show (2 : ℝ) + 3 = 5
    norm_num
  · have h := (claim_C6_amended.2.1 ⟨2, 1, [[1], [2]]⟩ ⟨1, 1, [[7]]⟩
      (by norm_num) rfl).2.2 0 0 (by norm_num) (by norm_num)
    rw [h]
    show (1 : ℝ) + 7 = 8
    norm_num
  · exact claim_C6_amended.2.2 ⟨1, 1, [[2]]⟩ ⟨2, 1, [[3], [4]]⟩ (by decide) (by decide)

/-! ## Empty-window helpers (one per architecture) -/

lemma trainStepFFNN_empty (model : FFNNModel) (enc : List Nat) (step w : Nat) (lr : ℝ)
    (hc : enc.length - 1 ≤ step) :
    (trainStepFFNN model enc step w lr).loss = 0 ∧
    (trainStepFFNN model enc step w lr).predictionResults = [] ∧
    (trainStepFFNN model enc step w lr).updatedModel = model := by
  have hn : min (step + w) (enc.length - 1) - step = 0 := by omega
  simp only [trainStepFFNN, hn]
  simp

lemma trainStepRNN_empty (model : RNNModel) (H : Nat) (hwf : model.wfB H = true)
    (enc : List Nat) (step w : Nat) (lr dr : ℝ) (masks : Nat → Matrix)
    (hc : enc.length - 1 ≤ step) :
    (trainStepRNN model enc step w lr dr masks).loss = 0 ∧
    (trainStepRNN model enc step w lr dr masks).predictionResults = [] ∧
    (trainStepRNN model enc step w lr dr masks).updatedModel = model := by
  have hn : min (step + w) (enc.length - 1) - step = 0 := by omega
  rw [RNNModel.wfB, Bool.and_eq_true, Bool.and_eq_true, Bool.and_eq_true] at hwf
  obtain ⟨⟨⟨h1, h2⟩, h3⟩, h4⟩ := hwf
  have e1 := layer_add_zero model.Wxh _ _ model.vocab.length H h1
    (get_scale_clip_zeroMatrix model.vocab.length model.Wxh.weights.cols (-lr))
    (get_scale_clip_zeroMatrix 1 model.Wxh.weights.cols (-lr))
  have e3 := layer_add_zero model.Why _ _ H model.vocab.length h3
    (get_scale_clip_zeroMatrix model.Wxh.weights.cols model.vocab.length (-lr))
    (get_scale_clip_zeroMatrix 1 model.vocab.length (-lr))
  have e2 := add_all_zero model.Whh.weights _ H H
    (by
      rw [Layer.wfB, Bool.and_eq_true] at h2
      exact h2.1)
    (get_scale_clip_zeroMatrix model.Wxh.weights.cols model.Wxh.weights.cols (-lr))
  simp only [trainStepRNN, hn]
  simp only [List.range', List.foldl_nil, List.length_nil, List.range_zero,
    List.reverse_nil]
  refine ⟨by simp, by simp, ?_⟩
  show ({ model with
      Wxh := ⟨add model.Wxh.weights _, add model.Wxh.biases _⟩
      Whh := ⟨add model.Whh.weights _, model.Whh.biases⟩
      Why := ⟨add model.Why.weights _, add model.Why.biases _⟩
      h := ([model.h]).getLastD model.h } : RNNModel) = model
  rw [e1, e2, e3]
  rfl

lemma trainStepGRU_empty (model : GRULanguageModel) (H : Nat) (hwf : model.wfB H = true)
    (enc : List Nat) (step w : Nat) (lr dr : ℝ) (masks : Nat → Matrix)
    (hc : enc.length - 1 ≤ step) :
    (trainStepGRU model enc step w lr dr masks).loss = 0 ∧
    (trainStepGRU model enc step w lr dr masks).predictionResults = [] ∧
    (trainStepGRU model enc step w lr dr masks).updatedModel = model := by
  have hn : min (step + w) (enc.length - 1) - step = 0 := by omega
  rw [GRULanguageModel.wfB] at hwf
  simp only [Bool.and_eq_true] at hwf
  obtain ⟨⟨⟨⟨⟨⟨⟨hWz, hUz⟩, hWr⟩, hUr⟩, hWh⟩, hUh⟩, hWhy⟩, hh⟩ := hwf
  have wUz : model.Uz.weights.wfB H H = true := by
    rw [Layer.wfB, Bool.and_eq_true] at hUz
    exact hUz.1
  have wUr : model.Ur.weights.wfB H H = true := by
    rw [Layer.wfB, Bool.and_eq_true] at hUr
    exact hUr.1
  have wUh : model.Uh.weights.wfB H H = true := by
    rw [Layer.wfB, Bool.and_eq_true] at hUh
    exact hUh.1
  have e1 := layer_add_zero model.Wz _ _ model.vocab.length H hWz
    (get_scale_clip_zeroMatrix model.vocab.length model.Why.weights.rows (-lr))
    (get_scale_clip_zeroMatrix 1 model.Why.weights.rows (-lr))
  have e2 := add_all_zero model.Uz.weights _ H H wUz
    (get_scale_clip_zeroMatrix model.Why.weights.rows model.Why.weights.rows (-lr))
  have e3 := layer_add_zero model.Wr _ _ model.vocab.length H hWr
    (get_scale_clip_zeroMatrix model.vocab.length model.Why.weights.rows (-lr))
    (get_scale_clip_zeroMatrix 1 model.Why.weights.rows (-lr))
  have e4 := add_all_zero model.Ur.weights _ H H wUr
    (get_scale_clip_zeroMatrix model.Why.weights.rows model.Why.weights.rows (-lr))
  have e5 := layer_add_zero model.Wh _ _ model.vocab.length H hWh
    (get_scale_clip_zeroMatrix model.vocab.length model.Why.weights.rows (-lr))
    (get_scale_clip_zeroMatrix 1 model.Why.weights.rows (-lr))
  have e6 := add_all_zero model.Uh.weights _ H H wUh
    (get_scale_clip_zeroMatrix model.Why.weights.rows model.Why.weights.rows (-lr))
  have e7 := layer_add_zero model.Why _ _ H model.vocab.length hWhy
    (get_scale_clip_zeroMatrix model.Why.weights.rows model.vocab.length (-lr))
    (get_scale_clip_zeroMatrix 1 model.vocab.length (-lr))
  simp only [trainStepGRU, hn]
  simp only [List.range', List.foldl_nil, List.length_nil, List.range_zero,
    List.reverse_nil]
  refine ⟨by simp, by simp, ?_⟩
  show ({ model with
      Wz := ⟨add model.Wz.weights _, add model.Wz.biases _⟩
      Uz := ⟨add model.Uz.weights _, model.Uz.biases⟩
      Wr := ⟨add model.Wr.weights _, add model.Wr.biases _⟩
      Ur := ⟨add model.Ur.weights _, model.Ur.biases⟩
      Wh := ⟨add model.Wh.weights _, add model.Wh.biases _⟩
      Uh := ⟨add model.Uh.weights _, model.Uh.biases⟩
      Why := ⟨add model.Why.weights _, add model.Why.biases _⟩
      h := ([model.h]).getLastD model.h } : GRULanguageModel) = model
  rw [e1, e2, e3, e4, e5, e6, e7]
  rfl

lemma trainStepLSTM_empty (model : LSTMLanguageModel) (H : Nat) (hwf : model.wfB H = true)
    (enc : List Nat) (step w : Nat) (lr dr : ℝ) (masks : Nat → Matrix)
    (hc : enc.length - 1 ≤ step) :
    (trainStepLSTM model enc step w lr dr masks).loss = 0 ∧
    (trainStepLSTM model enc step w lr dr masks).predictionResults = [] ∧
    (trainStepLSTM model enc step w lr dr masks).updatedModel = model := by
  have hn : min (step + w) (enc.length - 1) - step = 0 := by omega
  rw [LSTMLanguageModel.wfB] at hwf
  simp only [Bool.and_eq_true] at hwf
  obtain ⟨⟨⟨⟨⟨⟨⟨⟨⟨⟨hWf, hUf⟩, hWi⟩, hUi⟩, hWo⟩, hUo⟩, hWc⟩, hUc⟩, hWhy⟩, hh⟩, hcc⟩ := hwf
  have wUf : model.Uf.weights.wfB H H = true := by
    rw [Layer.wfB, Bool.and_eq_true] at hUf
    exact hUf.1
  have wUi : model.Ui.weights.wfB H H = true := by
    rw [Layer.wfB, Bool.and_eq_true] at hUi
    exact hUi.1
  have wUo : model.Uo.weights.wfB H H = true := by
    rw [Layer.wfB, Bool.and_eq_true] at hUo
    exact hUo.1
  have wUc : model.Uc.weights.wfB H H = true := by
    rw [Layer.wfB, Bool.and_eq_true] at hUc
    exact hUc.1
  have e1 := layer_add_zero model.Wf _ _ model.vocab.length H hWf
    (get_scale_clip_zeroMatrix model.vocab.length model.Why.weights.rows (-lr))
    (get_scale_clip_zeroMatrix 1 model.Why.weights.rows (-lr))
  have e2 := add_all_zero model.Uf.weights _ H H wUf
    (get_scale_clip_zeroMatrix model.Why.weights.rows model.Why.weights.rows (-lr))
  have e3 := layer_add_zero model.Wi _ _ model.vocab.length H hWi
    (get_scale_clip_zeroMatrix model.vocab.length model.Why.weights.rows (-lr))
    (get_scale_clip_zeroMatrix 1 model.Why.weights.rows (-lr))
  have e4 := add_all_zero model.Ui.weights _ H H wUi
    (get_scale_clip_zeroMatrix model.Why.weights.rows model.Why.weights.rows (-lr))
  have e5 := layer_add_zero model.Wo _ _ model.vocab.length H hWo
    (get_scale_clip_zeroMatrix model.vocab.length model.Why.weights.rows (-lr))
    (get_scale_clip_zeroMatrix 1 model.Why.weights.rows (-lr))
  have e6 := add_all_zero model.Uo.weights _ H H wUo
    (get_scale_clip_zeroMatrix model.Why.weights.rows model.Why.weights.rows (-lr))
  have e7 := layer_add_zero model.Wc _ _ model.vocab.length H hWc
    (get_scale_clip_zeroMatrix model.vocab.length model.Why.weights.rows (-lr))
    (get_scale_clip_zeroMatrix 1 model.Why.weights.rows (-lr))
  have e8 := add_all_zero model.Uc.weights _ H H wUc
    (get_scale_clip_zeroMatrix model.Why.weights.rows model.Why.weights.rows (-lr))
  have e9 := layer_add_zero model.Why _ _ H model.vocab.length hWhy
    (get_scale_clip_zeroMatrix model.Why.weights.rows model.vocab.length (-lr))
    (get_scale_clip_zeroMatrix 1 model.vocab.length (-lr))
  simp only [trainStepLSTM, hn]
  simp only [List.range', List.foldl_nil, List.length_nil, List.range_zero,
    List.reverse_nil]
  refine ⟨by simp, by simp, ?_⟩
  show ({ model with
      Wf := ⟨add model.Wf.weights _, add model.Wf.biases _⟩
      Uf := ⟨add model.Uf.weights _, model.Uf.biases⟩
      Wi := ⟨add model.Wi.weights _, add model.Wi.biases _⟩
      Ui := ⟨add model.Ui.weights _, model.Ui.biases⟩
      Wo := ⟨add model.Wo.weights _, add model.Wo.biases _⟩
      Uo := ⟨add model.Uo.weights _, model.Uo.biases⟩
      Wc := ⟨add model.Wc.weights _, add model.Wc.biases _⟩
      Uc := ⟨add model.Uc.weights _, model.Uc.biases⟩
      Why := ⟨add model.Why.weights _, add model.Why.biases _⟩
      h := ([model.h]).getLastD model.h
      c := ([model.c]).getLastD model.c } : LSTMLanguageModel) = model
  rw [e1, e2, e3, e4, e5, e6, e7, e8, e9]
  rfl

/-- C5.  For each of the four training-step functions, an empty window
(cursor at or past `encodedCorpus.length - 1`) is not an error: the call
returns loss `0`, an empty `predictionResults`, and an updated model equal to
the input model (structural equality, hence in particular element-wise
equality of every weight matrix, bias vector and recurrent state). -/
theorem claim_C5 (ffnn : FFNNModel) (rnn : RNNModel) (gru : GRULanguageModel)
    (lstm : LSTMLanguageModel) (Hr Hg Hl : Nat) (enc : List Nat) (step w : Nat)
    (lr dr : ℝ) (masks : Nat → Matrix)
    (hr : rnn.wfB Hr = true) (hg : gru.wfB Hg = true) (hl : lstm.wfB Hl = true)
    (hc : enc.length - 1 ≤ step) :
    ((trainStepFFNN ffnn enc step w lr).loss = 0 ∧
     (trainStepFFNN ffnn enc step w lr).predictionResults = [] ∧
     (trainStepFFNN ffnn enc step w lr).updatedModel = ffnn) ∧
    ((trainStepRNN rnn enc step w lr dr masks).loss = 0 ∧
     (trainStepRNN rnn enc step w lr dr masks).predictionResults = [] ∧
     (trainStepRNN rnn enc step w lr dr masks).updatedModel = rnn) ∧
    ((trainStepGRU gru enc step w lr dr masks).loss = 0 ∧
     (trainStepGRU gru enc step w lr dr masks).predictionResults = [] ∧
     (trainStepGRU gru enc step w lr dr masks).updatedModel = gru) ∧
    ((trainStepLSTM lstm enc step w lr dr masks).loss = 0 ∧
     (trainStepLSTM lstm enc step w lr dr masks).predictionResults = [] ∧
     (trainStepLSTM lstm enc step w lr dr masks).updatedModel = lstm) :=
  ⟨trainStepFFNN_empty ffnn enc step w lr hc,
   trainStepRNN_empty rnn Hr hr enc step w lr dr masks hc,
   trainStepGRU_empty gru Hg hg enc step w lr dr masks hc,
   trainStepLSTM_empty lstm Hl hl enc step w lr dr masks hc⟩

/-- C5 (witness): concrete zero-weight models, corpus `[0, 1]`, cursor `1`
(the last usable position is `0`, so the window is empty). -/
theorem claim_C5_witness :
    (trainStepFFNN exFFNN3 [0, 1] 1 5 (1/2)).updatedModel = exFFNN3 ∧
    (trainStepRNN exRNN [0, 1] 1 5 (1/2) 0 fun _ => default).updatedModel = exRNN ∧
    (trainStepGRU exGRU [0, 1] 1 5 (1/2) 0 fun _ => default).updatedModel = exGRU ∧
    (trainStepLSTM exLSTM [0, 1] 1 5 (1/2) 0 fun _ => default).updatedModel = exLSTM := by
  obtain ⟨f, r, g, l⟩ := claim_C5 exFFNN3 exRNN exGRU exLSTM 2 2 2 [0, 1] 1 5 (1/2) 0
    (fun _ => default) (by decide) (by decide) (by decide) (by decide)
  exact ⟨f.2.2, r.2.2, g.2.2, l.2.2⟩

/-! ## Softmax row lemmas (claim C7) -/

lemma rowExps_pos (row : List ℝ) : ∀ x ∈ rowExps row, 0 < x := by
  intro x hx
  unfold rowExps at hx
  obtain ⟨y, -, rfl⟩ := List.mem_map.mp hx
  exact Real.exp_pos _

lemma sumExps_eq_sum (row : List ℝ) : sumExps row = (rowExps row).sum := by
  unfold sumExps
  rw [foldl_add_shift, zero_add]

lemma sumExps_pos (row : List ℝ) (h : row ≠ []) : 0 < sumExps row := by
  rw [sumExps_eq_sum]
  refine List.sum_pos _ (rowExps_pos row) ?_
  unfold rowExps
  simpa using h

/-- On a nonempty row the softmax guard and the zero-denominator fallback are
both skipped: the result is exactly the normalised stabilised exponentials. -/
lemma softmax_row_eq (n : Nat) (row : List ℝ) (h : row ≠ []) :
    softmax ⟨1, n, [row]⟩ = ⟨1, n, [(rowExps row).map fun e => e / sumExps row]⟩ := by
  unfold softmax
  rw [if_neg (by simp [List.length_eq_zero, h])]
  show (⟨1, n, [(rowExps row).map fun e =>
    e / (if sumExps row = 0 then 1 else sumExps row)]⟩ : Matrix) = _
  rw [if_neg (sumExps_pos row h).ne']

lemma foldl_max_add (xs : List ℝ) : ∀ a c : ℝ,
    (xs.map fun x => x + c).foldl max (a + c) = xs.foldl max a + c := by
  induction xs with
  | nil => intro a c; rfl
  | cons y ys ih =>
    intro a c
    simp only [List.map_cons, List.foldl_cons]
    rw [max_add_add_right a y c, ih]

lemma rowMax_shift (row : List ℝ) (c : ℝ) (h : row ≠ []) :
    rowMax (row.map fun x => x + c) = rowMax row + c := by
  cases row with
  | nil => exact absurd rfl h
  | cons x xs =>
    unfold rowMax
    simp only [List.map_cons, List.headD_cons]
    exact foldl_max_add (x :: xs) x c

lemma rowExps_shift (row : List ℝ) (c : ℝ) (h : row ≠ []) :
    rowExps (row.map fun x => x + c) = rowExps row := by
  unfold rowExps
  rw [rowMax_shift row c h, List.map_map]
  refine List.map_congr_left ?_
  intro x _
  simp only [Function.comp_apply]
  rw [add_sub_add_right_eq_sub]

/-- C7.  For every nonempty logits row over exact real arithmetic: the softmax
output is a `1 × n` row whose entries all lie in `[0, 1]` and sum to exactly
`1`; the internal denominator is never `0`, so the `|| 1` fallback branch is
unreachable; softmax is invariant under shifting all logits by a constant; and
on `[1000, 1000, 1000]` it returns exactly `[1/3, 1/3, 1/3]`. -/
theorem claim_C7 :
    (∀ row : List ℝ, row ≠ [] →
      (softmax ⟨1, row.length, [row]⟩).rows = 1 ∧
      (softmax ⟨1, row.length, [row]⟩).cols = row.length ∧
      (∀ x ∈ (softmax ⟨1, row.length, [row]⟩).data.headD [], 0 ≤ x ∧ x ≤ 1) ∧
      ((softmax ⟨1, row.length, [row]⟩).data.headD []).sum = 1 ∧
      sumExps row ≠ 0) ∧
    (∀ (row : List ℝ) (c : ℝ), row ≠ [] →
      softmax ⟨1, row.length, [row.map fun x => x + c]⟩ = softmax ⟨1, row.length, [row]⟩) ∧
    softmax ⟨1, 3, [[1000, 1000, 1000]]⟩ = ⟨1, 3, [[1/3, 1/3, 1/3]]⟩ := by
  refine ⟨?_, ?_, ?_⟩
  · intro row h
    have hpos := sumExps_pos row h
    rw [softmax_row_eq row.length row h]
    refine ⟨rfl, rfl, ?_, ?_, hpos.ne'⟩
    · intro x hx
      simp only [List.headD_cons] at hx
      obtain ⟨e, he, rfl⟩ := List.mem_map.mp hx
      have hepos := rowExps_pos row e he
      have hles : e ≤ sumExps row := by
        rw [sumExps_eq_sum]
        exact List.single_le_sum (fun y hy => (rowExps_pos row y hy).le) e he
      exact ⟨div_nonneg hepos.le hpos.le, (div_le_one hpos).mpr hles⟩
    · simp only [List.headD_cons]
      have hdiv : ((rowExps row).map fun e => e / sumExps row) =
          (rowExps row).map fun e => e * (sumExps row)⁻¹ := by
        refine List.map_congr_left fun e _ => div_eq_mul_inv e _
      rw [hdiv]
      have hs := List.sum_map_mul_right (rowExps row) id (sumExps row)⁻¹
      simp only [id_eq, List.map_id] at hs
      rw [hs, ← sumExps_eq_sum]
      exact mul_inv_cancel₀ hpos.ne'
  · intro row c h
    have hne : (row.map fun x => x + c) ≠ [] := by simpa using h
    rw [softmax_row_eq row.length _ hne, softmax_row_eq row.length row h,
      rowExps_shift row c h]
    unfold sumExps
    rw [rowExps_shift row c h]
  · have h := softmax_row_eq 3 [1000, 1000, 1000] (by simp)
    have hmax : rowMax [1000, 1000, 1000] = 1000 := by
      unfold rowMax
      simp [max_self]
    have hexps : rowExps [1000, 1000, 1000] = [1, 1, 1] := by
      unfold rowExps
      rw [hmax]
      simp [Real.exp_zero]
    have hsum : sumExps [1000, 1000, 1000] = 3 := by
      rw [sumExps_eq_sum, hexps]
      norm_num
    rw [h, hexps, hsum]
    norm_num

/-- C7 (witness): the row property at `[0]` and shift invariance at
`[3, 4] + 7`. -/
theorem claim_C7_witness :
    ((softmax ⟨1, 1, [[0]]⟩).data.headD []).sum = 1 ∧
    softmax ⟨1, 2, [[10, 11]]⟩ = softmax ⟨1, 2, [[3, 4]]⟩ := by
  constructor
  · exact (claim_C7.1 [0] (by simp)).2.2.2.1
  · have h := claim_C7.2.1 [3, 4] 7 (by simp)
    norm_num at h
    exact h

/-! ## Generator lookup-failure lemmas (claim C9) -/

lemma genFFNNLoop_unknown (model : FFNNModel) (temp : ℝ) (rand : Nat → ℝ)
    (currentInput result : String) (i fuel : Nat)
    (h : (currentInput.data.getLast?.map String.singleton).bind model.tokenToIndex = none) :
    genFFNNLoop model temp rand currentInput result i fuel = result := by
  cases fuel with
  | zero => rfl
  | succ f => simp only [genFFNNLoop, h]

lemma genRNNLoop_unknown (model : RNNModel) (temp : ℝ) (rand : Nat → ℝ)
    (current_h : Matrix) (inputChar result : String) (i fuel : Nat)
    (h : model.tokenToIndex inputChar = none) :
    genRNNLoop model temp rand current_h inputChar result i fuel = result := by
  cases fuel with
  | zero => rfl
  | succ f => simp only [genRNNLoop, h]

lemma genGRULoop_unknown (model : GRULanguageModel) (temp : ℝ) (rand : Nat → ℝ)
    (h_prev : Matrix) (inputChar result : String) (i fuel : Nat)
    (h : model.tokenToIndex inputChar = none) :
    genGRULoop model temp rand h_prev inputChar result i fuel = result := by
  cases fuel with
  | zero => rfl
  | succ f => simp only [genGRULoop, h]

lemma genLSTMLoop_unknown (model : LSTMLanguageModel) (temp : ℝ) (rand : Nat → ℝ)
    (h_prev c_prev : Matrix) (inputChar result : String) (i fuel : Nat)
    (h : model.tokenToIndex inputChar = none) :
    genLSTMLoop model temp rand h_prev c_prev inputChar result i fuel = result := by
  cases fuel with
  | zero => rfl
  | succ f => simp only [genLSTMLoop, h]

/-- C9 (counterexample).  With the seed `"x"` missing from the vocabulary the
RNN generator does not return the empty string: it returns the seed itself
(`seed + ''`). -/
theorem claim_C9_counterexample :
    generateRNN exRNN ("x") 5 (7/10) (fun _ => 0) ≠ ("") := by
  have hx : exRNN.tokenToIndex ("x") = none := by
    show exT2I3 ("x") = none
    simp [exT2I3]
  have h : generateRNN exRNN ("x") 5 (7/10) (fun _ => 0) = ("x") := by
    unfold generateRNN
    rw [genRNNLoop_unknown exRNN (7/10) (fun _ => 0) exRNN.h ("x") ("") 0 5 hx]
    simp
  rw [h]
  simp

/-- C9 (amended).  When the seed token is unknown, each generator performs no
forward step and raises no error, but it returns the seed concatenated with
the empty generated suffix — i.e. the seed itself, which is empty only when
the seed is the empty string (for the FFNN generator the lookup key is the
seed's last character). -/
theorem claim_C9_amended :
    (∀ (model : FFNNModel) (seed : String) (len : Nat) (temp : ℝ) (rand : Nat → ℝ),
      (seed.data.getLast?.map String.singleton).bind model.tokenToIndex = none →
      generateFFNN model seed len temp rand = seed) ∧
    (∀ (model : RNNModel) (seed : String) (len : Nat) (temp : ℝ) (rand : Nat → ℝ),
      model.tokenToIndex seed = none → generateRNN model seed len temp rand = seed) ∧
    (∀ (model : GRULanguageModel) (seed : String) (len : Nat) (temp : ℝ) (rand : Nat → ℝ),
      model.tokenToIndex seed = none → generateGRU model seed len temp rand = seed) ∧
    (∀ (model : LSTMLanguageModel) (seed : String) (len : Nat) (temp : ℝ) (rand : Nat → ℝ),
      model.tokenToIndex seed = none → generateLSTM model seed len temp rand = seed) := by
  refine ⟨?_, ?_, ?_, ?_⟩
  · intro model seed len temp rand h
    unfold generateFFNN
    rw [genFFNNLoop_unknown model temp rand seed ("") 0 len h]
    simp
  · intro model seed len temp rand h
    unfold generateRNN
    rw [genRNNLoop_unknown model temp rand model.h seed ("") 0 len h]
    simp
  · intro model seed len temp rand h
    unfold generateGRU
    rw [genGRULoop_unknown model temp rand model.h seed ("") 0 len h]
    simp
  · intro model seed len temp rand h
    unfold generateLSTM
    rw [genLSTMLoop_unknown model temp rand model.h model.c seed ("") 0 len h]
    simp

/-- C9 (witness): the amended statement at concrete models and the unknown
seed `"x"`. -/
theorem claim_C9_witness :
    generateFFNN exFFNN3 ("x") 4 1 (fun _ => 0) = ("x") ∧
    generateRNN exRNN ("x") 4 1 (fun _ => 0) = ("x") ∧
    generateGRU exGRU ("x") 4 1 (fun _ => 0) = ("x") ∧
    generateLSTM exLSTM ("x") 4 1 (fun _ => 0) = ("x") := by
  refine ⟨?_, ?_, ?_, ?_⟩
  · exact claim_C9_amended.1 exFFNN3 ("x") 4 1 (fun _ => 0) (by decide)
  · exact claim_C9_amended.2.1 exRNN ("x") 4 1 (fun _ => 0) (by decide)
  · exact claim_C9_amended.2.2.1 exGRU ("x") 4 1 (fun _ => 0) (by decide)
  · exact claim_C9_amended.2.2.2 exLSTM ("x") 4 1 (fun _ => 0) (by decide)

/-! ## Forward-pass fold invariants (RNN) -/

lemma wfB_cast (m : Matrix) (r c : Nat) (hr : m.rows = r) (hc : m.cols = c)
    (h : m.wfB m.rows m.cols = true) : m.wfB r c = true := by
  obtain ⟨-, -, hl, hrow⟩ := (wfB_iff m m.rows m.cols).mp h
  refine (wfB_iff m r c).mpr ⟨hr, hc, by rw [hl, hr], ?_⟩
  intro row hmem
  rw [hrow row hmem, hc]

lemma map_wfB (m : Matrix) (f : ℝ → ℝ) (r c : Nat) (hr : m.rows = r) (hc : m.cols = c) :
    (map m f).wfB r c = true :=
  wfB_cast (map m f) r c hr hc (ofFn_wfB m.rows m.cols _)

/-- Projection of the accumulated `predictionResults` onto the
(input, target) token pair: one entry per visited corpus position, in
order, independent of the evolving hidden state. -/
lemma rnnFwd_preds_proj (model : RNNModel) (enc : List Nat) (dr : ℝ)
    (masks : Nat → Matrix) : ∀ (ts : List Nat) (st : RNNFwd),
    ((ts.foldl (rnnFwdStep model enc dr masks) st).preds).map
        (fun p => (p.inputToken, p.targetToken)) =
      st.preds.map (fun p => (p.inputToken, p.targetToken)) ++
        ts.map (fun t => (model.vocab.getD (enc.getD t 0) (""),
          model.vocab.getD (enc.getD (t + 1) 0) (""))) := by
  intro ts
  induction ts with
  | nil => intro st; simp
  | cons t ts ih =>
    intro st
    rw [List.foldl_cons, ih]
    simp [rnnFwdStep, List.map_append]

/-- With dropout off, the last entry of the accumulated `hiddenStates` list is
the reference hidden-state recurrence applied to the visited tokens. -/
lemma rnnFwd_last (model : RNNModel) (enc : List Nat) (masks : Nat → Matrix) :
    ∀ (ts : List Nat) (st : RNNFwd),
    ((ts.foldl (rnnFwdStep model enc 0 masks) st).hiddenStates).getLastD model.h =
      rnnForwardH model (ts.map fun t => enc.getD t 0)
        (st.hiddenStates.getLastD model.h) := by
  intro ts
  induction ts with
  | nil => intro st; rfl
  | cons t ts ih =>
    intro st
    rw [List.foldl_cons, ih]
    have hbase : ((rnnFwdStep model enc 0 masks st t).hiddenStates).getLastD model.h
        = rnnStepH model (st.hiddenStates.getLastD model.h) (enc.getD t 0) := by
      simp only [rnnFwdStep]
      rw [if_neg (lt_irrefl (0:ℝ))]
      exact getLastD_concat _ _ _
    rw [hbase]
    rfl

lemma rnnStepH_wfB (model : RNNModel) (H : Nat) (hwc : model.Wxh.weights.cols = H)
    (h : Matrix) (tok : Nat) : (rnnStepH model h tok).wfB 1 H = true :=
  map_wfB _ tanh 1 H (by simp) (by simp [hwc])

lemma rnnForwardH_wfB (model : RNNModel) (H : Nat) (hwc : model.Wxh.weights.cols = H)
    (toks : List Nat) (h0 : Matrix) (h0wf : h0.wfB 1 H = true) :
    (rnnForwardH model toks h0).wfB 1 H = true := by
  induction toks generalizing h0 with
  | nil => exact h0wf
  | cons t ts ih => exact ih (rnnStepH model h0 t) (rnnStepH_wfB model H hwc h0 t)

/-- Adding a zero-scaled matrix to a well-formed matrix is the identity. -/
lemma add_scale_zero (W Z : Matrix) (r c : Nat) (hW : W.wfB r c = true) :
    add W (scale Z 0) = W :=
  add_all_zero W (scale Z 0) r c hW (get_scale_zero Z)

/-- A frozen (`learningRate = 0`, `dropoutRate = 0`) RNN training step leaves
every parameter unchanged and only advances the persisted hidden state by the
reference recurrence over the window's tokens. -/
lemma trainStepRNN_frozen (model : RNNModel) (H : Nat) (hwf : model.wfB H = true)
    (enc : List Nat) (step w : Nat) (masks : Nat → Matrix) :
    (trainStepRNN model enc step w 0 0 masks).updatedModel =
      { model with
          h := rnnForwardH model
            ((List.range' step (min (step + w) (enc.length - 1) - step)).map
              fun t => enc.getD t 0)
            model.h } := by
  rw [RNNModel.wfB, Bool.and_eq_true, Bool.and_eq_true, Bool.and_eq_true] at hwf
  obtain ⟨⟨⟨h1, h2⟩, h3⟩, h4⟩ := hwf
  rw [Layer.wfB, Bool.and_eq_true] at h1 h2 h3
  simp only [trainStepRNN, neg_zero]
  rw [add_scale_zero model.Wxh.weights _ model.vocab.length H h1.1,
    add_scale_zero model.Wxh.biases _ 1 H h1.2,
    add_scale_zero model.Whh.weights _ H H h2.1,
    add_scale_zero model.Why.weights _ H model.vocab.length h3.1,
    add_scale_zero model.Why.biases _ 1 model.vocab.length h3.2,
    rnnFwd_last model enc masks _ ⟨[], [model.h], 0, []⟩]
  rfl

/-! ## Forward-pass fold invariants (GRU, LSTM, FFNN) -/

lemma add_wfB (a b : Matrix) (r c : Nat) (ha : a.wfB r c = true) :
    (add a b).wfB r c = true := by
  obtain ⟨har, hac, -, -⟩ := (wfB_iff a r c).mp ha
  unfold add
  split
  · exact wfB_cast _ r c (by simpa) (by simpa) (ofFn_wfB _ _ _)
  split
  · exact wfB_cast _ r c (by simpa) (by simpa) (ofFn_wfB _ _ _)
  · exact ha

lemma gruFwd_preds_proj (model : GRULanguageModel) (enc : List Nat) (dr : ℝ)
    (masks : Nat → Matrix) : ∀ (ts : List Nat) (st : GRUFwd),
    ((ts.foldl (gruFwdStep model enc dr masks) st).preds).map
        (fun p => (p.inputToken, p.targetToken)) =
      st.preds.map (fun p => (p.inputToken, p.targetToken)) ++
        ts.map (fun t => (model.vocab.getD (enc.getD t 0) (""),
          model.vocab.getD (enc.getD (t + 1) 0) (""))) := by
  intro ts
  induction ts with
  | nil => intro st; simp
  | cons t ts ih =>
    intro st
    rw [List.foldl_cons, ih]
    simp [gruFwdStep, List.map_append]

lemma lstmFwd_preds_proj (model : LSTMLanguageModel) (enc : List Nat) (dr : ℝ)
    (masks : Nat → Matrix) : ∀ (ts : List Nat) (st : LSTMFwd),
    ((ts.foldl (lstmFwdStep model enc dr masks) st).preds).map
        (fun p => (p.inputToken, p.targetToken)) =
      st.preds.map (fun p => (p.inputToken, p.targetToken)) ++
        ts.map (fun t => (model.vocab.getD (enc.getD t 0) (""),
          model.vocab.getD (enc.getD (t + 1) 0) (""))) := by
  intro ts
  induction ts with
  | nil => intro st; simp
  | cons t ts ih =>
    intro st
    rw [List.foldl_cons, ih]
    simp [lstmFwdStep, List.map_append]

lemma ffnn_preds_proj (model : FFNNModel) (enc : List Nat) : ∀ (ts : List Nat) (st : FFNNAcc),
    ((ts.foldl (ffnnLoopStep model enc) st).preds).map
        (fun p => (p.inputToken, p.targetToken)) =
      st.preds.map (fun p => (p.inputToken, p.targetToken)) ++
        ts.map (fun t => (model.vocab.getD (enc.getD t 0) (""),
          model.vocab.getD (enc.getD (t + 1) 0) (""))) := by
  intro ts
  induction ts with
  | nil => intro st; simp
  | cons t ts ih =>
    intro st
    rw [List.foldl_cons, ih]
    simp [ffnnLoopStep, List.map_append]

lemma gruFwd_last (model : GRULanguageModel) (enc : List Nat) (masks : Nat → Matrix) :
    ∀ (ts : List Nat) (st : GRUFwd),
    ((ts.foldl (gruFwdStep model enc 0 masks) st).hiddenStates).getLastD model.h =
      gruForwardH model (ts.map fun t => enc.getD t 0)
        (st.hiddenStates.getLastD model.h) := by
  intro ts
  induction ts with
  | nil => intro st; rfl
  | cons t ts ih =>
    intro st
    rw [List.foldl_cons, ih]
    have hbase : ((gruFwdStep model enc 0 masks st t).hiddenStates).getLastD model.h
        = gruStepH model (st.hiddenStates.getLastD model.h) (enc.getD t 0) := by
      simp only [gruFwdStep]
      rw [if_neg (lt_irrefl (0:ℝ))]
      exact getLastD_concat _ _ _
    rw [hbase]
    rfl

lemma lstmFwd_last (model : LSTMLanguageModel) (enc : List Nat) (masks : Nat → Matrix) :
    ∀ (ts : List Nat) (st : LSTMFwd),
    (((ts.foldl (lstmFwdStep model enc 0 masks) st).hiddenStates).getLastD model.h,
     ((ts.foldl (lstmFwdStep model enc 0 masks) st).cellStates).getLastD model.c) =
      lstmForwardHC model (ts.map fun t => enc.getD t 0)
        (st.hiddenStates.getLastD model.h, st.cellStates.getLastD model.c) := by
  intro ts
  induction ts with
  | nil => intro st; rfl
  | cons t ts ih =>
    intro st
    rw [List.foldl_cons, ih]
    have hbase : (((lstmFwdStep model enc 0 masks st t).hiddenStates).getLastD model.h,
        ((lstmFwdStep model enc 0 masks st t).cellStates).getLastD model.c)
        = lstmStepHC model
            (st.hiddenStates.getLastD model.h, st.cellStates.getLastD model.c)
            (enc.getD t 0) := by
      simp only [lstmFwdStep]
      rw [if_neg (lt_irrefl (0:ℝ)), getLastD_concat, getLastD_concat]
      rfl
    rw [hbase]
    rfl

lemma gruStepH_wfB (model : GRULanguageModel) (H : Nat)
    (hwr : model.Why.weights.rows = H) (h : Matrix) (tok : Nat) :
    (gruStepH model h tok).wfB 1 H = true := by
  unfold gruStepH
  apply add_wfB _ _ 1 H
  exact wfB_cast _ 1 H (by simp) (by simp [hwr]) (ofFn_wfB _ _ _)

lemma gruForwardH_wfB (model : GRULanguageModel) (H : Nat)
    (hwr : model.Why.weights.rows = H) (toks : List Nat) (h0 : Matrix)
    (h0wf : h0.wfB 1 H = true) : (gruForwardH model toks h0).wfB 1 H = true := by
  induction toks generalizing h0 with
  | nil => exact h0wf
  | cons t ts ih => exact ih (gruStepH model h0 t) (gruStepH_wfB model H hwr h0 t)

lemma lstmStepHC_wfB (model : LSTMLanguageModel) (H : Nat)
    (hwo : model.Wo.weights.cols = H) (hwf : model.Wf.weights.cols = H)
    (hc : Matrix × Matrix) (tok : Nat) :
    ((lstmStepHC model hc tok).1.wfB 1 H = true) ∧
    ((lstmStepHC model hc tok).2.wfB 1 H = true) := by
  constructor
  · exact wfB_cast _ 1 H (by simp [lstmStepHC]) (by simp [lstmStepHC, hwo]) (ofFn_wfB _ _ _)
  · show (add _ _).wfB 1 H = true
    apply add_wfB _ _ 1 H
    exact wfB_cast _ 1 H (by simp) (by simp [hwf]) (ofFn_wfB _ _ _)

lemma lstmForwardHC_wfB (model : LSTMLanguageModel) (H : Nat)
    (hwo : model.Wo.weights.cols = H) (hwf : model.Wf.weights.cols = H)
    (toks : List Nat) (hc0 : Matrix × Matrix)
    (h0wf : hc0.1.wfB 1 H = true) (c0wf : hc0.2.wfB 1 H = true) :
    ((lstmForwardHC model toks hc0).1.wfB 1 H = true) ∧
    ((lstmForwardHC model toks hc0).2.wfB 1 H = true) := by
  induction toks generalizing hc0 with
  | nil => exact ⟨h0wf, c0wf⟩
  | cons t ts ih =>
    exact ih (lstmStepHC model hc0 t) (lstmStepHC_wfB model H hwo hwf hc0 t).1
      (lstmStepHC_wfB model H hwo hwf hc0 t).2

/-- A frozen GRU training step: parameters unchanged, hidden state advanced by
the reference recurrence. -/
lemma trainStepGRU_frozen (model : GRULanguageModel) (H : Nat) (hwf : model.wfB H = true)
    (enc : List Nat) (step w : Nat) (masks : Nat → Matrix) :
    (trainStepGRU model enc step w 0 0 masks).updatedModel =
      { model with
          h := gruForwardH model
            ((List.range' step (min (step + w) (enc.length - 1) - step)).map
              fun t => enc.getD t 0)
            model.h } := by
  rw [GRULanguageModel.wfB] at hwf
  simp only [Bool.and_eq_true] at hwf
  obtain ⟨⟨⟨⟨⟨⟨⟨hWz, hUz⟩, hWr⟩, hUr⟩, hWh⟩, hUh⟩, hWhy⟩, hh⟩ := hwf
  rw [Layer.wfB, Bool.and_eq_true] at hWz hUz hWr hUr hWh hUh hWhy
  simp only [trainStepGRU, neg_zero]
  rw [add_scale_zero model.Wz.weights _ model.vocab.length H hWz.1,
    add_scale_zero model.Wz.biases _ 1 H hWz.2,
    add_scale_zero model.Uz.weights _ H H hUz.1,
    add_scale_zero model.Wr.weights _ model.vocab.length H hWr.1,
    add_scale_zero model.Wr.biases _ 1 H hWr.2,
    add_scale_zero model.Ur.weights _ H H hUr.1,
    add_scale_zero model.Wh.weights _ model.vocab.length H hWh.1,
    add_scale_zero model.Wh.biases _ 1 H hWh.2,
    add_scale_zero model.Uh.weights _ H H hUh.1,
    add_scale_zero model.Why.weights _ H model.vocab.length hWhy.1,
    add_scale_zero model.Why.biases _ 1 model.vocab.length hWhy.2,
    gruFwd_last model enc masks _ ⟨[], [model.h], 0, []⟩]
  rfl

/-- A frozen LSTM training step: parameters unchanged, hidden and cell states
advanced by the reference recurrence. -/
lemma trainStepLSTM_frozen (model : LSTMLanguageModel) (H : Nat) (hwf : model.wfB H = true)
    (enc : List Nat) (step w : Nat) (masks : Nat → Matrix) :
    (trainStepLSTM model enc step w 0 0 masks).updatedModel =
      { model with
          h := (lstmForwardHC model
            ((List.range' step (min (step + w) (enc.length - 1) - step)).map
              fun t => enc.getD t 0)
            (model.h, model.c)).1
          c := (lstmForwardHC model
            ((List.range' step (min (step + w) (enc.length - 1) - step)).map
              fun t => enc.getD t 0)
            (model.h, model.c)).2 } := by
  rw [LSTMLanguageModel.wfB] at hwf
  simp only [Bool.and_eq_true] at hwf
  obtain ⟨⟨⟨⟨⟨⟨⟨⟨⟨⟨hWf, hUf⟩, hWi⟩, hUi⟩, hWo⟩, hUo⟩, hWc⟩, hUc⟩, hWhy⟩, hh⟩, hcc⟩ := hwf
  rw [Layer.wfB, Bool.and_eq_true] at hWf hUf hWi hUi hWo hUo hWc hUc hWhy
  have hpair := lstmFwd_last model enc masks
    (List.range' step (min (step + w) (enc.length - 1) - step)) ⟨[], [model.h], [model.c], 0, []⟩
  simp only [trainStepLSTM, neg_zero]
  rw [add_scale_zero model.Wf.weights _ model.vocab.length H hWf.1,
    add_scale_zero model.Wf.biases _ 1 H hWf.2,
    add_scale_zero model.Uf.weights _ H H hUf.1,
    add_scale_zero model.Wi.weights _ model.vocab.length H hWi.1,
    add_scale_zero model.Wi.biases _ 1 H hWi.2,
    add_scale_zero model.Ui.weights _ H H hUi.1,
    add_scale_zero model.Wo.weights _ model.vocab.length H hWo.1,
    add_scale_zero model.Wo.biases _ 1 H hWo.2,
    add_scale_zero model.Uo.weights _ H H hUo.1,
    add_scale_zero model.Wc.weights _ model.vocab.length H hWc.1,
    add_scale_zero model.Wc.biases _ 1 H hWc.2,
    add_scale_zero model.Uc.weights _ H H hUc.1,
    add_scale_zero model.Why.weights _ H model.vocab.length hWhy.1,
    add_scale_zero model.Why.biases _ 1 model.vocab.length hWhy.2,
    show (((List.range' step (min (step + w) (enc.length - 1) - step)).foldl
        (lstmFwdStep model enc 0 masks)
        ⟨[], [model.h], [model.c], 0, []⟩).hiddenStates).getLastD model.h =
      (lstmForwardHC model
        ((List.range' step (min (step + w) (enc.length - 1) - step)).map
          fun t => enc.getD t 0) (model.h, model.c)).1 from congrArg Prod.fst hpair,
    show (((List.range' step (min (step + w) (enc.length - 1) - step)).foldl
        (lstmFwdStep model enc 0 masks)
        ⟨[], [model.h], [model.c], 0, []⟩).cellStates).getLastD model.c =
      (lstmForwardHC model
        ((List.range' step (min (step + w) (enc.length - 1) - step)).map
          fun t => enc.getD t 0) (model.h, model.c)).2 from congrArg Prod.snd hpair]

lemma wfB_rows (m : Matrix) (r c : Nat) (h : m.wfB r c = true) : m.rows = r :=
  ((wfB_iff m r c).mp h).1

lemma wfB_cols (m : Matrix) (r c : Nat) (h : m.wfB r c = true) : m.cols = c :=
  ((wfB_iff m r c).mp h).2.1

lemma layer_wfB_w (l : Layer) (i o : Nat) (h : l.wfB i o = true) :
    l.weights.wfB i o = true := by
  rw [Layer.wfB, Bool.and_eq_true] at h
  exact h.1

lemma layer_wfB_b (l : Layer) (i o : Nat) (h : l.wfB i o = true) :
    l.biases.wfB 1 o = true := by
  rw [Layer.wfB, Bool.and_eq_true] at h
  exact h.2

lemma RNN_set_h_wfB (model : RNNModel) (H : Nat) (hwf : model.wfB H = true) (x : Matrix)
    (hx : x.wfB 1 H = true) : ({ model with h := x } : RNNModel).wfB H = true := by
  simp only [RNNModel.wfB, Bool.and_eq_true] at hwf ⊢
  exact ⟨⟨⟨hwf.1.1.1, hwf.1.1.2⟩, hwf.1.2⟩, hx⟩

lemma GRU_set_h_wfB (model : GRULanguageModel) (H : Nat) (hwf : model.wfB H = true)
    (x : Matrix) (hx : x.wfB 1 H = true) :
    ({ model with h := x } : GRULanguageModel).wfB H = true := by
  simp only [GRULanguageModel.wfB, Bool.and_eq_true] at hwf ⊢
  exact ⟨hwf.1, hx⟩

lemma LSTM_set_hc_wfB (model : LSTMLanguageModel) (H : Nat) (hwf : model.wfB H = true)
    (x y : Matrix) (hx : x.wfB 1 H = true) (hy : y.wfB 1 H = true) :
    ({ model with h := x, c := y } : LSTMLanguageModel).wfB H = true := by
  simp only [LSTMLanguageModel.wfB, Bool.and_eq_true] at hwf ⊢
  exact ⟨⟨hwf.1.1, hx⟩, hy⟩

/-- C4.  With `dropoutRate = 0` and `learningRate = 0` (weight update a
no-op, no randomness drawn), on a corpus of length `≥ 2k + 1`, two
consecutive window-`k` training calls produce the same final persisted
recurrent state (`h`, and `c` for the LSTM) as one window-`2k` call, for each
recurrent architecture. -/
theorem claim_C4 (rnn : RNNModel) (gru : GRULanguageModel) (lstm : LSTMLanguageModel)
    (Hr Hg Hl : Nat) (enc : List Nat) (k : Nat)
    (hr : rnn.wfB Hr = true) (hg : gru.wfB Hg = true) (hl : lstm.wfB Hl = true)
    (hlen : 2 * k + 1 ≤ enc.length) (m1 m2 m3 m4 m5 m6 m7 m8 m9 : Nat → Matrix) :
    (trainStepRNN (trainStepRNN rnn enc 0 k 0 0 m1).updatedModel enc k k 0 0
        m2).updatedModel.h
      = (trainStepRNN rnn enc 0 (2 * k) 0 0 m3).updatedModel.h ∧
    (trainStepGRU (trainStepGRU gru enc 0 k 0 0 m4).updatedModel enc k k 0 0
        m5).updatedModel.h
      = (trainStepGRU gru enc 0 (2 * k) 0 0 m6).updatedModel.h ∧
    ((trainStepLSTM (trainStepLSTM lstm enc 0 k 0 0 m7).updatedModel enc k k 0 0
        m8).updatedModel.h
      = (trainStepLSTM lstm enc 0 (2 * k) 0 0 m9).updatedModel.h ∧
     (trainStepLSTM (trainStepLSTM lstm enc 0 k 0 0 m7).updatedModel enc k k 0 0
        m8).updatedModel.c
      = (trainStepLSTM lstm enc 0 (2 * k) 0 0 m9).updatedModel.c) := by
  have hk1 : min (0 + k) (enc.length - 1) - 0 = k := by omega
  have hk2 : min (k + k) (enc.length - 1) - k = k := by omega
  have hk3 : min (0 + 2 * k) (enc.length - 1) - 0 = 2 * k := by omega
  have htoks : ∀ g : Nat → Nat,
      (List.range' 0 k).map g ++ (List.range' k k).map g = (List.range' 0 (2 * k)).map g := by
    intro g
    rw [← List.map_append]
    congr 1
    have hgl := range'_glue 0 k k
    simpa [two_mul] using hgl
  refine ⟨?_, ?_, ?_⟩
  · have hcols : rnn.Wxh.weights.cols = Hr := by
      simp only [RNNModel.wfB, Bool.and_eq_true] at hr
      exact wfB_cols _ _ _ (layer_wfB_w _ _ _ hr.1.1.1)
    have hhwf : rnn.h.wfB 1 Hr = true := by
      simp only [RNNModel.wfB, Bool.and_eq_true] at hr
      exact hr.2
    have e1 := trainStepRNN_frozen rnn Hr hr enc 0 k m1
    rw [hk1] at e1
    have hM1wf : ((trainStepRNN rnn enc 0 k 0 0 m1).updatedModel).wfB Hr = true := by
      rw [e1]
      exact RNN_set_h_wfB rnn Hr hr _
        (rnnForwardH_wfB rnn Hr hcols _ rnn.h hhwf)
    have e2 := trainStepRNN_frozen _ Hr hM1wf enc k k m2
    rw [hk2] at e2
    have e3 := trainStepRNN_frozen rnn Hr hr enc 0 (2 * k) m3
    rw [hk3] at e3
    rw [e2, e1, e3]
    show rnnForwardH rnn ((List.range' k k).map fun t => enc.getD t 0)
        (rnnForwardH rnn ((List.range' 0 k).map fun t => enc.getD t 0) rnn.h)
      = rnnForwardH rnn ((List.range' 0 (2 * k)).map fun t => enc.getD t 0) rnn.h
    unfold rnnForwardH
    rw [← List.foldl_append, htoks]
  · have hwr : gru.Why.weights.rows = Hg := by
      simp only [GRULanguageModel.wfB, Bool.and_eq_true] at hg
      exact wfB_rows _ _ _ (layer_wfB_w _ _ _ hg.1.2)
    have hhwf : gru.h.wfB 1 Hg = true := by
      simp only [GRULanguageModel.wfB, Bool.and_eq_true] at hg
      exact hg.2
    have e1 := trainStepGRU_frozen gru Hg hg enc 0 k m4
    rw [hk1] at e1
    have hM1wf : ((trainStepGRU gru enc 0 k 0 0 m4).updatedModel).wfB Hg = true := by
      rw [e1]
      exact GRU_set_h_wfB gru Hg hg _
        (gruForwardH_wfB gru Hg hwr _ gru.h hhwf)
    have e2 := trainStepGRU_frozen _ Hg hM1wf enc k k m5
    rw [hk2] at e2
    have e3 := trainStepGRU_frozen gru Hg hg enc 0 (2 * k) m6
    rw [hk3] at e3
    rw [e2, e1, e3]
    show gruForwardH gru ((List.range' k k).map fun t => enc.getD t 0)
        (gruForwardH gru ((List.range' 0 k).map fun t => enc.getD t 0) gru.h)
      = gruForwardH gru ((List.range' 0 (2 * k)).map fun t => enc.getD t 0) gru.h
    unfold gruForwardH
    rw [← List.foldl_append, htoks]
  · have hwo : lstm.Wo.weights.cols = Hl := by
      simp only [LSTMLanguageModel.wfB, Bool.and_eq_true] at hl
      exact wfB_cols _ _ _ (layer_wfB_w _ _ _ hl.1.1.1.1.1.1.2)
    have hwfc : lstm.Wf.weights.cols = Hl := by
      simp only [LSTMLanguageModel.wfB, Bool.and_eq_true] at hl
      exact wfB_cols _ _ _ (layer_wfB_w _ _ _ hl.1.1.1.1.1.1.1.1.1.1)
    have hhwf : lstm.h.wfB 1 Hl = true := by
      simp only [LSTMLanguageModel.wfB, Bool.and_eq_true] at hl
      exact hl.1.2
    have hcwf : lstm.c.wfB 1 Hl = true := by
      simp only [LSTMLanguageModel.wfB, Bool.and_eq_true] at hl
      exact hl.2
    have e1 := trainStepLSTM_frozen lstm Hl hl enc 0 k m7
    rw [hk1] at e1
    have hM1wf : ((trainStepLSTM lstm enc 0 k 0 0 m7).updatedModel).wfB Hl = true := by
      rw [e1]
      exact LSTM_set_hc_wfB lstm Hl hl _ _
        (lstmForwardHC_wfB lstm Hl hwo hwfc _ (lstm.h, lstm.c) hhwf hcwf).1
        (lstmForwardHC_wfB lstm Hl hwo hwfc _ (lstm.h, lstm.c) hhwf hcwf).2
    have e2 := trainStepLSTM_frozen _ Hl hM1wf enc k k m8
    rw [hk2] at e2
    have e3 := trainStepLSTM_frozen lstm Hl hl enc 0 (2 * k) m9
    rw [hk3] at e3
    rw [e2, e1, e3]
    constructor
    · show (lstmForwardHC lstm ((List.range' k k).map fun t => enc.getD t 0)
          (lstmForwardHC lstm ((List.range' 0 k).map fun t => enc.getD t 0)
            (lstm.h, lstm.c))).1
        = (lstmForwardHC lstm ((List.range' 0 (2 * k)).map fun t => enc.getD t 0)
            (lstm.h, lstm.c)).1
      unfold lstmForwardHC
      rw [← List.foldl_append, htoks]
    · show (lstmForwardHC lstm ((List.range' k k).map fun t => enc.getD t 0)
          (lstmForwardHC lstm ((List.range' 0 k).map fun t => enc.getD t 0)
            (lstm.h, lstm.c))).2
        = (lstmForwardHC lstm ((List.range' 0 (2 * k)).map fun t => enc.getD t 0)
            (lstm.h, lstm.c)).2
      unfold lstmForwardHC
      rw [← List.foldl_append, htoks]

/-- C4 (witness): concrete zero-weight models on the corpus `[0, 1, 0]` with
`k = 1`. -/
theorem claim_C4_witness :
    (trainStepRNN (trainStepRNN exRNN [0, 1, 0] 0 1 0 0 fun _ => default).updatedModel
        [0, 1, 0] 1 1 0 0 fun _ => default).updatedModel.h
      = (trainStepRNN exRNN [0, 1, 0] 0 2 0 0 fun _ => default).updatedModel.h ∧
    (trainStepLSTM (trainStepLSTM exLSTM [0, 1, 0] 0 1 0 0 fun _ => default).updatedModel
        [0, 1, 0] 1 1 0 0 fun _ => default).updatedModel.c
      = (trainStepLSTM exLSTM [0, 1, 0] 0 2 0 0 fun _ => default).updatedModel.c := by
  have h := claim_C4 exRNN exGRU exLSTM 2 2 2 [0, 1, 0] 1 (by decide) (by decide)
    (by decide) (by norm_num) (fun _ => default) (fun _ => default) (fun _ => default)
    (fun _ => default) (fun _ => default) (fun _ => default) (fun _ => default)
    (fun _ => default) (fun _ => default)
  exact ⟨h.1, h.2.2.2⟩

/-! ## Prediction-list length lemmas (claim C8) -/

lemma trainStepFFNN_preds_len (model : FFNNModel) (enc : List Nat) (step w : Nat)
    (lr : ℝ) :
    (trainStepFFNN model enc step w lr).predictionResults.length
      = min w (enc.length - 1 - step) := by
  have hp := ffnn_preds_proj model enc
    (List.range' step (min (step + w) (enc.length - 1) - step))
    ⟨⟨createMatrix model.vocab.length model.hiddenLayer.weights.cols 0,
      createMatrix 1 model.hiddenLayer.weights.cols 0⟩,
     ⟨createMatrix model.hiddenLayer.weights.cols model.vocab.length 0,
      createMatrix 1 model.vocab.length 0⟩, 0, []⟩
  have hlen := congrArg List.length hp
  simp only [List.length_map, List.length_append, List.length_nil, List.length_range',
    Nat.zero_add] at hlen
  simp only [trainStepFFNN]
  split
  · next hzero =>
    simp only [List.length_nil]
    omega
  · show ((List.range' step (min (step + w) (enc.length - 1) - step)).foldl
        (ffnnLoopStep model enc) _).preds.length = _
    rw [hlen]
    omega

lemma trainStepRNN_preds_len (model : RNNModel) (enc : List Nat) (step w : Nat)
    (lr dr : ℝ) (masks : Nat → Matrix) :
    (trainStepRNN model enc step w lr dr masks).predictionResults.length
      = min w (enc.length - 1 - step) := by
  have hp := rnnFwd_preds_proj model enc dr masks
    (List.range' step (min (step + w) (enc.length - 1) - step)) ⟨[], [model.h], 0, []⟩
  have hlen := congrArg List.length hp
  simp only [List.length_map, List.length_append, List.length_nil, List.length_range',
    Nat.zero_add] at hlen
  show ((List.range' step (min (step + w) (enc.length - 1) - step)).foldl
      (rnnFwdStep model enc dr masks) ⟨[], [model.h], 0, []⟩).preds.length = _
  rw [hlen]
  omega

lemma trainStepGRU_preds_len (model : GRULanguageModel) (enc : List Nat) (step w : Nat)
    (lr dr : ℝ) (masks : Nat → Matrix) :
    (trainStepGRU model enc step w lr dr masks).predictionResults.length
      = min w (enc.length - 1 - step) := by
  have hp := gruFwd_preds_proj model enc dr masks
    (List.range' step (min (step + w) (enc.length - 1) - step)) ⟨[], [model.h], 0, []⟩
  have hlen := congrArg List.length hp
  simp only [List.length_map, List.length_append, List.length_nil, List.length_range',
    Nat.zero_add] at hlen
  show ((List.range' step (min (step + w) (enc.length - 1) - step)).foldl
      (gruFwdStep model enc dr masks) ⟨[], [model.h], 0, []⟩).preds.length = _
  rw [hlen]
  omega

lemma trainStepLSTM_preds_len (model : LSTMLanguageModel) (enc : List Nat) (step w : Nat)
    (lr dr : ℝ) (masks : Nat → Matrix) :
    (trainStepLSTM model enc step w lr dr masks).predictionResults.length
      = min w (enc.length - 1 - step) := by
  have hp := lstmFwd_preds_proj model enc dr masks
    (List.range' step (min (step + w) (enc.length - 1) - step))
    ⟨[], [model.h], [model.c], 0, []⟩
  have hlen := congrArg List.length hp
  simp only [List.length_map, List.length_append, List.length_nil, List.length_range',
    Nat.zero_add] at hlen
  show ((List.range' step (min (step + w) (enc.length - 1) - step)).foldl
      (lstmFwdStep model enc dr masks) ⟨[], [model.h], [model.c], 0, []⟩).preds.length = _
  rw [hlen]
  omega

/-- C8.  Every architecture's training step returns exactly
`min(windowSize, corpus.length - 1 - cursor)` prediction entries; and in the
RNN scenario on vocabulary `['a','b','c']`, corpus `[0,1,2,0,1,2]`, window 3
at cursor 0, the entries cover the pairs (a→b), (b→c), (c→a) in order, and
the returned model's `h` is the reference recurrence applied to the three
window tokens (the third forward step's hidden state). -/
theorem claim_C8 :
    (∀ (m : FFNNModel) (enc : List Nat) (step w : Nat) (lr : ℝ),
      (trainStepFFNN m enc step w lr).predictionResults.length
        = min w (enc.length - 1 - step)) ∧
    (∀ (m : RNNModel) (enc : List Nat) (step w : Nat) (lr dr : ℝ) (masks : Nat → Matrix),
      (trainStepRNN m enc step w lr dr masks).predictionResults.length
        = min w (enc.length - 1 - step)) ∧
    (∀ (m : GRULanguageModel) (enc : List Nat) (step w : Nat) (lr dr : ℝ)
        (masks : Nat → Matrix),
      (trainStepGRU m enc step w lr dr masks).predictionResults.length
        = min w (enc.length - 1 - step)) ∧
    (∀ (m : LSTMLanguageModel) (enc : List Nat) (step w : Nat) (lr dr : ℝ)
        (masks : Nat → Matrix),
      (trainStepLSTM m enc step w lr dr masks).predictionResults.length
        = min w (enc.length - 1 - step)) ∧
    (∀ (m : RNNModel) (lr : ℝ) (masks : Nat → Matrix), m.vocab = ["a", "b", "c"] →
      (trainStepRNN m [0, 1, 2, 0, 1, 2] 0 3 lr 0 masks).predictionResults.map
          (fun p => (p.inputToken, p.targetToken))
        = [("a", "b"), ("b", "c"), ("c", "a")] ∧
      (trainStepRNN m [0, 1, 2, 0, 1, 2] 0 3 lr 0 masks).updatedModel.h
        = rnnStepH m (rnnStepH m (rnnStepH m m.h 0) 1) 2) := by
  refine ⟨trainStepFFNN_preds_len, trainStepRNN_preds_len, trainStepGRU_preds_len,
    trainStepLSTM_preds_len, ?_⟩
  intro m lr masks hvocab
  constructor
  · have hp := rnnFwd_preds_proj m [0, 1, 2, 0, 1, 2] 0 masks
      (List.range' 0 (min (0 + 3) ([0, 1, 2, 0, 1, 2].length - 1) - 0)) ⟨[], [m.h], 0, []⟩
    show ((List.range' 0 (min (0 + 3) ([0, 1, 2, 0, 1, 2].length - 1) - 0)).foldl
        (rnnFwdStep m [0, 1, 2, 0, 1, 2] 0 masks) ⟨[], [m.h], 0, []⟩).preds.map
        (fun p => (p.inputToken, p.targetToken)) = _
    rw [hp, hvocab]
    simp [List.range']
  · have hlast := rnnFwd_last m [0, 1, 2, 0, 1, 2] masks
      (List.range' 0 (min (0 + 3) ([0, 1, 2, 0, 1, 2].length - 1) - 0)) ⟨[], [m.h], 0, []⟩
    show ((List.range' 0 (min (0 + 3) ([0, 1, 2, 0, 1, 2].length - 1) - 0)).foldl
        (rnnFwdStep m [0, 1, 2, 0, 1, 2] 0 masks) ⟨[], [m.h], 0, []⟩).hiddenStates.getLastD
        m.h = _
    rw [hlast]
    rfl

/-- C8 (witness): the scenario at the concrete zero-weight RNN. -/
theorem claim_C8_witness :
    (trainStepRNN exRNN [0, 1, 2, 0, 1, 2] 0 3 (1/2) 0 fun _ => default).predictionResults.map
        (fun p => (p.inputToken, p.targetToken))
      = [("a", "b"), ("b", "c"), ("c", "a")] ∧
    (trainStepRNN exRNN [0, 1, 2, 0, 1, 2] 0 3 (1/2) 0 fun _ => default).updatedModel.h
      = rnnStepH exRNN (rnnStepH exRNN (rnnStepH exRNN exRNN.h 0) 1) 2 :=
  claim_C8.2.2.2.2 exRNN (1/2) (fun _ => default) rfl

/-! ## GRU backward-step entry analysis (claim C2) -/

@[simp] lemma gruBack_dy_rows (e : GRUCache) (t : Nat) :
    (gruBack_dy e t).rows = e.prob.rows := rfl

@[simp] lemma gruBack_dy_cols (e : GRUCache) (t : Nat) :
    (gruBack_dy e t).cols = e.prob.cols := rfl

@[simp] lemma gruBack_dh0_rows (model : GRULanguageModel) (e : GRUCache) (t : Nat)
    (st : GRUBack) : (gruBack_dh0 model e t st).rows = e.prob.rows := by
  simp [gruBack_dh0]

@[simp] lemma gruBack_dh0_cols (model : GRULanguageModel) (e : GRUCache) (t : Nat)
    (st : GRUBack) : (gruBack_dh0 model e t st).cols = model.Why.weights.rows := by
  simp [gruBack_dh0]

@[simp] lemma gruBack_dh_rows (model : GRULanguageModel) (e : GRUCache) (t : Nat)
    (st : GRUBack) : (gruBack_dh model e t st).rows = e.prob.rows := by
  unfold gruBack_dh
  cases e.mask <;> simp

@[simp] lemma gruBack_dh_cols (model : GRULanguageModel) (e : GRUCache) (t : Nat)
    (st : GRUBack) : (gruBack_dh model e t st).cols = model.Why.weights.rows := by
  unfold gruBack_dh
  cases e.mask <;> simp

@[simp] lemma gruBack_dh_hat_raw_rows (model : GRULanguageModel) (e : GRUCache) (t : Nat)
    (st : GRUBack) : (gruBack_dh_hat_raw model e t st).rows = e.prob.rows := by
  simp [gruBack_dh_hat_raw]

@[simp] lemma gruBack_dh_hat_raw_cols (model : GRULanguageModel) (e : GRUCache) (t : Nat)
    (st : GRUBack) : (gruBack_dh_hat_raw model e t st).cols = model.Why.weights.rows := by
  simp [gruBack_dh_hat_raw]

@[simp] lemma gruBack_dz_raw_rows (model : GRULanguageModel) (e : GRUCache) (t : Nat)
    (st : GRUBack) : (gruBack_dz_raw model e t st).rows = e.prob.rows := by
  simp [gruBack_dz_raw]

@[simp] lemma gruBack_dz_raw_cols (model : GRULanguageModel) (e : GRUCache) (t : Nat)
    (st : GRUBack) : (gruBack_dz_raw model e t st).cols = model.Why.weights.rows := by
  simp [gruBack_dz_raw]

@[simp] lemma gruBack_dr_raw_rows (model : GRULanguageModel) (e : GRUCache) (t : Nat)
    (st : GRUBack) : (gruBack_dr_raw model e t st).rows = e.prob.rows := by
  simp [gruBack_dr_raw]

@[simp] lemma gruBack_dr_raw_cols (model : GRULanguageModel) (e : GRUCache) (t : Nat)
    (st : GRUBack) : (gruBack_dr_raw model e t st).cols = model.Uh.weights.rows := by
  simp [gruBack_dr_raw]

/-- C2.  One GRU backward step passes to the earlier time step the gradient
`dh ⊙ (1 - z) + ((dĥ_raw · Uhᵀ) ⊙ r) + dz_raw · Uzᵀ + dr_raw · Urᵀ`, stated
element-wise with explicit index sums: exactly the four contributions the
claim describes (direct interpolation path, reset-modulated candidate path,
update-gate path, reset-gate path).  The scalar pipelines `dy, dh0, dhv,
dhat, dzr, drr` are introduced by defining equations that restate the
claim's formulas. -/
theorem claim_C2 (model : GRULanguageModel) (V H targetIndex : Nat) (hs_t1 : Matrix)
    (e : GRUCache) (st : GRUBack)
    (hWhy : model.Why.weights.wfB H V = true)
    (hUz : model.Uz.weights.wfB H H = true)
    (hUr : model.Ur.weights.wfB H H = true)
    (hUh : model.Uh.weights.wfB H H = true)
    (hprob : e.prob.wfB 1 V = true)
    (hz : e.z_t.wfB 1 H = true) (hrt : e.r_t.wfB 1 H = true)
    (hhat : e.h_hat_t.wfB 1 H = true) (hprev : e.h_prev.wfB 1 H = true)
    (hst : st.dh_next_grad.wfB 1 H = true)
    (dy dh0 dhv dhat dzr drr : Nat → ℝ)
    (hdy : ∀ k, dy k = e.prob.get 0 k - (if k = targetIndex then 1 else 0))
    (hdh0 : ∀ j, dh0 j = (∑ k ∈ Finset.range V, dy k * model.Why.weights.get j k)
      + st.dh_next_grad.get 0 j)
    (hdhv : ∀ j, dhv j = (match e.mask with
      | some mm => dh0 j * mm.get 0 j
      | none => dh0 j))
    (hdhat : ∀ k, dhat k = (dhv k * e.z_t.get 0 k) * dtanh (e.h_hat_t.get 0 k))
    (hdzr : ∀ k, dzr k = (dhv k * (e.h_hat_t.get 0 k - e.h_prev.get 0 k))
      * dsigmoid (e.z_t.get 0 k))
    (hdrr : ∀ k, drr k = ((∑ l ∈ Finset.range H, dhat l * model.Uh.weights.get k l)
      * e.h_prev.get 0 k) * dsigmoid (e.r_t.get 0 k)) :
    ∀ j, j < H → (gruBackStep model targetIndex hs_t1 e st).dh_next_grad.get 0 j =
      dhv j * (1 - e.z_t.get 0 j)
      + (∑ k ∈ Finset.range H, dhat k * model.Uh.weights.get j k) * e.r_t.get 0 j
      + (∑ k ∈ Finset.range H, dzr k * model.Uz.weights.get j k)
      + (∑ k ∈ Finset.range H, drr k * model.Ur.weights.get j k) := by
  have hWhyr := wfB_rows _ _ _ hWhy
  have hWhyc := wfB_cols _ _ _ hWhy
  have hUzr := wfB_rows _ _ _ hUz
  have hUzc := wfB_cols _ _ _ hUz
  have hUrr := wfB_rows _ _ _ hUr
  have hUrc := wfB_cols _ _ _ hUr
  have hUhr := wfB_rows _ _ _ hUh
  have hUhc := wfB_cols _ _ _ hUh
  have hpr := wfB_rows _ _ _ hprob
  have hpc := wfB_cols _ _ _ hprob
  have hzr := wfB_rows _ _ _ hz
  have hzc := wfB_cols _ _ _ hz
  have hrr := wfB_rows _ _ _ hrt
  have hrc := wfB_cols _ _ _ hrt
  have hhr := wfB_rows _ _ _ hhat
  have hhc := wfB_cols _ _ _ hhat
  have hvr := wfB_rows _ _ _ hprev
  have hvc := wfB_cols _ _ _ hprev
  have hsr := wfB_rows _ _ _ hst
  have hsc := wfB_cols _ _ _ hst
  have Hdy : ∀ k, k < V → (gruBack_dy e targetIndex).get 0 k = dy k := by
    intro k hk
    rw [hdy k]
    unfold gruBack_dy
    rw [get_decAt e.prob 0 targetIndex 0 k (by simp [hpr]) (by rw [hpc]; exact hk)]
    by_cases hkt : k = targetIndex
    · simp [hkt]
    · simp [hkt]
  have Hdh0 : ∀ j, j < H → (gruBack_dh0 model e targetIndex st).get 0 j = dh0 j := by
    intro j hj
    rw [hdh0 j]
    unfold gruBack_dh0
    rw [get_add_same _ _ 0 j (by simp [hpr, hsr]) (by simp [hWhyr, hsc])
      (by simp [hpr]) (by simpa [hWhyr] using hj)]
    congr 1
    rw [get_dot _ _ 0 j (by simp [hpr]) (by simpa [hWhyr] using hj),
      show (gruBack_dy e targetIndex).cols = V from hpc]
    refine Finset.sum_congr rfl ?_
    intro k hk
    rw [Hdy k (Finset.mem_range.mp hk),
      get_transpose model.Why.weights k j (by rw [hWhyc]; exact Finset.mem_range.mp hk)
        (by rw [hWhyr]; exact hj)]
  have Hdh : ∀ j, j < H → (gruBack_dh model e targetIndex st).get 0 j = dhv j := by
    intro j hj
    rw [hdhv j]
    unfold gruBack_dh
    cases hm : e.mask with
    | none => exact Hdh0 j hj
    | some mm =>
      rw [get_multiply _ _ 0 j (by simp [hpr]) (by simpa [hWhyr] using hj), Hdh0 j hj]
  have Hdhat : ∀ k, k < H → (gruBack_dh_hat_raw model e targetIndex st).get 0 k = dhat k := by
    intro k hk
    rw [hdhat k]
    unfold gruBack_dh_hat_raw
    rw [get_multiply _ _ 0 k (by simp [hpr]) (by simpa [hWhyr] using hk),
      get_multiply _ _ 0 k (by simp [hpr]) (by simpa [hWhyr] using hk),
      get_map _ _ 0 k (by simp [hhr]) (by rw [hhc]; exact hk),
      Hdh k hk]
  have Hdzr : ∀ k, k < H → (gruBack_dz_raw model e targetIndex st).get 0 k = dzr k := by
    intro k hk
    rw [hdzr k]
    unfold gruBack_dz_raw
    rw [get_multiply _ _ 0 k (by simp [hpr]) (by simpa [hWhyr] using hk),
      get_multiply _ _ 0 k (by simp [hpr]) (by simpa [hWhyr] using hk),
      get_subtract _ _ 0 k (by simp [hhr]) (by rw [hhc]; exact hk),
      get_map _ _ 0 k (by simp [hzr]) (by rw [hzc]; exact hk),
      Hdh k hk]
  have Hdrr : ∀ k, k < H → (gruBack_dr_raw model e targetIndex st).get 0 k = drr k := by
    intro k hk
    rw [hdrr k]
    unfold gruBack_dr_raw
    rw [get_multiply _ _ 0 k (by simp [hpr]) (by simpa [hUhr] using hk),
      get_multiply _ _ 0 k (by simp [hpr]) (by simpa [hUhr] using hk),
      get_dot _ _ 0 k (by simp [hpr]) (by simpa [hUhr] using hk),
      get_map _ _ 0 k (by simp [hrr]) (by rw [hrc]; exact hk),
      show (gruBack_dh_hat_raw model e targetIndex st).cols = H from by simp [hWhyr]]
    have hsum : (∑ l ∈ Finset.range H,
        (gruBack_dh_hat_raw model e targetIndex st).get 0 l
          * (transpose model.Uh.weights).get l k)
        = ∑ l ∈ Finset.range H, dhat l * model.Uh.weights.get k l := by
      refine Finset.sum_congr rfl ?_
      intro l hl
      rw [Hdhat l (Finset.mem_range.mp hl),
        get_transpose model.Uh.weights l k (by rw [hUhc]; exact Finset.mem_range.mp hl)
          (by rw [hUhr]; exact hk)]
    rw [hsum]
  intro j hj
  show (add (add (add
      (multiply (gruBack_dh model e targetIndex st)
        (subtract (ones 1 model.Why.weights.rows) e.z_t))
      (multiply (dot (gruBack_dh_hat_raw model e targetIndex st)
        (transpose model.Uh.weights)) e.r_t))
      (dot (gruBack_dz_raw model e targetIndex st) (transpose model.Uz.weights)))
      (dot (gruBack_dr_raw model e targetIndex st) (transpose model.Ur.weights))).get 0 j
    = _
  rw [get_add_same _ _ 0 j (by simp [hpr]) (by simp [hWhyr, hUrr])
      (by simp [hpr]) (by simpa [hWhyr] using hj),
    get_add_same _ _ 0 j (by simp [hpr]) (by simp [hWhyr, hUzr])
      (by simp [hpr]) (by simpa [hWhyr] using hj),
    get_add_same _ _ 0 j (by simp [hpr]) (by simp [hWhyr, hUhr])
      (by simp [hpr]) (by simpa [hWhyr] using hj)]
  have hA : (multiply (gruBack_dh model e targetIndex st)
      (subtract (ones 1 model.Why.weights.rows) e.z_t)).get 0 j
      = dhv j * (1 - e.z_t.get 0 j) := by
    rw [get_multiply _ _ 0 j (by simp [hpr]) (by simpa [hWhyr] using hj),
      get_subtract _ _ 0 j (by simp) (by rw [ones_cols, hWhyr]; exact hj),
      get_ones 1 model.Why.weights.rows 0 j (by norm_num) (by rw [hWhyr]; exact hj),
      Hdh j hj]
  have hB : (multiply (dot (gruBack_dh_hat_raw model e targetIndex st)
      (transpose model.Uh.weights)) e.r_t).get 0 j
      = (∑ k ∈ Finset.range H, dhat k * model.Uh.weights.get j k) * e.r_t.get 0 j := by
    rw [get_multiply _ _ 0 j (by simp [hpr]) (by simpa [hUhr] using hj),
      get_dot _ _ 0 j (by simp [hpr]) (by simpa [hUhr] using hj),
      show (gruBack_dh_hat_raw model e targetIndex st).cols = H from by simp [hWhyr]]
    have hsum : (∑ k ∈ Finset.range H,
        (gruBack_dh_hat_raw model e targetIndex st).get 0 k
          * (transpose model.Uh.weights).get k j)
        = ∑ k ∈ Finset.range H, dhat k * model.Uh.weights.get j k := by
      refine Finset.sum_congr rfl ?_
      intro k hk
      rw [Hdhat k (Finset.mem_range.mp hk),
        get_transpose model.Uh.weights k j (by rw [hUhc]; exact Finset.mem_range.mp hk)
          (by rw [hUhr]; exact hj)]
    rw [hsum]
  have hC : (dot (gruBack_dz_raw model e targetIndex st) (transpose model.Uz.weights)).get 0 j
      = ∑ k ∈ Finset.range H, dzr k * model.Uz.weights.get j k := by
    rw [get_dot _ _ 0 j (by simp [hpr]) (by simpa [hUzr] using hj),
      show (gruBack_dz_raw model e targetIndex st).cols = H from by simp [hWhyr]]
    refine Finset.sum_congr rfl ?_
    intro k hk
    rw [Hdzr k (Finset.mem_range.mp hk),
      get_transpose model.Uz.weights k j (by rw [hUzc]; exact Finset.mem_range.mp hk)
        (by rw [hUzr]; exact hj)]
  have hD : (dot (gruBack_dr_raw model e targetIndex st) (transpose model.Ur.weights)).get 0 j
      = ∑ k ∈ Finset.range H, drr k * model.Ur.weights.get j k := by
    rw [get_dot _ _ 0 j (by simp [hpr]) (by simpa [hUrr] using hj),
      show (gruBack_dr_raw model e targetIndex st).cols = H from by simp [hUhr]]
    refine Finset.sum_congr rfl ?_
    intro k hk
    rw [Hdrr k (Finset.mem_range.mp hk),
      get_transpose model.Ur.weights k j (by rw [hUrc]; exact Finset.mem_range.mp hk)
        (by rw [hUrr]; exact hj)]
  rw [hA, hB, hC, hD]

/-- C2 (witness): the characterisation applied to the concrete zero GRU
backward input at entry `j = 0`. -/
theorem claim_C2_witness :
    (gruBackStep exGRU 0 (createMatrix 1 2 0) exGRUCache exGRUBack).dh_next_grad.get 0 0 =
      exC2dhv 0 * (1 - exGRUCache.z_t.get 0 0)
      + (∑ k ∈ Finset.range 2, exC2dhat k * exGRU.Uh.weights.get 0 k)
        * exGRUCache.r_t.get 0 0
      + (∑ k ∈ Finset.range 2, exC2dzr k * exGRU.Uz.weights.get 0 k)
      + (∑ k ∈ Finset.range 2, exC2drr k * exGRU.Ur.weights.get 0 k) :=
  claim_C2 exGRU 3 2 0 (createMatrix 1 2 0) exGRUCache exGRUBack
    (by decide) (by decide) (by decide) (by decide) (by decide) (by decide) (by decide)
    (by decide) (by decide) (by decide)
    exC2dy exC2dh0 exC2dhv exC2dhat exC2dzr exC2drr
    (fun ka => rfl) (fun jb => rfl) (fun jc => rfl) (fun kd => rfl) (fun ke => rfl)
    (fun kf => rfl)
    0 (by norm_num)

/-! ## FFNN gradient accumulation and parameter update (claim C3) -/

@[simp] lemma ffnnHiddenAct_rows (model : FFNNModel) (i : Nat) :
    (ffnnHiddenAct model i).rows = 1 := by
  simp [ffnnHiddenAct]

@[simp] lemma ffnnHiddenAct_cols (model : FFNNModel) (i : Nat) :
    (ffnnHiddenAct model i).cols = model.hiddenLayer.weights.cols := by
  simp [ffnnHiddenAct]

@[simp] lemma ffnnProbs_rows (model : FFNNModel) (i : Nat) :
    (ffnnProbs model i).rows = 1 := by
  simp [ffnnProbs]

@[simp] lemma ffnnProbs_cols (model : FFNNModel) (i : Nat) :
    (ffnnProbs model i).cols = model.outputLayer.weights.cols := by
  simp [ffnnProbs]

@[simp] lemma ffnnDOutput_rows (model : FFNNModel) (i t : Nat) :
    (ffnnDOutput model i t).rows = 1 := by
  simp [ffnnDOutput]

@[simp] lemma ffnnDOutput_cols (model : FFNNModel) (i t : Nat) :
    (ffnnDOutput model i t).cols = model.outputLayer.weights.cols := by
  simp [ffnnDOutput]

@[simp] lemma ffnnDHiddenRaw_rows (model : FFNNModel) (i t : Nat) :
    (ffnnDHiddenRaw model i t).rows = 1 := by
  simp [ffnnDHiddenRaw]

@[simp] lemma ffnnDHiddenRaw_cols (model : FFNNModel) (i t : Nat) :
    (ffnnDHiddenRaw model i t).cols = model.outputLayer.weights.rows := by
  simp [ffnnDHiddenRaw]

@[simp] lemma ffnnGradHW_rows (model : FFNNModel) (i t : Nat) :
    (ffnnGradHW model i t).rows = model.vocab.length := by
  simp [ffnnGradHW]

@[simp] lemma ffnnGradHW_cols (model : FFNNModel) (i t : Nat) :
    (ffnnGradHW model i t).cols = model.outputLayer.weights.rows := by
  simp [ffnnGradHW]

@[simp] lemma ffnnGradHB_rows (model : FFNNModel) (i t : Nat) :
    (ffnnGradHB model i t).rows = 1 := by
  simp [ffnnGradHB]

@[simp] lemma ffnnGradHB_cols (model : FFNNModel) (i t : Nat) :
    (ffnnGradHB model i t).cols = model.outputLayer.weights.rows := by
  simp [ffnnGradHB]

@[simp] lemma ffnnGradOW_rows (model : FFNNModel) (i t : Nat) :
    (ffnnGradOW model i t).rows = model.hiddenLayer.weights.cols := by
  simp [ffnnGradOW]

@[simp] lemma ffnnGradOW_cols (model : FFNNModel) (i t : Nat) :
    (ffnnGradOW model i t).cols = model.outputLayer.weights.cols := by
  simp [ffnnGradOW]

@[simp] lemma ffnnGradOB_rows (model : FFNNModel) (i t : Nat) :
    (ffnnGradOB model i t).rows = 1 := by
  simp [ffnnGradOB]

@[simp] lemma ffnnGradOB_cols (model : FFNNModel) (i t : Nat) :
    (ffnnGradOB model i t).cols = model.outputLayer.weights.cols := by
  simp [ffnnGradOB]

@[simp] lemma foldl_addf_rows (g : Nat → Matrix) : ∀ (l : List Nat) (m0 : Matrix),
    (l.foldl (fun m i => add m (g i)) m0).rows = m0.rows := by
  intro l
  induction l with
  | nil => intro m0; rfl
  | cons a l ih =>
    intro m0
    rw [List.foldl_cons, ih]
    simp

@[simp] lemma foldl_addf_cols (g : Nat → Matrix) : ∀ (l : List Nat) (m0 : Matrix),
    (l.foldl (fun m i => add m (g i)) m0).cols = m0.cols := by
  intro l
  induction l with
  | nil => intro m0; rfl
  | cons a l ih =>
    intro m0
    rw [List.foldl_cons, ih]
    simp

lemma foldl_addf_get (g : Nat → Matrix) (R C i0 j0 : Nat) (hi : i0 < R) (hj : j0 < C) :
    ∀ (l : List Nat) (m0 : Matrix), m0.rows = R → m0.cols = C →
      (∀ i ∈ l, (g i).rows = R ∧ (g i).cols = C) →
      (l.foldl (fun m i => add m (g i)) m0).get i0 j0
        = m0.get i0 j0 + (l.map fun i => (g i).get i0 j0).sum := by
  intro l
  induction l with
  | nil => intro m0 _ _ _; simp
  | cons a l ih =>
    intro m0 hr hc hg
    have hga := hg a (List.mem_cons_self a l)
    rw [List.foldl_cons, List.map_cons, List.sum_cons,
      ih (add m0 (g a)) (by simp [hr]) (by simp [hc])
        (fun i hi2 => hg i (List.mem_cons_of_mem a hi2)),
      get_add_same m0 (g a) i0 j0 (by rw [hr, hga.1]) (by rw [hc, hga.2])
        (by rw [hr]; exact hi) (by rw [hc]; exact hj), add_assoc]

@[simp] lemma ffnn_fold_hw (model : FFNNModel) (enc : List Nat) :
    ∀ (ts : List Nat) (st : FFNNAcc),
    (ts.foldl (ffnnLoopStep model enc) st).hiddenGrad.weights
      = ts.foldl (fun m t => add m (ffnnGradHW model (enc.getD t 0) (enc.getD (t + 1) 0)))
          st.hiddenGrad.weights := by
  intro ts
  induction ts with
  | nil => intro st; rfl
  | cons t ts ih =>
    intro st
    rw [List.foldl_cons, List.foldl_cons]
    exact ih (ffnnLoopStep model enc st t)

@[simp] lemma ffnn_fold_hb (model : FFNNModel) (enc : List Nat) :
    ∀ (ts : List Nat) (st : FFNNAcc),
    (ts.foldl (ffnnLoopStep model enc) st).hiddenGrad.biases
      = ts.foldl (fun m t => add m (ffnnGradHB model (enc.getD t 0) (enc.getD (t + 1) 0)))
          st.hiddenGrad.biases := by
  intro ts
  induction ts with
  | nil => intro st; rfl
  | cons t ts ih =>
    intro st
    rw [List.foldl_cons, List.foldl_cons]
    exact ih (ffnnLoopStep model enc st t)

@[simp] lemma ffnn_fold_ow (model : FFNNModel) (enc : List Nat) :
    ∀ (ts : List Nat) (st : FFNNAcc),
    (ts.foldl (ffnnLoopStep model enc) st).outputGrad.weights
      = ts.foldl (fun m t => add m (ffnnGradOW model (enc.getD t 0) (enc.getD (t + 1) 0)))
          st.outputGrad.weights := by
  intro ts
  induction ts with
  | nil => intro st; rfl
  | cons t ts ih =>
    intro st
    rw [List.foldl_cons, List.foldl_cons]
    exact ih (ffnnLoopStep model enc st t)

@[simp] lemma ffnn_fold_ob (model : FFNNModel) (enc : List Nat) :
    ∀ (ts : List Nat) (st : FFNNAcc),
    (ts.foldl (ffnnLoopStep model enc) st).outputGrad.biases
      = ts.foldl (fun m t => add m (ffnnGradOB model (enc.getD t 0) (enc.getD (t + 1) 0)))
          st.outputGrad.biases := by
  intro ts
  induction ts with
  | nil => intro st; rfl
  | cons t ts ih =>
    intro st
    rw [List.foldl_cons, List.foldl_cons]
    exact ih (ffnnLoopStep model enc st t)

lemma trainStepFFNN_hiddenGrad (model : FFNNModel) (enc : List Nat) (step batchSize : Nat)
    (learningRate : ℝ) :
    (trainStepFFNN model enc step batchSize learningRate).hiddenGrad
      = ((List.range' step (min (step + batchSize) (enc.length - 1) - step)).foldl
          (ffnnLoopStep model enc) (ffnnAcc0 model)).hiddenGrad := by
  simp only [trainStepFFNN]
  split <;> rfl

lemma trainStepFFNN_outputGrad (model : FFNNModel) (enc : List Nat) (step batchSize : Nat)
    (learningRate : ℝ) :
    (trainStepFFNN model enc step batchSize learningRate).outputGrad
      = ((List.range' step (min (step + batchSize) (enc.length - 1) - step)).foldl
          (ffnnLoopStep model enc) (ffnnAcc0 model)).outputGrad := by
  simp only [trainStepFFNN]
  split <;> rfl

lemma trainStepFFNN_updHW (model : FFNNModel) (enc : List Nat) (step batchSize : Nat)
    (learningRate : ℝ)
    (h0 : min (step + batchSize) (enc.length - 1) - step ≠ 0) :
    (trainStepFFNN model enc step batchSize learningRate).updatedModel.hiddenLayer.weights
      = add model.hiddenLayer.weights
          (scale (clip ((List.range' step (min (step + batchSize) (enc.length - 1) - step)).foldl
              (ffnnLoopStep model enc) (ffnnAcc0 model)).hiddenGrad.weights)
            (-learningRate / ((min (step + batchSize) (enc.length - 1) - step : Nat) : ℝ))) := by
  simp only [trainStepFFNN]
  rw [if_neg h0]
  rfl

lemma trainStepFFNN_updHB (model : FFNNModel) (enc : List Nat) (step batchSize : Nat)
    (learningRate : ℝ)
    (h0 : min (step + batchSize) (enc.length - 1) - step ≠ 0) :
    (trainStepFFNN model enc step batchSize learningRate).updatedModel.hiddenLayer.biases
      = add model.hiddenLayer.biases
          (scale (clip ((List.range' step (min (step + batchSize) (enc.length - 1) - step)).foldl
              (ffnnLoopStep model enc) (ffnnAcc0 model)).hiddenGrad.biases)
            (-learningRate / ((min (step + batchSize) (enc.length - 1) - step : Nat) : ℝ))) := by
  simp only [trainStepFFNN]
  rw [if_neg h0]
  rfl

lemma trainStepFFNN_updOW (model : FFNNModel) (enc : List Nat) (step batchSize : Nat)
    (learningRate : ℝ)
    (h0 : min (step + batchSize) (enc.length - 1) - step ≠ 0) :
    (trainStepFFNN model enc step batchSize learningRate).updatedModel.outputLayer.weights
      = add model.outputLayer.weights
          (scale (clip ((List.range' step (min (step + batchSize) (enc.length - 1) - step)).foldl
              (ffnnLoopStep model enc) (ffnnAcc0 model)).outputGrad.weights)
            (-learningRate / ((min (step + batchSize) (enc.length - 1) - step : Nat) : ℝ))) := by
  simp only [trainStepFFNN]
  rw [if_neg h0]
  rfl

lemma trainStepFFNN_updOB (model : FFNNModel) (enc : List Nat) (step batchSize : Nat)
    (learningRate : ℝ)
    (h0 : min (step + batchSize) (enc.length - 1) - step ≠ 0) :
    (trainStepFFNN model enc step batchSize learningRate).updatedModel.outputLayer.biases
      = add model.outputLayer.biases
          (scale (clip ((List.range' step (min (step + batchSize) (enc.length - 1) - step)).foldl
              (ffnnLoopStep model enc) (ffnnAcc0 model)).outputGrad.biases)
            (-learningRate / ((min (step + batchSize) (enc.length - 1) - step : Nat) : ℝ))) := by
  simp only [trainStepFFNN]
  rw [if_neg h0]
  rfl

lemma ffnn_accum_hw (model : FFNNModel) (enc : List Nat) (step batchSize : Nat)
    (learningRate : ℝ) (V H n : Nat) (hV : model.vocab.length = V)
    (hHW : model.hiddenLayer.weights.wfB V H = true)
    (hHB : model.hiddenLayer.biases.wfB 1 H = true)
    (hOW : model.outputLayer.weights.wfB H V = true)
    (hOB : model.outputLayer.biases.wfB 1 V = true)
    (hn : min (step + batchSize) (enc.length - 1) - step = n) :
    ∀ i j, i < V → j < H →
      (trainStepFFNN model enc step batchSize learningRate).hiddenGrad.weights.get i j
        = ((List.range' step n).map fun t =>
            (ffnnGradHW model (enc.getD t 0) (enc.getD (t + 1) 0)).get i j).sum := by
  intro i j hi hj
  rw [trainStepFFNN_hiddenGrad, ffnn_fold_hw, hn,
    foldl_addf_get (fun t => ffnnGradHW model (enc.getD t 0) (enc.getD (t + 1) 0)) V H i j
      hi hj (List.range' step n) ((ffnnAcc0 model).hiddenGrad.weights)
      (by simp [ffnnAcc0, hV]) (by simp [ffnnAcc0, wfB_cols _ _ _ hHW])
      (fun t _ => ⟨by simp [hV], by simp [wfB_rows _ _ _ hOW]⟩),
    show (ffnnAcc0 model).hiddenGrad.weights
      = createMatrix model.vocab.length model.hiddenLayer.weights.cols 0 from rfl,
    get_createMatrix _ _ _ i j (by rw [hV]; exact hi)
      (by rw [wfB_cols _ _ _ hHW]; exact hj), zero_add]

lemma ffnn_accum_hb (model : FFNNModel) (enc : List Nat) (step batchSize : Nat)
    (learningRate : ℝ) (V H n : Nat) (hV : model.vocab.length = V)
    (hHW : model.hiddenLayer.weights.wfB V H = true)
    (hHB : model.hiddenLayer.biases.wfB 1 H = true)
    (hOW : model.outputLayer.weights.wfB H V = true)
    (hOB : model.outputLayer.biases.wfB 1 V = true)
    (hn : min (step + batchSize) (enc.length - 1) - step = n) :
    ∀ j, j < H →
      (trainStepFFNN model enc step batchSize learningRate).hiddenGrad.biases.get 0 j
        = ((List.range' step n).map fun t =>
            (ffnnGradHB model (enc.getD t 0) (enc.getD (t + 1) 0)).get 0 j).sum := by
  intro j hj
  rw [trainStepFFNN_hiddenGrad, ffnn_fold_hb, hn,
    foldl_addf_get (fun t => ffnnGradHB model (enc.getD t 0) (enc.getD (t + 1) 0)) 1 H 0 j
      (by norm_num) hj (List.range' step n) ((ffnnAcc0 model).hiddenGrad.biases)
      (by simp [ffnnAcc0]) (by simp [ffnnAcc0, wfB_cols _ _ _ hHW])
      (fun t _ => ⟨by simp, by simp [wfB_rows _ _ _ hOW]⟩),
    show (ffnnAcc0 model).hiddenGrad.biases
      = createMatrix 1 model.hiddenLayer.weights.cols 0 from rfl,
    get_createMatrix _ _ _ 0 j (by norm_num)
      (by rw [wfB_cols _ _ _ hHW]; exact hj), zero_add]

lemma ffnn_accum_ow (model : FFNNModel) (enc : List Nat) (step batchSize : Nat)
    (learningRate : ℝ) (V H n : Nat) (hV : model.vocab.length = V)
    (hHW : model.hiddenLayer.weights.wfB V H = true)
    (hHB : model.hiddenLayer.biases.wfB 1 H = true)
    (hOW : model.outputLayer.weights.wfB H V = true)
    (hOB : model.outputLayer.biases.wfB 1 V = true)
    (hn : min (step + batchSize) (enc.length - 1) - step = n) :
    ∀ i j, i < H → j < V →
      (trainStepFFNN model enc step batchSize learningRate).outputGrad.weights.get i j
        = ((List.range' step n).map fun t =>
            (ffnnGradOW model (enc.getD t 0) (enc.getD (t + 1) 0)).get i j).sum := by
  intro i j hi hj
  rw [trainStepFFNN_outputGrad, ffnn_fold_ow, hn,
    foldl_addf_get (fun t => ffnnGradOW model (enc.getD t 0) (enc.getD (t + 1) 0)) H V i j
      hi hj (List.range' step n) ((ffnnAcc0 model).outputGrad.weights)
      (by simp [ffnnAcc0, wfB_cols _ _ _ hHW]) (by simp [ffnnAcc0, hV])
      (fun t _ => ⟨by simp [wfB_cols _ _ _ hHW], by simp [wfB_cols _ _ _ hOW]⟩),
    show (ffnnAcc0 model).outputGrad.weights
      = createMatrix model.hiddenLayer.weights.cols model.vocab.length 0 from rfl,
    get_createMatrix _ _ _ i j (by rw [wfB_cols _ _ _ hHW]; exact hi)
      (by rw [hV]; exact hj), zero_add]

lemma ffnn_accum_ob (model : FFNNModel) (enc : List Nat) (step batchSize : Nat)
    (learningRate : ℝ) (V H n : Nat) (hV : model.vocab.length = V)
    (hHW : model.hiddenLayer.weights.wfB V H = true)
    (hHB : model.hiddenLayer.biases.wfB 1 H = true)
    (hOW : model.outputLayer.weights.wfB H V = true)
    (hOB : model.outputLayer.biases.wfB 1 V = true)
    (hn : min (step + batchSize) (enc.length - 1) - step = n) :
    ∀ j, j < V →
      (trainStepFFNN model enc step batchSize learningRate).outputGrad.biases.get 0 j
        = ((List.range' step n).map fun t =>
            (ffnnGradOB model (enc.getD t 0) (enc.getD (t + 1) 0)).get 0 j).sum := by
  intro j hj
  rw [trainStepFFNN_outputGrad, ffnn_fold_ob, hn,
    foldl_addf_get (fun t => ffnnGradOB model (enc.getD t 0) (enc.getD (t + 1) 0)) 1 V 0 j
      (by norm_num) hj (List.range' step n) ((ffnnAcc0 model).outputGrad.biases)
      (by simp [ffnnAcc0]) (by simp [ffnnAcc0, hV])
      (fun t _ => ⟨by simp, by simp [wfB_cols _ _ _ hOW]⟩),
    show (ffnnAcc0 model).outputGrad.biases = createMatrix 1 model.vocab.length 0 from rfl,
    get_createMatrix _ _ _ 0 j (by norm_num) (by rw [hV]; exact hj), zero_add]

lemma ffnn_update_hw (model : FFNNModel) (enc : List Nat) (step batchSize : Nat)
    (learningRate : ℝ) (V H n : Nat) (hV : model.vocab.length = V)
    (hHW : model.hiddenLayer.weights.wfB V H = true)
    (hHB : model.hiddenLayer.biases.wfB 1 H = true)
    (hOW : model.outputLayer.weights.wfB H V = true)
    (hOB : model.outputLayer.biases.wfB 1 V = true)
    (hn : min (step + batchSize) (enc.length - 1) - step = n) (hn0 : n ≠ 0) :
    ∀ i j, i < V → j < H →
      (trainStepFFNN model enc step batchSize learningRate).updatedModel.hiddenLayer.weights.get i j
        = model.hiddenLayer.weights.get i j
          + max (-5) (min 5
              ((trainStepFFNN model enc step batchSize learningRate).hiddenGrad.weights.get i j))
            * (-learningRate / (n : ℝ)) := by
  intro i j hi hj
  have hHWr := wfB_rows _ _ _ hHW
  have hHWc := wfB_cols _ _ _ hHW
  have h0 : min (step + batchSize) (enc.length - 1) - step ≠ 0 := by rw [hn]; exact hn0
  rw [trainStepFFNN_updHW model enc step batchSize learningRate h0, trainStepFFNN_hiddenGrad,
    get_add_same model.hiddenLayer.weights _ i j (by simp [ffnnAcc0, hHWr, hV])
      (by simp [ffnnAcc0, hHWc]) (by rw [hHWr]; exact hi) (by rw [hHWc]; exact hj),
    get_scale _ _ i j (by simp [ffnnAcc0, hV]; exact hi)
      (by simp [ffnnAcc0]; rw [hHWc]; exact hj),
    get_clip _ i j (by simp [ffnnAcc0, hV]; exact hi)
      (by simp [ffnnAcc0]; rw [hHWc]; exact hj), hn]

lemma ffnn_update_hb (model : FFNNModel) (enc : List Nat) (step batchSize : Nat)
    (learningRate : ℝ) (V H n : Nat) (hV : model.vocab.length = V)
    (hHW : model.hiddenLayer.weights.wfB V H = true)
    (hHB : model.hiddenLayer.biases.wfB 1 H = true)
    (hOW : model.outputLayer.weights.wfB H V = true)
    (hOB : model.outputLayer.biases.wfB 1 V = true)
    (hn : min (step + batchSize) (enc.length - 1) - step = n) (hn0 : n ≠ 0) :
    ∀ j, j < H →
      (trainStepFFNN model enc step batchSize learningRate).updatedModel.hiddenLayer.biases.get 0 j
        = model.hiddenLayer.biases.get 0 j
          + max (-5) (min 5
              ((trainStepFFNN model enc step batchSize learningRate).hiddenGrad.biases.get 0 j))
            * (-learningRate / (n : ℝ)) := by
  intro j hj
  have hHBr := wfB_rows _ _ _ hHB
  have hHBc := wfB_cols _ _ _ hHB
  have hHWc := wfB_cols _ _ _ hHW
  have h0 : min (step + batchSize) (enc.length - 1) - step ≠ 0 := by rw [hn]; exact hn0
  rw [trainStepFFNN_updHB model enc step batchSize learningRate h0, trainStepFFNN_hiddenGrad,
    get_add_same model.hiddenLayer.biases _ 0 j (by simp [ffnnAcc0, hHBr])
      (by simp [ffnnAcc0, hHBc, hHWc]) (by rw [hHBr]; norm_num) (by rw [hHBc]; exact hj),
    get_scale _ _ 0 j (by simp [ffnnAcc0]) (by simp [ffnnAcc0]; rw [hHWc]; exact hj),
    get_clip _ 0 j (by simp [ffnnAcc0]) (by simp [ffnnAcc0]; rw [hHWc]; exact hj), hn]

lemma ffnn_update_ow (model : FFNNModel) (enc : List Nat) (step batchSize : Nat)
    (learningRate : ℝ) (V H n : Nat) (hV : model.vocab.length = V)
    (hHW : model.hiddenLayer.weights.wfB V H = true)
    (hHB : model.hiddenLayer.biases.wfB 1 H = true)
    (hOW : model.outputLayer.weights.wfB H V = true)
    (hOB : model.outputLayer.biases.wfB 1 V = true)
    (hn : min (step + batchSize) (enc.length - 1) - step = n) (hn0 : n ≠ 0) :
    ∀ i j, i < H → j < V →
      (trainStepFFNN model enc step batchSize learningRate).updatedModel.outputLayer.weights.get i j
        = model.outputLayer.weights.get i j
          + max (-5) (min 5
              ((trainStepFFNN model enc step batchSize learningRate).outputGrad.weights.get i j))
            * (-learningRate / (n : ℝ)) := by
  intro i j hi hj
  have hOWr := wfB_rows _ _ _ hOW
  have hOWc := wfB_cols _ _ _ hOW
  have hHWc := wfB_cols _ _ _ hHW
  have h0 : min (step + batchSize) (enc.length - 1) - step ≠ 0 := by rw [hn]; exact hn0
  rw [trainStepFFNN_updOW model enc step batchSize learningRate h0, trainStepFFNN_outputGrad,
    get_add_same model.outputLayer.weights _ i j (by simp [ffnnAcc0, hOWr, hHWc])
      (by simp [ffnnAcc0, hOWc, hV]) (by rw [hOWr]; exact hi) (by rw [hOWc]; exact hj),
    get_scale _ _ i j (by simp [ffnnAcc0]; rw [hHWc]; exact hi)
      (by simp [ffnnAcc0, hV]; exact hj),
    get_clip _ i j (by simp [ffnnAcc0]; rw [hHWc]; exact hi)
      (by simp [ffnnAcc0, hV]; exact hj), hn]

lemma ffnn_update_ob (model : FFNNModel) (enc : List Nat) (step batchSize : Nat)
    (learningRate : ℝ) (V H n : Nat) (hV : model.vocab.length = V)
    (hHW : model.hiddenLayer.weights.wfB V H = true)
    (hHB : model.hiddenLayer.biases.wfB 1 H = true)
    (hOW : model.outputLayer.weights.wfB H V = true)
    (hOB : model.outputLayer.biases.wfB 1 V = true)
    (hn : min (step + batchSize) (enc.length - 1) - step = n) (hn0 : n ≠ 0) :
    ∀ j, j < V →
      (trainStepFFNN model enc step batchSize learningRate).updatedModel.outputLayer.biases.get 0 j
        = model.outputLayer.biases.get 0 j
          + max (-5) (min 5
              ((trainStepFFNN model enc step batchSize learningRate).outputGrad.biases.get 0 j))
            * (-learningRate / (n : ℝ)) := by
  intro j hj
  have hOBr := wfB_rows _ _ _ hOB
  have hOBc := wfB_cols _ _ _ hOB
  have h0 : min (step + batchSize) (enc.length - 1) - step ≠ 0 := by rw [hn]; exact hn0
  rw [trainStepFFNN_updOB model enc step batchSize learningRate h0, trainStepFFNN_outputGrad,
    get_add_same model.outputLayer.biases _ 0 j (by simp [ffnnAcc0, hOBr])
      (by simp [ffnnAcc0, hOBc, hV]) (by rw [hOBr]; norm_num) (by rw [hOBc]; exact hj),
    get_scale _ _ 0 j (by simp [ffnnAcc0]) (by simp [ffnnAcc0, hV]; exact hj),
    get_clip _ 0 j (by simp [ffnnAcc0]) (by simp [ffnnAcc0, hV]; exact hj), hn]

lemma exC3_hact : (ffnnHiddenAct exFFNN 0).get 0 0 = 0 := by
  show (map (add (dot (oneHot 2 0) (createMatrix 2 1 0)) (createMatrix 1 1 0)) tanh).get 0 0 = 0
  rw [get_map _ _ 0 0 (by decide) (by decide),
    get_add_same _ _ 0 0 (by decide) (by decide) (by decide) (by decide),
    get_dot _ _ 0 0 (by decide) (by decide),
    show (oneHot 2 0).cols = 2 from rfl, Finset.sum_range_succ, Finset.sum_range_one,
    get_oneHot 2 0 0 (by norm_num), get_oneHot 2 0 1 (by norm_num),
    get_createMatrix 2 1 0 0 0 (by norm_num) (by norm_num),
    get_createMatrix 2 1 0 1 0 (by norm_num) (by norm_num),
    get_createMatrix 1 1 0 0 0 (by norm_num) (by norm_num)]
  norm_num [tanh]

lemma exC3_outputRaw :
    add (dot (ffnnHiddenAct exFFNN 0) exFFNN.outputLayer.weights) exFFNN.outputLayer.biases
      = ⟨1, 2, [[0, 0]]⟩ := by
  refine mat_ext _ _ (by decide) (by decide) (by decide) (by decide) ?_
  intro i j hi hj
  have hi1 : i < 1 := by simpa using hi
  have hj2 : j < 2 := by simpa [show exFFNN.outputLayer.weights.cols = 2 from rfl] using hj
  have hi0 : i = 0 := Nat.lt_one_iff.mp hi1
  subst hi0
  rw [get_add_same _ _ 0 j (by decide) (by decide) (by decide)
      (by simpa [show exFFNN.outputLayer.weights.cols = 2 from rfl] using hj),
    get_dot _ _ 0 j (by decide) (by simpa [show exFFNN.outputLayer.weights.cols = 2 from rfl]
      using hj),
    show (ffnnHiddenAct exFFNN 0).cols = 1 from rfl, Finset.sum_range_one, exC3_hact,
    show exFFNN.outputLayer.biases = createMatrix 1 2 0 from rfl,
    get_createMatrix 1 2 0 0 j (by norm_num) hj2]
  interval_cases j <;> norm_num [Matrix.get]

lemma exC3_probs : ffnnProbs exFFNN 0 = ⟨1, 2, [[1 / 2, 1 / 2]]⟩ := by
  show softmax (add (dot (ffnnHiddenAct exFFNN 0) exFFNN.outputLayer.weights)
    exFFNN.outputLayer.biases) = _
  rw [exC3_outputRaw, softmax_row_eq 2 [0, 0] (by simp)]
  norm_num [rowExps, rowMax, sumExps]

lemma exC3_dOutput : (ffnnDOutput exFFNN 0 0).get 0 0 = -(1 / 2)
    ∧ (ffnnDOutput exFFNN 0 0).get 0 1 = 1 / 2 := by
  unfold ffnnDOutput
  rw [exC3_probs]
  constructor
  · rw [get_decAt _ 0 0 0 0 (by norm_num) (by norm_num)]
    norm_num [Matrix.get]
  · rw [get_decAt _ 0 0 0 1 (by norm_num) (by norm_num)]
    norm_num [Matrix.get]

lemma exC3_gradHB : (ffnnGradHB exFFNN 0 0).get 0 0 = -50 := by
  show (multiply (dot (ffnnDOutput exFFNN 0 0) (transpose exFFNN.outputLayer.weights))
    (map (ffnnHiddenAct exFFNN 0) dtanh)).get 0 0 = -50
  rw [get_multiply _ _ 0 0 (by decide) (by decide),
    get_dot _ _ 0 0 (by decide) (by decide),
    get_map _ _ 0 0 (by decide) (by decide), exC3_hact,
    show (ffnnDOutput exFFNN 0 0).cols = 2 from rfl, Finset.sum_range_succ,
    Finset.sum_range_one,
    get_transpose exFFNN.outputLayer.weights 0 0 (by decide) (by decide),
    get_transpose exFFNN.outputLayer.weights 1 0 (by decide) (by decide),
    exC3_dOutput.1, exC3_dOutput.2,
    show exFFNN.outputLayer.weights.get 0 0 = 100 from rfl,
    show exFFNN.outputLayer.weights.get 0 1 = 0 from rfl]
  norm_num [dtanh]

lemma exC3_accHB : (trainStepFFNN exFFNN [0, 0, 0] 0 2 1).hiddenGrad.biases.get 0 0 = -100 := by
  rw [ffnn_accum_hb exFFNN [0, 0, 0] 0 2 1 2 1 2 rfl (by decide) (by decide) (by decide)
      (by decide) rfl 0 (by norm_num),
    show List.range' 0 2 = [0, 1] from rfl]
  norm_num [exC3_gradHB]

lemma exC3_updHB :
    (trainStepFFNN exFFNN [0, 0, 0] 0 2 1).updatedModel.hiddenLayer.biases.get 0 0 = 5 / 2 := by
  rw [ffnn_update_hb exFFNN [0, 0, 0] 0 2 1 2 1 2 rfl (by decide) (by decide) (by decide)
      (by decide) rfl (by norm_num) 0 (by norm_num),
    exC3_accHB, show exFFNN.hiddenLayer.biases.get 0 0 = 0 from rfl]
  norm_num [min_def, max_def]

/-- C3 (amended).  With a shape-correct FFNN model and a window of `n ≠ 0`
processed pairs, every accumulated gradient entry is the *sum* (not the
average) of the per-example gradients over the window, and every parameter is
updated to `old + clip₅(accumulated) · (−learningRate / n)` — the accumulated
gradient is **clipped to ±5 first and the clipped value then divided by
`n`**, not averaged first and then clipped as the claim states. -/
theorem claim_C3_amended (model : FFNNModel) (encodedText : List Nat)
    (step batchSize : Nat) (learningRate : ℝ) (V H n : Nat)
    (hV : model.vocab.length = V)
    (hHW : model.hiddenLayer.weights.wfB V H = true)
    (hHB : model.hiddenLayer.biases.wfB 1 H = true)
    (hOW : model.outputLayer.weights.wfB H V = true)
    (hOB : model.outputLayer.biases.wfB 1 V = true)
    (hn : min (step + batchSize) (encodedText.length - 1) - step = n) (hn0 : n ≠ 0) :
    (∀ i j, i < V → j < H →
      (trainStepFFNN model encodedText step batchSize learningRate).hiddenGrad.weights.get i j
        = ((List.range' step n).map fun t =>
            (ffnnGradHW model (encodedText.getD t 0) (encodedText.getD (t + 1) 0)).get i j).sum)
    ∧ (∀ j, j < H →
      (trainStepFFNN model encodedText step batchSize learningRate).hiddenGrad.biases.get 0 j
        = ((List.range' step n).map fun t =>
            (ffnnGradHB model (encodedText.getD t 0) (encodedText.getD (t + 1) 0)).get 0 j).sum)
    ∧ (∀ i j, i < H → j < V →
      (trainStepFFNN model encodedText step batchSize learningRate).outputGrad.weights.get i j
        = ((List.range' step n).map fun t =>
            (ffnnGradOW model (encodedText.getD t 0) (encodedText.getD (t + 1) 0)).get i j).sum)
    ∧ (∀ j, j < V →
      (trainStepFFNN model encodedText step batchSize learningRate).outputGrad.biases.get 0 j
        = ((List.range' step n).map fun t =>
            (ffnnGradOB model (encodedText.getD t 0) (encodedText.getD (t + 1) 0)).get 0 j).sum)
    ∧ (∀ i j, i < V → j < H →
      (trainStepFFNN model encodedText step batchSize learningRate).updatedModel.hiddenLayer.weights.get i j
        = model.hiddenLayer.weights.get i j
          + max (-5) (min 5
              ((trainStepFFNN model encodedText step batchSize learningRate).hiddenGrad.weights.get i j))
            * (-learningRate / (n : ℝ)))
    ∧ (∀ j, j < H →
      (trainStepFFNN model encodedText step batchSize learningRate).updatedModel.hiddenLayer.biases.get 0 j
        = model.hiddenLayer.biases.get 0 j
          + max (-5) (min 5
              ((trainStepFFNN model encodedText step batchSize learningRate).hiddenGrad.biases.get 0 j))
            * (-learningRate / (n : ℝ)))
    ∧ (∀ i j, i < H → j < V →
      (trainStepFFNN model encodedText step batchSize learningRate).updatedModel.outputLayer.weights.get i j
        = model.outputLayer.weights.get i j
          + max (-5) (min 5
              ((trainStepFFNN model encodedText step batchSize learningRate).outputGrad.weights.get i j))
            * (-learningRate / (n : ℝ)))
    ∧ (∀ j, j < V →
      (trainStepFFNN model encodedText step batchSize learningRate).updatedModel.outputLayer.biases.get 0 j
        = model.outputLayer.biases.get 0 j
          + max (-5) (min 5
              ((trainStepFFNN model encodedText step batchSize learningRate).outputGrad.biases.get 0 j))
            * (-learningRate / (n : ℝ))) :=
  ⟨ffnn_accum_hw model encodedText step batchSize learningRate V H n hV hHW hHB hOW hOB hn,
   ffnn_accum_hb model encodedText step batchSize learningRate V H n hV hHW hHB hOW hOB hn,
   ffnn_accum_ow model encodedText step batchSize learningRate V H n hV hHW hHB hOW hOB hn,
   ffnn_accum_ob model encodedText step batchSize learningRate V H n hV hHW hHB hOW hOB hn,
   ffnn_update_hw model encodedText step batchSize learningRate V H n hV hHW hHB hOW hOB hn hn0,
   ffnn_update_hb model encodedText step batchSize learningRate V H n hV hHW hHB hOW hOB hn hn0,
   ffnn_update_ow model encodedText step batchSize learningRate V H n hV hHW hHB hOW hOB hn hn0,
   ffnn_update_ob model encodedText step batchSize learningRate V H n hV hHW hHB hOW hOB hn hn0⟩

/-- C3 (counterexample to the claim as stated).  On the vocabulary `['a','b']`
FFNN with hidden size 1, zero weights except the `100` output weight, corpus
`[0,0,0]`, window `2`, learning rate `1`: each of the two examples contributes
`−50` to the hidden-bias gradient, so the accumulated gradient is `−100`; the
code updates the bias to `0 + clip₅(−100)·(−1/2) = 5/2`, whereas the claim's
average-then-clip rule `old − learningRate·clip₅(−100/2) = 5` predicts `5`. -/
theorem claim_C3_counterexample :
    ¬((trainStepFFNN exFFNN [0, 0, 0] 0 2 1).updatedModel.hiddenLayer.biases.get 0 0
      = exFFNN.hiddenLayer.biases.get 0 0
        - 1 * max (-5) (min 5
            ((trainStepFFNN exFFNN [0, 0, 0] 0 2 1).hiddenGrad.biases.get 0 0 / 2))) := by
  rw [exC3_updHB, exC3_accHB, show exFFNN.hiddenLayer.biases.get 0 0 = 0 from rfl]
  norm_num [min_def, max_def]

/-- Witness for C3: the amended update rule evaluated on the zero FFNN over
`['a','b','c']`, corpus `[0,1,2]`, window `1`, learning rate `1`, at the
hidden-weight entry `(0,0)`. -/
theorem claim_C3_witness :
    (trainStepFFNN exFFNN3 [0, 1, 2] 0 1 1).updatedModel.hiddenLayer.weights.get 0 0
      = exFFNN3.hiddenLayer.weights.get 0 0
        + max (-5) (min 5 ((trainStepFFNN exFFNN3 [0, 1, 2] 0 1 1).hiddenGrad.weights.get 0 0))
          * (-1 / ((1 : Nat) : ℝ)) :=
  (claim_C3_amended exFFNN3 [0, 1, 2] 0 1 1 3 2 1 rfl (by decide) (by decide) (by decide)
    (by decide) rfl (by norm_num)).2.2.2.2.1 0 0 (by norm_num) (by norm_num)

/-! ## LSTM backward-step entry analysis (claim C1) -/

@[simp] lemma lstmBack_dy_rows (e : LSTMCache) (t : Nat) :
    (lstmBack_dy e t).rows = e.prob.rows := rfl

@[simp] lemma lstmBack_dy_cols (e : LSTMCache) (t : Nat) :
    (lstmBack_dy e t).cols = e.prob.cols := rfl

@[simp] lemma lstmBack_dh0_rows (model : LSTMLanguageModel) (e : LSTMCache) (t : Nat)
    (st : LSTMBack) : (lstmBack_dh0 model e t st).rows = e.prob.rows := by
  simp [lstmBack_dh0]

@[simp] lemma lstmBack_dh0_cols (model : LSTMLanguageModel) (e : LSTMCache) (t : Nat)
    (st : LSTMBack) : (lstmBack_dh0 model e t st).cols = model.Why.weights.rows := by
  simp [lstmBack_dh0]

@[simp] lemma lstmBack_dh_rows (model : LSTMLanguageModel) (e : LSTMCache) (t : Nat)
    (st : LSTMBack) : (lstmBack_dh model e t st).rows = e.prob.rows := by
  unfold lstmBack_dh
  cases e.mask <;> simp

@[simp] lemma lstmBack_dh_cols (model : LSTMLanguageModel) (e : LSTMCache) (t : Nat)
    (st : LSTMBack) : (lstmBack_dh model e t st).cols = model.Why.weights.rows := by
  unfold lstmBack_dh
  cases e.mask <;> simp

@[simp] lemma lstmBack_do_raw_rows (model : LSTMLanguageModel) (e : LSTMCache) (t : Nat)
    (st : LSTMBack) : (lstmBack_do_raw model e t st).rows = e.prob.rows := by
  simp [lstmBack_do_raw]

@[simp] lemma lstmBack_do_raw_cols (model : LSTMLanguageModel) (e : LSTMCache) (t : Nat)
    (st : LSTMBack) : (lstmBack_do_raw model e t st).cols = model.Why.weights.rows := by
  simp [lstmBack_do_raw]

@[simp] lemma lstmBack_dc_rows (model : LSTMLanguageModel) (e : LSTMCache) (t : Nat)
    (st : LSTMBack) : (lstmBack_dc model e t st).rows = st.dc_next_grad.rows := by
  simp [lstmBack_dc]

@[simp] lemma lstmBack_dc_cols (model : LSTMLanguageModel) (e : LSTMCache) (t : Nat)
    (st : LSTMBack) : (lstmBack_dc model e t st).cols = st.dc_next_grad.cols := by
  simp [lstmBack_dc]

@[simp] lemma lstmBack_dc_hat_raw_rows (model : LSTMLanguageModel) (e : LSTMCache) (t : Nat)
    (st : LSTMBack) : (lstmBack_dc_hat_raw model e t st).rows = st.dc_next_grad.rows := by
  simp [lstmBack_dc_hat_raw]

@[simp] lemma lstmBack_dc_hat_raw_cols (model : LSTMLanguageModel) (e : LSTMCache) (t : Nat)
    (st : LSTMBack) : (lstmBack_dc_hat_raw model e t st).cols = st.dc_next_grad.cols := by
  simp [lstmBack_dc_hat_raw]

@[simp] lemma lstmBack_di_raw_rows (model : LSTMLanguageModel) (e : LSTMCache) (t : Nat)
    (st : LSTMBack) : (lstmBack_di_raw model e t st).rows = st.dc_next_grad.rows := by
  simp [lstmBack_di_raw]

@[simp] lemma lstmBack_di_raw_cols (model : LSTMLanguageModel) (e : LSTMCache) (t : Nat)
    (st : LSTMBack) : (lstmBack_di_raw model e t st).cols = st.dc_next_grad.cols := by
  simp [lstmBack_di_raw]

@[simp] lemma lstmBack_df_raw_rows (model : LSTMLanguageModel) (e : LSTMCache) (t : Nat)
    (st : LSTMBack) : (lstmBack_df_raw model e t st).rows = st.dc_next_grad.rows := by
  simp [lstmBack_df_raw]

@[simp] lemma lstmBack_df_raw_cols (model : LSTMLanguageModel) (e : LSTMCache) (t : Nat)
    (st : LSTMBack) : (lstmBack_df_raw model e t st).cols = st.dc_next_grad.cols := by
  simp [lstmBack_df_raw]

/-- C1 (code evaluation).  One LSTM backward step passes to the earlier time
step: `dc_next = dc_t ⊙ f_t` (as the claim states), and `dh_next` equal to
the sum of four recurrent-weight-transposed contributions in which the
forget, input and candidate terms carry their activation derivatives
(`dfR`, `diR`, `dchat`) but the **output-gate term uses `doRaw = dh ⊙
tanh(c_t)` — the gradient *before* the `dsigmoid(o_t)` factor** (the code's
`do_raw` instead of its `do_t`).  This contradicts the claim, which requires
every gate's contribution to be its pre-activation gradient. -/
theorem claim_C1_code (model : LSTMLanguageModel) (V H targetIndex : Nat) (hs_t1 : Matrix)
    (e : LSTMCache) (st : LSTMBack)
    (hWhy : model.Why.weights.wfB H V = true)
    (hUf : model.Uf.weights.wfB H H = true)
    (hUi : model.Ui.weights.wfB H H = true)
    (hUo : model.Uo.weights.wfB H H = true)
    (hUc : model.Uc.weights.wfB H H = true)
    (hprob : e.prob.wfB 1 V = true)
    (hft : e.f_t.wfB 1 H = true) (hit : e.i_t.wfB 1 H = true)
    (hot : e.o_t.wfB 1 H = true) (hcht : e.c_hat_t.wfB 1 H = true)
    (hct : e.c_t.wfB 1 H = true) (hcp : e.c_prev.wfB 1 H = true)
    (hst : st.dh_next_grad.wfB 1 H = true) (hstc : st.dc_next_grad.wfB 1 H = true)
    (dy dh0 dhv doRaw dc dchat diR dfR : Nat → ℝ)
    (hdy : ∀ k, dy k = e.prob.get 0 k - (if k = targetIndex then 1 else 0))
    (hdh0 : ∀ j, dh0 j = (∑ k ∈ Finset.range V, dy k * model.Why.weights.get j k)
      + st.dh_next_grad.get 0 j)
    (hdhv : ∀ j, dhv j = (match e.mask with
      | some mm => dh0 j * mm.get 0 j
      | none => dh0 j))
    (hdoRaw : ∀ k, doRaw k = dhv k * tanh (e.c_t.get 0 k))
    (hdc : ∀ k, dc k = st.dc_next_grad.get 0 k
      + dhv k * (e.o_t.get 0 k * dtanh (tanh (e.c_t.get 0 k))))
    (hdchat : ∀ k, dchat k = (dc k * e.i_t.get 0 k) * dtanh (e.c_hat_t.get 0 k))
    (hdiR : ∀ k, diR k = (dc k * e.c_hat_t.get 0 k) * dsigmoid (e.i_t.get 0 k))
    (hdfR : ∀ k, dfR k = (dc k * e.c_prev.get 0 k) * dsigmoid (e.f_t.get 0 k)) :
    ∀ j, j < H →
      ((lstmBackStep model targetIndex hs_t1 e st).dc_next_grad.get 0 j
        = dc j * e.f_t.get 0 j) ∧
      ((lstmBackStep model targetIndex hs_t1 e st).dh_next_grad.get 0 j
        = (∑ k ∈ Finset.range H, dfR k * model.Uf.weights.get j k)
          + (∑ k ∈ Finset.range H, diR k * model.Ui.weights.get j k)
          + (∑ k ∈ Finset.range H, doRaw k * model.Uo.weights.get j k)
          + (∑ k ∈ Finset.range H, dchat k * model.Uc.weights.get j k)) := by
  have hWhyr := wfB_rows _ _ _ hWhy
  have hWhyc := wfB_cols _ _ _ hWhy
  have hUfr := wfB_rows _ _ _ hUf
  have hUfc := wfB_cols _ _ _ hUf
  have hUir := wfB_rows _ _ _ hUi
  have hUic := wfB_cols _ _ _ hUi
  have hUor := wfB_rows _ _ _ hUo
  have hUoc := wfB_cols _ _ _ hUo
  have hUcr := wfB_rows _ _ _ hUc
  have hUcc := wfB_cols _ _ _ hUc
  have hpr := wfB_rows _ _ _ hprob
  have hpc := wfB_cols _ _ _ hprob
  have hfr := wfB_rows _ _ _ hft
  have hfc := wfB_cols _ _ _ hft
  have hir := wfB_rows _ _ _ hit
  have hic := wfB_cols _ _ _ hit
  have hor := wfB_rows _ _ _ hot
  have hoc := wfB_cols _ _ _ hot
  have hchr := wfB_rows _ _ _ hcht
  have hchc := wfB_cols _ _ _ hcht
  have hctr := wfB_rows _ _ _ hct
  have hctc := wfB_cols _ _ _ hct
  have hcpr := wfB_rows _ _ _ hcp
  have hcpc := wfB_cols _ _ _ hcp
  have hsr := wfB_rows _ _ _ hst
  have hsc := wfB_cols _ _ _ hst
  have hscr := wfB_rows _ _ _ hstc
  have hscc := wfB_cols _ _ _ hstc
  have Hdy : ∀ k, k < V → (lstmBack_dy e targetIndex).get 0 k = dy k := by
    intro k hk
    rw [hdy k]
    unfold lstmBack_dy
    rw [get_decAt e.prob 0 targetIndex 0 k (by simp [hpr]) (by rw [hpc]; exact hk)]
    by_cases hkt : k = targetIndex
    · simp [hkt]
    · simp [hkt]
  have Hdh0 : ∀ j, j < H → (lstmBack_dh0 model e targetIndex st).get 0 j = dh0 j := by
    intro j hj
    rw [hdh0 j]
    unfold lstmBack_dh0
    rw [get_add_same _ _ 0 j (by simp [hpr, hsr]) (by simp [hWhyr, hsc])
      (by simp [hpr]) (by simpa [hWhyr] using hj)]
    congr 1
    rw [get_dot _ _ 0 j (by simp [hpr]) (by simpa [hWhyr] using hj),
      show (lstmBack_dy e targetIndex).cols = V from hpc]
    refine Finset.sum_congr rfl ?_
    intro k hk
    rw [Hdy k (Finset.mem_range.mp hk),
      get_transpose model.Why.weights k j (by rw [hWhyc]; exact Finset.mem_range.mp hk)
        (by rw [hWhyr]; exact hj)]
  have Hdh : ∀ j, j < H → (lstmBack_dh model e targetIndex st).get 0 j = dhv j := by
    intro j hj
    rw [hdhv j]
    unfold lstmBack_dh
    cases hm : e.mask with
    | none => exact Hdh0 j hj
    | some mm =>
      rw [get_multiply _ _ 0 j (by simp [hpr]) (by simpa [hWhyr] using hj), Hdh0 j hj]
  have HdoRaw : ∀ k, k < H → (lstmBack_do_raw model e targetIndex st).get 0 k = doRaw k := by
    intro k hk
    rw [hdoRaw k]
    unfold lstmBack_do_raw
    rw [get_multiply _ _ 0 k (by simp [hpr]) (by simpa [hWhyr] using hk),
      get_map _ _ 0 k (by simp [hctr]) (by rw [hctc]; exact hk),
      Hdh k hk]
  have Hdc : ∀ k, k < H → (lstmBack_dc model e targetIndex st).get 0 k = dc k := by
    intro k hk
    rw [hdc k]
    unfold lstmBack_dc
    rw [get_add_same _ _ 0 k (by simp [hscr, hpr]) (by simp [hscc, hWhyr])
      (by simp [hscr]) (by rw [hscc]; exact hk)]
    congr 1
    rw [get_multiply _ _ 0 k (by simp [hpr]) (by simpa [hWhyr] using hk),
      get_multiply _ _ 0 k (by simp [hor]) (by rw [hoc]; exact hk),
      get_map _ _ 0 k (by simp [hctr]) (by simp [hctc, hk]),
      get_map _ _ 0 k (by simp [hctr]) (by rw [hctc]; exact hk),
      Hdh k hk]
  have Hdchat : ∀ k, k < H →
      (lstmBack_dc_hat_raw model e targetIndex st).get 0 k = dchat k := by
    intro k hk
    rw [hdchat k]
    unfold lstmBack_dc_hat_raw
    rw [get_multiply _ _ 0 k (by simp [hscr]) (by simp [hscc, hk]),
      get_multiply _ _ 0 k (by simp [hscr]) (by rw [lstmBack_dc_cols, hscc]; exact hk),
      get_map _ _ 0 k (by simp [hchr]) (by rw [hchc]; exact hk),
      Hdc k hk]
  have HdiR : ∀ k, k < H → (lstmBack_di_raw model e targetIndex st).get 0 k = diR k := by
    intro k hk
    rw [hdiR k]
    unfold lstmBack_di_raw
    rw [get_multiply _ _ 0 k (by simp [hscr]) (by simp [hscc, hk]),
      get_multiply _ _ 0 k (by simp [hscr]) (by rw [lstmBack_dc_cols, hscc]; exact hk),
      get_map _ _ 0 k (by simp [hir]) (by rw [hic]; exact hk),
      Hdc k hk]
  have HdfR : ∀ k, k < H → (lstmBack_df_raw model e targetIndex st).get 0 k = dfR k := by
    intro k hk
    rw [hdfR k]
    unfold lstmBack_df_raw
    rw [get_multiply _ _ 0 k (by simp [hscr]) (by simp [hscc, hk]),
      get_multiply _ _ 0 k (by simp [hscr]) (by rw [lstmBack_dc_cols, hscc]; exact hk),
      get_map _ _ 0 k (by simp [hfr]) (by rw [hfc]; exact hk),
      Hdc k hk]
  intro j hj
  constructor
  · show (multiply (lstmBack_dc model e targetIndex st) e.f_t).get 0 j = _
    rw [get_multiply _ _ 0 j (by simp [hscr]) (by rw [lstmBack_dc_cols, hscc]; exact hj),
      Hdc j hj]
  · show (add (add (add
        (dot (lstmBack_df_raw model e targetIndex st) (transpose model.Uf.weights))
        (dot (lstmBack_di_raw model e targetIndex st) (transpose model.Ui.weights)))
        (dot (lstmBack_do_raw model e targetIndex st) (transpose model.Uo.weights)))
        (dot (lstmBack_dc_hat_raw model e targetIndex st)
          (transpose model.Uc.weights))).get 0 j = _
    rw [get_add_same _ _ 0 j (by simp [hscr, hpr]) (by simp [hUfr, hUcr])
        (by simp [hscr]) (by simpa [hUfr] using hj),
      get_add_same _ _ 0 j (by simp [hscr, hpr]) (by simp [hUfr, hUor])
        (by simp [hscr]) (by simpa [hUfr] using hj),
      get_add_same _ _ 0 j (by simp [hscr]) (by simp [hUfr, hUir])
        (by simp [hscr]) (by simpa [hUfr] using hj)]
    have hF : (dot (lstmBack_df_raw model e targetIndex st)
        (transpose model.Uf.weights)).get 0 j
        = ∑ k ∈ Finset.range H, dfR k * model.Uf.weights.get j k := by
      rw [get_dot _ _ 0 j (by simp [hscr]) (by simpa [hUfr] using hj),
        show (lstmBack_df_raw model e targetIndex st).cols = H from by simp [hscc]]
      refine Finset.sum_congr rfl ?_
      intro k hk
      rw [HdfR k (Finset.mem_range.mp hk),
        get_transpose model.Uf.weights k j (by rw [hUfc]; exact Finset.mem_range.mp hk)
          (by rw [hUfr]; exact hj)]
    have hI : (dot (lstmBack_di_raw model e targetIndex st)
        (transpose model.Ui.weights)).get 0 j
        = ∑ k ∈ Finset.range H, diR k * model.Ui.weights.get j k := by
      rw [get_dot _ _ 0 j (by simp [hscr]) (by simpa [hUir] using hj),
        show (lstmBack_di_raw model e targetIndex st).cols = H from by simp [hscc]]
      refine Finset.sum_congr rfl ?_
      intro k hk
      rw [HdiR k (Finset.mem_range.mp hk),
        get_transpose model.Ui.weights k j (by rw [hUic]; exact Finset.mem_range.mp hk)
          (by rw [hUir]; exact hj)]
    have hO : (dot (lstmBack_do_raw model e targetIndex st)
        (transpose model.Uo.weights)).get 0 j
        = ∑ k ∈ Finset.range H, doRaw k * model.Uo.weights.get j k := by
      rw [get_dot _ _ 0 j (by simp [hpr]) (by simpa [hUor] using hj),
        show (lstmBack_do_raw model e targetIndex st).cols = H from by simp [hWhyr]]
      refine Finset.sum_congr rfl ?_
      intro k hk
      rw [HdoRaw k (Finset.mem_range.mp hk),
        get_transpose model.Uo.weights k j (by rw [hUoc]; exact Finset.mem_range.mp hk)
          (by rw [hUor]; exact hj)]
    have hC : (dot (lstmBack_dc_hat_raw model e targetIndex st)
        (transpose model.Uc.weights)).get 0 j
        = ∑ k ∈ Finset.range H, dchat k * model.Uc.weights.get j k := by
      rw [get_dot _ _ 0 j (by simp [hscr]) (by simpa [hUcr] using hj),
        show (lstmBack_dc_hat_raw model e targetIndex st).cols = H from by simp [hscc]]
      refine Finset.sum_congr rfl ?_
      intro k hk
      rw [Hdchat k (Finset.mem_range.mp hk),
        get_transpose model.Uc.weights k j (by rw [hUcc]; exact Finset.mem_range.mp hk)
          (by rw [hUcr]; exact hj)]
    rw [hF, hI, hO, hC]

/-- Witness for C1: the characterization evaluated on a concrete LSTM
(`V = 3`, `H = 2`, zero weights, no dropout) at `j = 0`. -/
theorem claim_C1_code_witness :
    ((lstmBackStep exLSTM 0 (createMatrix 1 2 0) exLSTMCache exLSTMBack).dc_next_grad.get 0 0
      = exC1dc 0 * exLSTMCache.f_t.get 0 0) ∧
    ((lstmBackStep exLSTM 0 (createMatrix 1 2 0) exLSTMCache exLSTMBack).dh_next_grad.get 0 0
      = (∑ k ∈ Finset.range 2, exC1dfR k * exLSTM.Uf.weights.get 0 k)
        + (∑ k ∈ Finset.range 2, exC1diR k * exLSTM.Ui.weights.get 0 k)
        + (∑ k ∈ Finset.range 2, exC1doRaw k * exLSTM.Uo.weights.get 0 k)
        + (∑ k ∈ Finset.range 2, exC1dchat k * exLSTM.Uc.weights.get 0 k)) :=
  claim_C1_code exLSTM 3 2 0 (createMatrix 1 2 0) exLSTMCache exLSTMBack
    (by decide) (by decide) (by decide) (by decide) (by decide) (by decide) (by decide)
    (by decide) (by decide) (by decide) (by decide) (by decide) (by decide) (by decide)
    exC1dy exC1dh0 exC1dhv exC1doRaw exC1dc exC1dchat exC1diR exC1dfR
    (fun kg => rfl) (fun jh => rfl) (fun ji => rfl) (fun kj => rfl) (fun kk => rfl)
    (fun km => rfl) (fun kn => rfl) (fun kp => rfl) 0 (by norm_num)

/-! ## Claim C10: `trainStepRNN` never reads nor writes `Whh.biases` -/

/-- C10.  Replacing the recurrent layer's bias vector by an arbitrary matrix
`B` changes nothing in the result of `trainStepRNN` except that the returned
model carries `B` in that same slot, and the returned model's `Whh.biases` is
the input model's: the training step neither reads nor updates it. -/
theorem claim_C10 (model : RNNModel) (B : Matrix) (encodedText : List Nat)
    (step sequenceLength : Nat) (learningRate dropoutRate : ℝ) (masks : Nat → Matrix) :
    trainStepRNN { model with Whh := ⟨model.Whh.weights, B⟩ } encodedText step
        sequenceLength learningRate dropoutRate masks =
      { trainStepRNN model encodedText step sequenceLength learningRate dropoutRate masks with
          updatedModel :=
            { (trainStepRNN model encodedText step sequenceLength learningRate dropoutRate
                masks).updatedModel with
              Whh := ⟨(trainStepRNN model encodedText step sequenceLength learningRate
                dropoutRate masks).updatedModel.Whh.weights, B⟩ } } ∧
    (trainStepRNN model encodedText step sequenceLength learningRate dropoutRate
      masks).updatedModel.Whh.biases = model.Whh.biases :=
  ⟨rfl, rfl⟩

end

end LM
